import Mathlib

/-!
Verification development for the ecom-synth synthetic-data generator
(src/utils/helpers.js, src/config.js, src/generators/index.js).

Modelling conventions, used consistently below:

* JS numbers are modelled exactly: integer-valued quantities as `ℤ`/`ℕ`,
  fractional quantities as `ℚ`.  Every numeric literal appearing in the
  source (0.4, 0.15, ...) is exactly representable in `ℚ`; all roundings
  performed by the source happen far from representation-error boundaries,
  so the rational model agrees with IEEE double evaluation on the ranges
  exercised by the generator.
* `Math.random()` is modelled as an explicit stream of rationals: a function
  `Nat → ℚ` together with a cursor.  A stream is `Valid` when all its values
  lie in `[0, 1)`, which is what `Math.random` guarantees.
* `Math.round x` is `⌊x + 1/2⌋` (JS rounds half toward +∞), `Math.floor` is
  `⌊·⌋`, and `Number(x.toFixed(d))` is rounding to `d` decimal places.
* `uuidv4()` (helpers.generateId) draws from the uuid library's own
  cryptographic source, whose contract is freshness; it is modelled as a
  fresh-identifier supply (a counter), so ids are `Nat`.
* faker calls use faker's internal PRNG (not `Math.random`); their string or
  list results are modelled as oracle functions in an environment `Env`,
  consumed through a separate cursor.  `Math.exp` and the calendar
  operations of the JS `Date` class (getMonth, getDay, setHours) are
  likewise uninterpreted oracle functions in `Env`; dates themselves are
  epoch milliseconds (`ℤ`), and `date.setDate(date.getDate() + n)` is
  `+ n * 86400000`.
* Where JS would dereference a value that is only defined for in-range
  random draws (e.g. `array[i]` after `randomChoice` on a non-empty
  literal array), the model uses `Option` plus an explicit default; the
  default is unreachable for a `Valid` stream.
-/

set_option allowUnsafeReducibility true
set_option maxHeartbeats 1600000
set_option maxRecDepth 8000

/- The kernel always unfolds these core arithmetic definitions; making them
semireducible lets the `decide` elaborator evaluate concrete runs of the
generator the same way the kernel will. -/
attribute [semireducible] Rat.add Rat.sub Rat.mul Rat.neg Rat.inv Rat.div Rat.ofScientific

namespace EcomSynth

/-- Model of the global `Math.random` stream: an infinite sequence of
rationals and a cursor pointing at the next value to be produced. -/
structure Rng where
  f : Nat → ℚ
  k : Nat

/-- Draw one value from the stream (one `Math.random()` call). -/
def rnd (g : Rng) : ℚ × Rng := (g.f g.k, ⟨g.f, g.k + 1⟩)

/-- A stream is valid when every value lies in `[0, 1)`, as `Math.random`
guarantees. -/
def Rng.Valid (g : Rng) : Prop := ∀ n, 0 ≤ g.f n ∧ g.f n < 1

/-- JS `Math.round`: round half toward positive infinity. -/
def jround (q : ℚ) : ℤ := ⌊q + 1/2⌋

/-- JS `Number(x.toFixed(decimals))` for the non-negative values the
generator feeds it: round to `decimals` decimal places. -/
def toFixedNum (decimals : Nat) (q : ℚ) : ℚ := (jround (q * 10 ^ decimals) : ℚ) / 10 ^ decimals

/-- helpers.clamp: clamp a value between min and max. -/
def clamp (value mn mx : ℚ) : ℚ := max mn (min mx value)

/-- helpers.roundTo: round to N decimal places. -/
def roundTo (value : ℚ) (decimals : Nat) : ℚ := toFixedNum decimals value

/-- JS `x || d` for a possibly-missing number: the default replaces both a
missing value and a zero (JS falsy) value. -/
def jsOr (x : Option ℚ) (d : ℚ) : ℚ :=
  match x with
  | none => d
  | some v => if v = 0 then d else v

/-- helpers.randomChoice: `array[Math.floor(Math.random() * array.length)]`;
`none` models the `undefined` produced on an empty array or an out-of-range
draw. -/
def randomChoice {α : Type} (array : List α) (g : Rng) : Option α × Rng :=
  let (r, g1) := rnd g
  (array.get? (⌊r * array.length⌋).toNat, g1)

/-- Scan loop of helpers.weightedChoice: subtract each weight from the
running value and return the first item where it reaches `≤ 0`. -/
def wcScan {α : Type} : List (α × ℚ) → ℚ → Option α
  | [], _ => none
  | (item, weight) :: rest, random =>
      if random - weight ≤ 0 then some item else wcScan rest (random - weight)

/-- helpers.weightedChoice: weighted random pick with a fall-back to the
last item when the scan loop does not return. -/
def weightedChoice {α : Type} (weightedItems : List (α × ℚ)) (g : Rng) : Option α × Rng :=
  let totalWeight := weightedItems.foldl (fun sum item => sum + item.2) 0
  let (r, g1) := rnd g
  let random := r * totalWeight
  (match wcScan weightedItems random with
   | some item => some item
   | none => (weightedItems.getLast?).map (·.1), g1)

/-- helpers.randomInt: `Math.floor(Math.random() * (max - min + 1)) + min`. -/
def randomInt (mn mx : ℤ) (g : Rng) : ℤ × Rng :=
  let (r, g1) := rnd g
  (⌊r * (mx - mn + 1)⌋ + mn, g1)

/-- helpers.randomFloat: `Math.random() * (max - min) + min`. -/
def randomFloat (mn mx : ℚ) (g : Rng) : ℚ × Rng :=
  let (r, g1) := rnd g
  (r * (mx - mn) + mn, g1)

/-- helpers.randomBool: `Math.random() < probability`. -/
def randomBool (probability : ℚ) (g : Rng) : Bool × Rng :=
  let (r, g1) := rnd g
  (decide (r < probability), g1)

/-- helpers.randomDate: `startTime + Math.random() * (endTime - startTime)`,
truncated to integer milliseconds by the `Date` constructor. -/
def randomDate (start finish : ℤ) (g : Rng) : ℤ × Rng :=
  let (r, g1) := rnd g
  (⌊(start : ℚ) + r * ((finish : ℚ) - (start : ℚ))⌋, g1)

/-- helpers.generateHash character loop: build a string of `length` chars
drawn from the hex alphabet. -/
def hashChars : List Char := ['a', 'b', 'c', 'd', 'e', 'f', '0', '1', '2', '3', '4', '5', '6', '7', '8', '9']

/-- helpers.generateHash: an anonymized customer-id token of hex characters
drawn from the `Math.random` stream. -/
def generateHash (length : Nat) (g : Rng) : String × Rng :=
  match length with
  | 0 => ("", g)
  | n + 1 =>
      let (r, g1) := rnd g
      let c := hashChars.getD (⌊r * (hashChars.length : ℚ)⌋).toNat 'a'
      let (rest, g2) := generateHash n g1
      (String.mk (c :: rest.data), g2)

/-- Configuration record for one conversion-rate range (config.funnelRates
entries). -/
structure RateRange where
  min : ℚ
  max : ℚ
deriving DecidableEq

/-- helpers.calculateConversionRate: sample uniformly inside the configured
range (the variance parameter is unused by the source). -/
def calculateConversionRate (baseRate : RateRange) (g : Rng) : ℚ × Rng :=
  randomFloat baseRate.min baseRate.max g

/-- The six per-stage rate ranges consumed by generateFunnelMetrics
(config.funnelRates). -/
structure FunnelRates where
  engagementToDM : RateRange
  dmToPhotoRequest : RateRange
  photoRequestToReceived : RateRange
  photoToTryon : RateRange
  tryonToLinkClick : RateRange
  linkClickToPurchase : RateRange
deriving DecidableEq

/-- config.funnelRates (the six ranges used by the funnel calculator). -/
def CONFIG.funnelRates : FunnelRates where
  engagementToDM := ⟨0.02, 0.08⟩
  dmToPhotoRequest := ⟨0.60, 0.85⟩
  photoRequestToReceived := ⟨0.35, 0.55⟩
  photoToTryon := ⟨0.80, 0.95⟩
  tryonToLinkClick := ⟨0.40, 0.65⟩
  linkClickToPurchase := ⟨0.15, 0.30⟩

/-- Result record of helpers.generateFunnelMetrics. -/
structure FunnelMetrics where
  total_triggers : ℤ
  total_dm_conversations : ℤ
  total_photo_requests : ℤ
  total_photos_received : ℤ
  total_generations : ℤ
  successful_generations : ℤ
  total_purchases : ℤ
  trigger_to_dm_rate : ℚ
  dm_to_photo_rate : ℚ
  photo_to_success_rate : ℚ
  overall_conversion_rate : ℚ
deriving DecidableEq

/-- helpers.generateFunnelMetrics: apply the six sampled stage rates
sequentially, rounding each stage count, then derive the four percentage
ratios with a division-by-zero guard. -/
def generateFunnelMetrics (totalTriggers : ℤ) (rates : FunnelRates) (g : Rng) :
    FunnelMetrics × Rng :=
  let (r1, g1) := calculateConversionRate rates.engagementToDM g
  let dmConversations := jround ((totalTriggers : ℚ) * r1)
  let (r2, g2) := calculateConversionRate rates.dmToPhotoRequest g1
  let photoRequests := jround ((dmConversations : ℚ) * r2)
  let (r3, g3) := calculateConversionRate rates.photoRequestToReceived g2
  let photosReceived := jround ((photoRequests : ℚ) * r3)
  let (r4, g4) := calculateConversionRate rates.photoToTryon g3
  let tryonsCompleted := jround ((photosReceived : ℚ) * r4)
  let (r5, g5) := calculateConversionRate rates.tryonToLinkClick g4
  let linkClicks := jround ((tryonsCompleted : ℚ) * r5)
  let (r6, g6) := calculateConversionRate rates.linkClickToPurchase g5
  let purchases := jround ((linkClicks : ℚ) * r6)
  ({ total_triggers := totalTriggers
     total_dm_conversations := dmConversations
     total_photo_requests := photoRequests
     total_photos_received := photosReceived
     total_generations := photosReceived
     successful_generations := tryonsCompleted
     total_purchases := purchases
     trigger_to_dm_rate :=
       if totalTriggers > 0 then toFixedNum 2 ((dmConversations : ℚ) / (totalTriggers : ℚ) * 100) else 0
     dm_to_photo_rate :=
       if dmConversations > 0 then toFixedNum 2 ((photosReceived : ℚ) / (dmConversations : ℚ) * 100) else 0
     photo_to_success_rate :=
       if photosReceived > 0 then toFixedNum 2 ((tryonsCompleted : ℚ) / (photosReceived : ℚ) * 100) else 0
     overall_conversion_rate :=
       if totalTriggers > 0 then toFixedNum 2 ((purchases : ℚ) / (totalTriggers : ℚ) * 100) else 0 }, g6)

/-- Result record of helpers.generateEngagementMetrics. -/
structure EngagementMetrics where
  impressions : ℤ
  reach : ℤ
  likes : ℤ
  comments : ℤ
  shares : ℤ
  saves : ℤ
  engagement_rate : ℚ
deriving DecidableEq

/-- helpers.generateEngagementMetrics: derive impressions and the
like/comment/share/save split from a reach value. -/
def generateEngagementMetrics (reach : ℤ) (g : Rng) : EngagementMetrics × Rng :=
  let (m, g1) := randomFloat 1.2 2.5 g
  let impressions := jround ((reach : ℚ) * m)
  let (engagementRate, g2) := randomFloat 0.01 0.15 g1
  let totalEngagement := jround ((reach : ℚ) * engagementRate)
  let (lr, g3) := randomFloat 0.6 0.8 g2
  let likes := jround ((totalEngagement : ℚ) * lr)
  let (cr, g4) := randomFloat 0.05 0.15 g3
  let comments := jround ((totalEngagement : ℚ) * cr)
  let (sr, g5) := randomFloat 0.02 0.08 g4
  let shares := jround ((totalEngagement : ℚ) * sr)
  let saves := totalEngagement - likes - comments - shares
  ({ impressions := impressions
     reach := reach
     likes := max 0 likes
     comments := max 0 comments
     shares := max 0 shares
     saves := max 0 saves
     engagement_rate := toFixedNum 2 (engagementRate * 100) }, g5)

/-- Environment of external collaborators: the wall clock, the calendar
arithmetic of the JS `Date` class, `Math.exp`, and the faker library (which
uses its own PRNG, separate from `Math.random`), the latter consumed
through a cursor threaded alongside the random stream. -/
structure Env where
  now : ℤ
  monthOf : ℤ → ℕ
  dayOf : ℤ → ℕ
  setHMS : ℤ → ℤ → ℤ → ℤ → ℤ
  setHM : ℤ → ℤ → ℤ → ℤ
  jsExp : ℚ → ℚ
  fakerStr : ℕ → String
  fakerPickList : ℕ → List String

/-- Milliseconds in a day; `date.setDate(date.getDate() ± n)` is modelled as
`± n * msPerDay`. -/
def msPerDay : ℤ := 86400000

/-- helpers.daysAgo: a date N days before now. -/
def daysAgo (env : Env) (days : ℤ) : ℤ := env.now - days * msPerDay

/-- One scale preset from config.scales. -/
structure Scale where
  name : String
  description : String
  workspaces : ℕ
  productsPerWorkspace : ℕ
  variantsPerProduct : ℕ
  postsPerWorkspace : ℕ
  conversationsPerWorkspace : ℕ
  ordersPerWorkspace : ℕ
  daysOfHistory : ℕ
  customersPerWorkspace : ℕ

/-- config.scales.small. -/
def CONFIG.scalesSmall : Scale where
  name := "Small"
  description := "Quick test dataset (~4,000 records)"
  workspaces := 2
  productsPerWorkspace := 10
  variantsPerProduct := 3
  postsPerWorkspace := 20
  conversationsPerWorkspace := 50
  ordersPerWorkspace := 30
  daysOfHistory := 30
  customersPerWorkspace := 200

/-- config.scales.medium. -/
def CONFIG.scalesMedium : Scale where
  name := "Medium"
  description := "Development dataset (~50,000 records)"
  workspaces := 5
  productsPerWorkspace := 50
  variantsPerProduct := 4
  postsPerWorkspace := 100
  conversationsPerWorkspace := 500
  ordersPerWorkspace := 200
  daysOfHistory := 90
  customersPerWorkspace := 1000

/-- config.scales.large. -/
def CONFIG.scalesLarge : Scale where
  name := "Large"
  description := "Production-like dataset (~300,000 records)"
  workspaces := 10
  productsPerWorkspace := 200
  variantsPerProduct := 5
  postsPerWorkspace := 500
  conversationsPerWorkspace := 2000
  ordersPerWorkspace := 1000
  daysOfHistory := 180
  customersPerWorkspace := 5000

/-- config.scales.planning. -/
def CONFIG.scalesPlanning : Scale where
  name := "Planning Optimized"
  description := "Optimized for AI planning algorithms"
  workspaces := 3
  productsPerWorkspace := 100
  variantsPerProduct := 6
  postsPerWorkspace := 200
  conversationsPerWorkspace := 1000
  ordersPerWorkspace := 500
  daysOfHistory := 365
  customersPerWorkspace := 2000

/-- config.seasonality.monthly: monthly multipliers, keyed by 1..12. -/
def CONFIG.seasonalityMonthly (month : ℕ) : Option ℚ :=
  match month with
  | 1 => some 0.85
  | 2 => some 0.75
  | 3 => some 0.78
  | 4 => some 0.92
  | 5 => some 0.98
  | 6 => some 0.95
  | 7 => some 0.88
  | 8 => some 0.92
  | 9 => some 1.07
  | 10 => some 0.84
  | 11 => some 1.29
  | 12 => some 1.15
  | _ => none

/-- config.engagement.hourlyWeights: the 24 hourly engagement weights. -/
def CONFIG.hourlyWeights : List ℚ :=
  [0.008, 0.005, 0.004, 0.004, 0.006, 0.015,
   0.025, 0.055, 0.070, 0.065, 0.055, 0.075,
   0.080, 0.070, 0.050, 0.045, 0.050, 0.065,
   0.075, 0.080, 0.075, 0.055, 0.035, 0.018]

/-- config.engagement.dailyWeights: day-of-week multipliers keyed 0..6. -/
def CONFIG.dailyWeights (day : ℕ) : Option ℚ :=
  match day with
  | 0 => some 0.85
  | 1 => some 0.95
  | 2 => some 1.15
  | 3 => some 1.20
  | 4 => some 1.15
  | 5 => some 1.00
  | 6 => some 0.80
  | _ => none

/-- config.devices.distribution. -/
def CONFIG.devicesMobile : ℚ := 0.70

/-- config.devices.distribution.desktop share. -/
def CONFIG.devicesDesktop : ℚ := 0.28

/-- config.devices.distribution.tablet share. -/
def CONFIG.devicesTablet : ℚ := 0.02

/-- config.devices.conversionMultiplier keyed by device name. -/
def CONFIG.conversionMultiplier (device : String) : Option ℚ :=
  if device = "mobile" then some 0.85
  else if device = "desktop" then some 1.70
  else if device = "tablet" then some 1.00
  else none

/-- One performance-tier bucket of config.postPerformance.distribution:
name, probability, multiplier min, multiplier max. -/
structure TierBucket where
  tier : String
  probability : ℚ
  multMin : ℚ
  multMax : ℚ
deriving DecidableEq

/-- config.postPerformance.distribution, in object-entry order. -/
def CONFIG.postPerformanceDistribution : List TierBucket :=
  [⟨"viral", 0.03, 5, 15⟩,
   ⟨"highPerforming", 0.12, 2, 5⟩,
   ⟨"average", 0.50, 0.7, 1.5⟩,
   ⟨"underperforming", 0.25, 0.3, 0.7⟩,
   ⟨"flop", 0.10, 0.05, 0.3⟩]

/-- One product category of config.categories. -/
structure Category where
  name : String
  weight : ℚ
  avgPrice : ℚ
  returnRate : ℚ
deriving DecidableEq

/-- config.categories. -/
def CONFIG.categories : List Category :=
  [⟨"Dresses", 0.18, 8999, 0.35⟩,
   ⟨"Tops", 0.25, 4999, 0.25⟩,
   ⟨"Pants", 0.14, 6999, 0.30⟩,
   ⟨"Outerwear", 0.10, 14999, 0.20⟩,
   ⟨"Activewear", 0.12, 5999, 0.22⟩,
   ⟨"Swimwear", 0.05, 7999, 0.40⟩,
   ⟨"Accessories", 0.10, 3999, 0.15⟩,
   ⟨"Shoes", 0.06, 9999, 0.28⟩]

/-- config.pricing.products bounds (cents). -/
def CONFIG.pricingMin : ℚ := 1999

/-- config.pricing.products.max (cents). -/
def CONFIG.pricingMax : ℚ := 29999

/-- config.pricing.products.median (cents). -/
def CONFIG.pricingMedian : ℚ := 7999

/-- config.inventory.initialStock bounds. -/
def CONFIG.initialStockMin : ℤ := 10

/-- config.inventory.initialStock.max. -/
def CONFIG.initialStockMax : ℤ := 500

/-- config.inventory.sizeDistribution, keyed by size name. -/
def CONFIG.sizeDistribution (size : String) : Option ℚ :=
  if size = "XS" then some 0.08
  else if size = "S" then some 0.18
  else if size = "M" then some 0.30
  else if size = "L" then some 0.26
  else if size = "XL" then some 0.13
  else if size = "XXL" then some 0.05
  else none

/-- config.geography.countries: code, weight, conversionMult. -/
def CONFIG.countries : List (String × ℚ × ℚ) :=
  [("US", 0.55, 1.0), ("CA", 0.08, 0.95), ("GB", 0.12, 0.90),
   ("AU", 0.06, 0.85), ("DE", 0.07, 0.88), ("FR", 0.05, 0.85),
   ("OTHER", 0.07, 0.70)]

/-- config.sizes. -/
def CONFIG.sizes : List String := ["XS", "S", "M", "L", "XL", "XXL"]

/-- config.colors. -/
def CONFIG.colors : List String :=
  ["Black", "White", "Navy", "Gray", "Beige",
   "Red", "Pink", "Blue", "Green", "Brown"]

/-- config.conversationStates. -/
def CONFIG.conversationStates : List String :=
  ["initial", "greeting_sent", "awaiting_response", "photo_requested",
   "awaiting_photo", "processing_tryon", "result_sent", "completed", "abandoned"]

/-- config.weatherConditions. -/
def CONFIG.weatherConditions : List String :=
  ["sunny", "cloudy", "rainy", "snowy", "hot", "cold"]

/-- config.output.nullProbability. -/
def CONFIG.nullProbability : ℚ := 0.02

/-- schemas EVENT_TYPES (string constants for customer_journeys). -/
def EVENT_TYPES.POST_VIEW : String := "post_view"

/-- EVENT_TYPES.POST_LIKE. -/
def EVENT_TYPES.POST_LIKE : String := "post_like"

/-- EVENT_TYPES.POST_COMMENT. -/
def EVENT_TYPES.POST_COMMENT : String := "post_comment"

/-- EVENT_TYPES.POST_SAVE. -/
def EVENT_TYPES.POST_SAVE : String := "post_save"

/-- EVENT_TYPES.POST_SHARE. -/
def EVENT_TYPES.POST_SHARE : String := "post_share"

/-- EVENT_TYPES.DM_STARTED. -/
def EVENT_TYPES.DM_STARTED : String := "dm_started"

/-- EVENT_TYPES.TRIGGER_KEYWORD. -/
def EVENT_TYPES.TRIGGER_KEYWORD : String := "trigger_keyword"

/-- EVENT_TYPES.BOT_GREETING. -/
def EVENT_TYPES.BOT_GREETING : String := "bot_greeting"

/-- EVENT_TYPES.PHOTO_REQUESTED. -/
def EVENT_TYPES.PHOTO_REQUESTED : String := "photo_requested"

/-- EVENT_TYPES.PHOTO_RECEIVED. -/
def EVENT_TYPES.PHOTO_RECEIVED : String := "photo_received"

/-- EVENT_TYPES.TRYON_STARTED. -/
def EVENT_TYPES.TRYON_STARTED : String := "tryon_started"

/-- EVENT_TYPES.TRYON_COMPLETED. -/
def EVENT_TYPES.TRYON_COMPLETED : String := "tryon_completed"

/-- EVENT_TYPES.TRYON_FAILED. -/
def EVENT_TYPES.TRYON_FAILED : String := "tryon_failed"

/-- EVENT_TYPES.PRODUCT_LINK_CLICKED. -/
def EVENT_TYPES.PRODUCT_LINK_CLICKED : String := "product_link_clicked"

/-- EVENT_TYPES.ADD_TO_CART. -/
def EVENT_TYPES.ADD_TO_CART : String := "add_to_cart"

/-- EVENT_TYPES.CHECKOUT_STARTED. -/
def EVENT_TYPES.CHECKOUT_STARTED : String := "checkout_started"

/-- EVENT_TYPES.PURCHASE_COMPLETED. -/
def EVENT_TYPES.PURCHASE_COMPLETED : String := "purchase_completed"

/-- EVENT_TYPES.REVIEW_SUBMITTED. -/
def EVENT_TYPES.REVIEW_SUBMITTED : String := "review_submitted"

/-- EVENT_TYPES.RETURN_INITIATED. -/
def EVENT_TYPES.RETURN_INITIATED : String := "return_initiated"

/-- EVENT_TYPES.REPEAT_VISIT. -/
def EVENT_TYPES.REPEAT_VISIT : String := "repeat_visit"

/-- helpers.getWeightedHour: weighted choice of an hour from the hourly
engagement weights. -/
def getWeightedHour (g : Rng) : Option ℕ × Rng :=
  weightedChoice (CONFIG.hourlyWeights.enum.map (fun p => (p.1, p.2))) g

/-- helpers.getWeightedDayOfWeek: weighted choice over the day-of-week
table (0=Sunday to 6=Saturday). -/
def getWeightedDayOfWeek (g : Rng) : Option ℕ × Rng :=
  weightedChoice
    [(0, 0.85), (1, 0.95), (2, 1.15), (3, 1.20), (4, 1.15), (5, 1.00), (6, 0.80)] g

/-- helpers.getWeightedCountry. -/
def getWeightedCountry (g : Rng) : Option String × Rng :=
  weightedChoice (CONFIG.countries.map (fun c => (c.1, c.2.1))) g

/-- helpers.getWeightedDevice. -/
def getWeightedDevice (g : Rng) : Option String × Rng :=
  weightedChoice
    [("mobile", CONFIG.devicesMobile), ("desktop", CONFIG.devicesDesktop),
     ("tablet", CONFIG.devicesTablet)] g

/-- helpers.getWeightedCategory. -/
def getWeightedCategory (g : Rng) : Option Category × Rng :=
  weightedChoice (CONFIG.categories.map (fun c => (c, c.weight))) g

/-- helpers.getWeightedSize. -/
def getWeightedSize (g : Rng) : Option String × Rng :=
  weightedChoice
    (CONFIG.sizes.map (fun size => (size, (CONFIG.sizeDistribution size).getD 0.15))) g

/-- Default branch of helpers.generatePrice: skewed distribution toward the
median price. -/
def generatePriceDefault (g : Rng) : ℤ × Rng :=
  let (skew, g1) := randomFloat (-1) 1 g
  let range := if skew > 0 then CONFIG.pricingMax - CONFIG.pricingMedian
               else CONFIG.pricingMedian - CONFIG.pricingMin
  (jround (CONFIG.pricingMedian + skew * range * |skew|), g1)

/-- helpers.generatePrice: category-based price when the category is found,
else the skewed default distribution. -/
def generatePrice (category : Option String) (g : Rng) : ℤ × Rng :=
  match category with
  | some catName =>
      match CONFIG.categories.find? (fun c => c.name = catName) with
      | some cat =>
          let (m, g1) := randomFloat 0.5 1.5 g
          (jround (cat.avgPrice * m), g1)
      | none => generatePriceDefault g
  | none => generatePriceDefault g

/-- Pad a decimal string on the left with zeros to length 4
(JS `String(index).padStart(4, '0')`). -/
def padStart4Zero (s : String) : String :=
  if s.length ≥ 4 then s else String.mk (List.replicate (4 - s.length) '0') ++ s

/-- helpers.generateSKU. -/
def generateSKU (category : String) (index : ℕ) (g : Rng) : String × Rng :=
  let pre := (category.take 3).toUpper
  let num := padStart4Zero (toString index)
  let (suffix?, g1) := randomChoice ["A", "B", "C", "D", "E"] g
  (pre ++ "-" ++ num ++ "-" ++ suffix?.getD "A", g1)

/-- helpers.maybeNull with the default null probability. -/
def maybeNull {α : Type} (value : α) (g : Rng) : Option α × Rng :=
  let (b, g1) := randomBool CONFIG.nullProbability g
  (if b then none else some value, g1)

/-- Workspace record (generateWorkspaces). -/
structure Workspace where
  id : ℕ
  name : String
  slug : String
  created_at : ℤ
  updated_at : ℤ
deriving DecidableEq

/-- Account record (generateWorkspaces). -/
structure Account where
  id : ℕ
  workspace_id : ℕ
  platform : String
  platform_account_id : String
  platform_username : String
  status : String
  created_at : ℤ
deriving DecidableEq

/-- Product record (generateProducts). -/
structure Product where
  id : ℕ
  workspace_id : ℕ
  account_id : ℕ
  shopify_product_id : String
  title : String
  description : String
  vendor : String
  product_type : String
  tags : List String
  price_cents : ℤ
  compare_at_price_cents : Option ℤ
  cost_cents : ℤ
  total_inventory : ℤ
  has_variants_in_stock : Bool
  lowest_stock_level : ℤ
  variants_count : ℕ
  status : String
  created_at : ℤ
  updated_at : ℤ
deriving DecidableEq

/-- Product variant record (generateProductVariants). -/
structure Variant where
  id : ℕ
  product_id : ℕ
  shopify_variant_id : String
  title : String
  sku : String
  size : String
  color : String
  price_cents : ℤ
  inventory_quantity : ℚ
  available : Bool
  created_at : ℤ
  updated_at : ℤ
deriving DecidableEq

/-- Inventory ledger record (generateInventoryHistory). -/
structure InventoryHistoryRecord where
  id : ℕ
  variant_id : ℕ
  product_id : ℕ
  previous_quantity : ℚ
  new_quantity : ℚ
  change_amount : ℚ
  change_source : String
  change_reason : String
  recorded_at : ℤ
deriving DecidableEq

/-- Social post record (generateSocialPosts). -/
structure SocialPost where
  id : ℕ
  workspace_id : ℕ
  account_id : ℕ
  platform_post_id : String
  media_type : Option String
  caption : String
  permalink : String
  product_id : Option ℕ
  posted_at : ℤ
  created_at : ℤ
deriving DecidableEq

/-- Post metric record (generatePostMetrics). -/
structure PostMetric where
  id : ℕ
  post_id : ℕ
  account_id : ℕ
  metric_date : ℤ
  metric_hour : Option ℕ
  impressions : ℤ
  reach : ℤ
  likes : ℤ
  comments : ℤ
  shares : ℤ
  saves : ℤ
  engagement_rate : ℚ
  created_at : ℤ
deriving DecidableEq

/-- Garment binding record (generateGarmentBindings). -/
structure GarmentBinding where
  id : ℕ
  post_id : ℕ
  product_id : ℕ
  workspace_id : ℕ
  account_id : ℕ
  garment_name : String
  is_active : Bool
  total_triggers : ℤ
  total_dm_conversations : ℤ
  total_photo_requests : ℤ
  total_photos_received : ℤ
  total_generations : ℤ
  successful_generations : ℤ
  total_purchases : ℤ
  trigger_to_dm_rate : ℚ
  dm_to_photo_rate : ℚ
  photo_to_success_rate : ℚ
  overall_conversion_rate : ℚ
  total_revenue_cents : ℤ
  avg_response_time_ms : ℤ
  avg_generation_time_ms : ℤ
  last_used_at : Option ℤ
  created_at : ℤ
  updated_at : ℤ
deriving DecidableEq

/-- Conversation record (generateConversations). -/
structure Conversation where
  id : ℕ
  workspace_id : ℕ
  account_id : ℕ
  participant_id : String
  conversation_state : Option String
  category : String
  started_at : ℤ
  last_message_at : ℤ
  message_count : ℤ
  bot_messages : ℤ
  user_messages : ℤ
  resulted_in_tryon : Bool
  resulted_in_purchase : Bool
  purchase_amount_cents : Option ℤ
  created_at : ℤ
deriving DecidableEq

/-- Order record (generateOrders). -/
structure Order where
  id : ℕ
  workspace_id : ℕ
  account_id : ℕ
  shopify_order_id : String
  order_number : ℤ
  customer_id : String
  total_price_cents : ℤ
  subtotal_cents : ℤ
  tax_cents : ℤ
  shipping_cents : ℤ
  discount_cents : ℤ
  line_items_count : ℤ
  financial_status : Option String
  fulfillment_status : Option String
  attributed_to_tryon : Bool
  attribution_confidence : Option String
  conversation_id : Option ℕ
  binding_id : Option ℕ
  ordered_at : ℤ
  created_at : ℤ
deriving DecidableEq

/-- Customer journey event record (generateCustomerJourneys). -/
structure JourneyEvent where
  id : ℕ
  session_id : ℕ
  customer_id : String
  workspace_id : ℕ
  event_type : String
  event_timestamp : ℤ
  source_platform : String
  device_type : String
  geo_country : Option String
  geo_region : Option String
  post_id : Option ℕ
  product_id : Option ℕ
  conversation_id : Option ℕ
  funnel_stage : ℕ
  converted_to_next_stage : Bool
  time_to_next_event_seconds : ℤ
  session_event_number : ℕ
  is_session_first_event : Bool
  is_session_last_event : Bool
deriving DecidableEq

/-- Daily aggregate record (generateDailyAggregates). -/
structure DailyAggregate where
  id : ℕ
  workspace_id : ℕ
  product_id : Option ℕ
  metric_date : ℤ
  impressions : ℤ
  post_engagements : ℤ
  dm_conversations_started : ℤ
  tryons_completed : ℤ
  orders_placed : ℤ
  revenue_cents : ℤ
  attributed_revenue_cents : ℤ
  impression_to_dm_rate : ℚ
  dm_to_tryon_rate : ℚ
  tryon_to_purchase_rate : ℚ
  overall_conversion_rate : ℚ
  inventory_start : ℤ
  inventory_end : ℤ
  units_sold : ℤ
  day_of_week : ℕ
  is_weekend : Bool
  is_holiday : Bool
  weather_condition : Option String
deriving DecidableEq

/-- Customer profile record (generateCustomerProfiles). -/
structure CustomerProfile where
  id : ℕ
  customer_id : String
  workspace_id : ℕ
  first_seen_at : ℤ
  last_seen_at : ℤ
  total_sessions : ℕ
  total_dm_conversations : ℕ
  total_tryons : ℕ
  total_purchases : ℕ
  total_revenue_cents : ℤ
  avg_order_value_cents : ℤ
  preferred_device : Option String
  preferred_time_of_day : Option String
  preferred_day_of_week : Option ℕ
  predicted_ltv_cents : ℤ
  churn_probability : ℚ
  next_purchase_probability : ℚ
  customer_segment : String
  created_at : ℤ
  updated_at : ℤ
deriving DecidableEq

/-- Demand forecast record (generateDemandForecasts). -/
structure DemandForecast where
  id : ℕ
  product_id : ℕ
  variant_id : Option ℕ
  workspace_id : ℕ
  forecast_date : ℤ
  forecast_horizon_days : ℕ
  predicted_demand : ℤ
  confidence_interval_low : ℤ
  confidence_interval_high : ℤ
  prediction_confidence : ℚ
  actual_demand : Option ℤ
  forecast_error : Option ℤ
  model_version : String
  features_used : List String
  generated_at : ℤ
deriving DecidableEq

/-- JS `Map.get`. -/
def mapGet {κ ν : Type} [DecidableEq κ] (m : List (κ × ν)) (key : κ) : Option ν :=
  (m.find? (fun e => e.1 = key)).map (·.2)

/-- JS `Map.set`: replace in place when the key exists (keeping its
insertion position), else append. -/
def mapSet {κ ν : Type} [DecidableEq κ] : List (κ × ν) → κ → ν → List (κ × ν)
  | [], key, v => [(key, v)]
  | (k0, v0) :: rest, key, v =>
      if k0 = key then (k0, v) :: rest else (k0, v0) :: mapSet rest key v

/-- JS `map.get(key).push(x)` on a map of arrays whose key is present. -/
def mapPush {κ ν : Type} [DecidableEq κ] (m : List (κ × List ν)) (key : κ) (x : ν) :
    List (κ × List ν) :=
  mapSet m key ((mapGet m key).getD [] ++ [x])

/-- The DataGenerator instance state: the `this.data` collections, the
`this.lookups` relationship maps, and the three supplies (the `Math.random`
stream, the uuid supply, and the faker cursor). -/
structure GenState where
  rng : Rng
  nid : ℕ
  fk : ℕ
  workspaces : List Workspace
  accounts : List Account
  products : List Product
  product_variants : List Variant
  inventory_history : List InventoryHistoryRecord
  social_posts : List SocialPost
  post_metrics : List PostMetric
  garment_bindings : List GarmentBinding
  conversations : List Conversation
  orders : List Order
  customer_journeys : List JourneyEvent
  daily_aggregates : List DailyAggregate
  customer_profiles : List CustomerProfile
  demand_forecasts : List DemandForecast
  workspaceProducts : List (ℕ × List Product)
  workspacePosts : List (ℕ × List SocialPost)
  productVariants : List (ℕ × List Variant)
  postBindings : List (ℕ × GarmentBinding)
  customerConversations : List (String × List Conversation)

/-- The constructor's initial state: empty collections and lookup maps,
fresh supplies. -/
def initState (g : Rng) : GenState where
  rng := g
  nid := 0
  fk := 0
  workspaces := []
  accounts := []
  products := []
  product_variants := []
  inventory_history := []
  social_posts := []
  post_metrics := []
  garment_bindings := []
  conversations := []
  orders := []
  customer_journeys := []
  daily_aggregates := []
  customer_profiles := []
  demand_forecasts := []
  workspaceProducts := []
  workspacePosts := []
  productVariants := []
  postBindings := []
  customerConversations := []

/-- Default account, standing for the `undefined` a failed `accounts.find`
would produce in JS (unreachable in a pipeline run, where every workspace
gets exactly one account). -/
def Account.dflt : Account := ⟨0, 0, "", "", "", "", 0⟩

/-- Default category, standing for the `undefined` of an out-of-range
weighted draw (unreachable for a valid stream). -/
def Category.dflt : Category := ⟨"", 0, 0, 0⟩

/-- Result of the generateWorkspaces loop. -/
structure WsOut where
  workspaces : List Workspace
  accounts : List Account
  wsProducts : List (ℕ × List Product)
  wsPosts : List (ℕ × List SocialPost)
  rng : Rng
  nid : ℕ
  fk : ℕ

/-- Loop body of DataGenerator.generateWorkspaces: each iteration creates
one workspace, its connected account, and the two lookup-map entries. -/
def workspacesLoop (env : Env) : ℕ → Rng → ℕ → ℕ → WsOut
  | 0, g, nid, fk => ⟨[], [], [], [], g, nid, fk⟩
  | n + 1, g, nid, fk =>
      let (d, g1) := randomInt 30 365 g
      let workspace : Workspace :=
        { id := nid
          name := env.fakerStr fk
          slug := (env.fakerStr (fk + 1)).toLower
          created_at := daysAgo env d
          updated_at := env.now }
      let (acctNum, g2) := randomInt 10000000000 99999999999 g1
      let account : Account :=
        { id := nid + 1
          workspace_id := workspace.id
          platform := "instagram"
          platform_account_id := toString acctNum
          platform_username := "@" ++ (env.fakerStr (fk + 2)).toLower
          status := "active"
          created_at := workspace.created_at }
      let rest := workspacesLoop env n g2 (nid + 2) (fk + 3)
      ⟨workspace :: rest.workspaces, account :: rest.accounts,
       (workspace.id, []) :: rest.wsProducts, (workspace.id, []) :: rest.wsPosts,
       rest.rng, rest.nid, rest.fk⟩

/-- DataGenerator.generateWorkspaces. -/
def generateWorkspaces (env : Env) (scale : Scale) (s : GenState) : GenState :=
  let t := workspacesLoop env scale.workspaces s.rng s.nid s.fk
  { s with
    workspaces := s.workspaces ++ t.workspaces
    accounts := s.accounts ++ t.accounts
    workspaceProducts := s.workspaceProducts ++ t.wsProducts
    workspacePosts := s.workspacePosts ++ t.wsPosts
    rng := t.rng, nid := t.nid, fk := t.fk }

/-- Result of the generateProducts loops. -/
structure ProdOut where
  products : List Product
  rng : Rng
  nid : ℕ
  fk : ℕ

/-- Inner loop of DataGenerator.generateProducts: the products of one
workspace. -/
def productsInner (env : Env) (scale : Scale) (workspace : Workspace) (account : Account) :
    ℕ → Rng → ℕ → ℕ → ProdOut
  | 0, g, nid, fk => ⟨[], g, nid, fk⟩
  | n + 1, g, nid, fk =>
      let (cat?, g1) := getWeightedCategory g
      let category := cat?.getD Category.dflt
      let (price, g2) := generatePrice (some category.name) g1
      let (cm, g3) := randomFloat 0.3 0.6 g2
      let costCents := jround ((price : ℚ) * cm)
      let (sale, g4) := randomBool 0.15 g3
      let (compareAtPrice, g5) :=
        if sale then
          let (pm, g41) := randomFloat 1.2 1.5 g4
          (some (jround ((price : ℚ) * pm)), g41)
        else (none, g4)
      let (totalInventory, g6) :=
        randomInt CONFIG.initialStockMin CONFIG.initialStockMax g5
      let (shopifyId, g7) := randomInt 1000000000 9999999999 g6
      let (tagChoice?, g8) :=
        randomChoice ["trending", "new", "bestseller", "sale", "limited"] g7
      let (lowStock, g9) := randomInt 0 (min 10 totalInventory) g8
      let (active, g10) := randomBool 0.95 g9
      let (createdAt, g11) := randomDate (daysAgo env scale.daysOfHistory) env.now g10
      let product : Product :=
        { id := nid
          workspace_id := workspace.id
          account_id := account.id
          shopify_product_id := toString shopifyId
          title := env.fakerStr fk ++ " " ++ category.name.dropRight 1
          description := env.fakerStr (fk + 1)
          vendor := env.fakerStr (fk + 2)
          product_type := category.name
          tags := [category.name.toLower, (env.fakerStr (fk + 3)).toLower,
                   tagChoice?.getD ""]
          price_cents := price
          compare_at_price_cents := compareAtPrice
          cost_cents := costCents
          total_inventory := totalInventory
          has_variants_in_stock := totalInventory > 0
          lowest_stock_level := lowStock
          variants_count := scale.variantsPerProduct
          status := if active then "active" else "draft"
          created_at := createdAt
          updated_at := env.now }
      let rest := productsInner env scale workspace account n g11 (nid + 1) (fk + 4)
      ⟨product :: rest.products, rest.rng, rest.nid, rest.fk⟩

/-- Outer loop of DataGenerator.generateProducts over the workspaces. -/
def productsOuter (env : Env) (scale : Scale) (accounts : List Account) :
    List Workspace → Rng → ℕ → ℕ → ProdOut
  | [], g, nid, fk => ⟨[], g, nid, fk⟩
  | workspace :: rest, g, nid, fk =>
      let account := (accounts.find? (fun a => a.workspace_id = workspace.id)).getD Account.dflt
      let t := productsInner env scale workspace account scale.productsPerWorkspace g nid fk
      let r := productsOuter env scale accounts rest t.rng t.nid t.fk
      ⟨t.products ++ r.products, r.rng, r.nid, r.fk⟩

/-- DataGenerator.generateProducts, including the lookup-map updates (each
product is pushed onto its workspace's entry and gets an empty
productVariants entry). -/
def generateProducts (env : Env) (scale : Scale) (s : GenState) : GenState :=
  let t := productsOuter env scale s.accounts s.workspaces s.rng s.nid s.fk
  { s with
    products := s.products ++ t.products
    workspaceProducts :=
      t.products.foldl (fun m p => mapPush m p.workspace_id p) s.workspaceProducts
    productVariants :=
      t.products.foldl (fun m p => mapSet m p.id []) s.productVariants
    rng := t.rng, nid := t.nid, fk := t.fk }

/-- Result of the generateProductVariants loops. -/
structure VarOut where
  variants : List Variant
  rng : Rng
  nid : ℕ
  fk : ℕ

/-- Inner loop of DataGenerator.generateProductVariants: the variants of
one product (`i` is the loop index used for the SKU). -/
def variantsInner (env : Env) (scale : Scale) (product : Product) (colors : List String) :
    ℕ → ℕ → Rng → ℕ → ℕ → VarOut
  | _, 0, g, nid, fk => ⟨[], g, nid, fk⟩
  | i, n + 1, g, nid, fk =>
      let (size?, g1) := getWeightedSize g
      let size := size?.getD ""
      let (color?, g2) := randomChoice colors g1
      let inventoryPerVariant := jround ((product.total_inventory : ℚ) / (scale.variantsPerProduct : ℚ))
      let (shopifyId, g3) := randomInt 10000000000 99999999999 g2
      let (sku, g4) := generateSKU product.product_type i g3
      let (priceJitter, g5) := randomInt (-500) 500 g4
      let (invJitter, g6) := randomInt (-5) 5 g5
      let variant : Variant :=
        { id := nid
          product_id := product.id
          shopify_variant_id := toString shopifyId
          title := size ++ " / " ++ color?.getD ""
          sku := sku
          size := size
          color := color?.getD ""
          price_cents := product.price_cents + priceJitter
          inventory_quantity := clamp ((inventoryPerVariant : ℚ) + (invJitter : ℚ)) 0 500
          available := inventoryPerVariant > 0
          created_at := product.created_at
          updated_at := env.now }
      let rest := variantsInner env scale product colors (i + 1) n g6 (nid + 1) fk
      ⟨variant :: rest.variants, rest.rng, rest.nid, rest.fk⟩

/-- Outer loop of DataGenerator.generateProductVariants over the products;
the per-product color palette is a faker pick consuming one faker cursor
position after a `randomInt(2, 4)` draw for its size. -/
def variantsOuter (env : Env) (scale : Scale) :
    List Product → Rng → ℕ → ℕ → VarOut
  | [], g, nid, fk => ⟨[], g, nid, fk⟩
  | product :: rest, g, nid, fk =>
      let (_, g1) := randomInt 2 4 g
      let colors := env.fakerPickList fk
      let t := variantsInner env scale product colors 0 scale.variantsPerProduct g1 nid (fk + 1)
      let r := variantsOuter env scale rest t.rng t.nid t.fk
      ⟨t.variants ++ r.variants, r.rng, r.nid, r.fk⟩

/-- DataGenerator.generateProductVariants, including the productVariants
lookup-map pushes. -/
def generateProductVariants (env : Env) (scale : Scale) (s : GenState) : GenState :=
  let t := variantsOuter env scale s.products s.rng s.nid s.fk
  { s with
    product_variants := s.product_variants ++ t.variants
    productVariants :=
      t.variants.foldl (fun m v => mapPush m v.product_id v) s.productVariants
    rng := t.rng, nid := t.nid, fk := t.fk }

/-- The change sources of generateInventoryHistory. -/
def changeSources : List String := ["sale", "restock", "adjustment", "return"]

/-- The changeReasons table of generateInventoryHistory, keyed by source. -/
def changeReasons (source : String) : List String :=
  if source = "sale" then ["Customer order", "Wholesale order", "Flash sale"]
  else if source = "restock" then ["Regular restock", "Supplier delivery", "Transfer from warehouse"]
  else if source = "adjustment" then ["Inventory count", "Damaged goods", "Quality issue"]
  else if source = "return" then ["Customer return", "Exchange", "Defective item"]
  else []

/-- The change amount for one change source (the switch statement of
generateInventoryHistory). -/
def inventoryChangeAmount (source : String) (g : Rng) : ℤ × Rng :=
  if source = "sale" then
    let (v, g1) := randomInt 1 5 g
    (-v, g1)
  else if source = "restock" then randomInt 10 50 g
  else if source = "adjustment" then randomInt (-3) 3 g
  else if source = "return" then randomInt 1 2 g
  else (0, g)

/-- Result of the generateInventoryHistory loops. -/
structure InvOut where
  records : List InventoryHistoryRecord
  stock : ℚ
  rng : Rng
  nid : ℕ

/-- Innermost loop of generateInventoryHistory: the 0-3 changes of one day.
A record is pushed only when the clamped stock differs from the previous
stock; the record date re-draws hour and minute and the reason is a
weighted-free random choice from the source's reason list. -/
def inventoryChangesLoop (env : Env) (variant : Variant) (dayDate : ℤ) :
    ℕ → ℚ → Rng → ℕ → InvOut
  | 0, currentStock, g, nid => ⟨[], currentStock, g, nid⟩
  | c + 1, currentStock, g, nid =>
      let (source?, g1) := randomChoice changeSources g
      let source := source?.getD "sale"
      let (changeAmount, g2) := inventoryChangeAmount source g1
      let previousQuantity := currentStock
      let newStock := clamp (currentStock + (changeAmount : ℚ)) 0 500
      if previousQuantity ≠ newStock then
        let (hour, g3) := randomInt 8 20 g2
        let (minute, g4) := randomInt 0 59 g3
        let (reason?, g5) := randomChoice (changeReasons source) g4
        let historyRecord : InventoryHistoryRecord :=
          { id := nid
            variant_id := variant.id
            product_id := variant.product_id
            previous_quantity := previousQuantity
            new_quantity := newStock
            change_amount := newStock - previousQuantity
            change_source := source
            change_reason := reason?.getD ""
            recorded_at := env.setHM dayDate hour minute }
        let rest := inventoryChangesLoop env variant dayDate c newStock g5 (nid + 1)
        ⟨historyRecord :: rest.records, rest.stock, rest.rng, rest.nid⟩
      else
        inventoryChangesLoop env variant dayDate c newStock g2 nid

/-- Day loop of generateInventoryHistory: each day draws a 0-3 change
count and runs the change loop. -/
def inventoryDaysLoop (env : Env) (variant : Variant) (startDate : ℤ) :
    ℕ → ℕ → ℚ → Rng → ℕ → InvOut
  | _, 0, currentStock, g, nid => ⟨[], currentStock, g, nid⟩
  | day, dRemaining + 1, currentStock, g, nid =>
      let (changesPerDay, g1) := randomInt 0 3 g
      let dayDate := startDate + day * msPerDay
      let t := inventoryChangesLoop env variant dayDate changesPerDay.toNat currentStock g1 nid
      let rest := inventoryDaysLoop env variant startDate (day + 1) dRemaining t.stock t.rng t.nid
      ⟨t.records ++ rest.records, rest.stock, rest.rng, rest.nid⟩

/-- Variant loop of generateInventoryHistory: the starting stock is the
variant's inventory plus a 20-100 cushion. -/
def inventoryVariantsLoop (env : Env) (scale : Scale) :
    List Variant → Rng → ℕ → List InventoryHistoryRecord × Rng × ℕ
  | [], g, nid => ([], g, nid)
  | variant :: rest, g, nid =>
      let (cushion, g1) := randomInt 20 100 g
      let currentStock := variant.inventory_quantity + (cushion : ℚ)
      let startDate := daysAgo env scale.daysOfHistory
      let t := inventoryDaysLoop env variant startDate 0 scale.daysOfHistory currentStock g1 nid
      let (restRecords, g2, nid2) := inventoryVariantsLoop env scale rest t.rng t.nid
      (t.records ++ restRecords, g2, nid2)

/-- DataGenerator.generateInventoryHistory. -/
def generateInventoryHistory (env : Env) (scale : Scale) (s : GenState) : GenState :=
  let (records, g, nid) := inventoryVariantsLoop env scale s.product_variants s.rng s.nid
  { s with
    inventory_history := s.inventory_history ++ records
    rng := g, nid := nid }

/-- The media types of generateSocialPosts (the mediaWeights array defined
alongside them is never consumed by the source). -/
def mediaTypes : List String := ["IMAGE", "VIDEO", "CAROUSEL"]

/-- The hashtag pool of generateSocialPosts captions. -/
def hashtagPool : List String :=
  ["#fashion", "#style", "#ootd", "#shopping", "#tryon", "#newcollection"]

/-- Result of the generateSocialPosts loops. -/
structure PostOut where
  posts : List SocialPost
  rng : Rng
  nid : ℕ
  fk : ℕ

/-- Inner loop of generateSocialPosts: the posts of one workspace. -/
def postsInner (env : Env) (scale : Scale) (workspace : Workspace) (account : Account)
    (products : List Product) : ℕ → Rng → ℕ → ℕ → PostOut
  | 0, g, nid, fk => ⟨[], g, nid, fk⟩
  | n + 1, g, nid, fk =>
      let (postedAt, g1) := randomDate (daysAgo env scale.daysOfHistory) env.now g
      let (link, g2) := randomBool 0.7 g1
      let (linkedProduct, g3) :=
        if link then randomChoice products g2 else (none, g2)
      let (pid1, g4) := randomInt 10000000 99999999 g3
      let (pid2, g5) := randomInt 10000000 99999999 g4
      let (media?, g6) := randomChoice mediaTypes g5
      let (_, g7) := randomInt 3 6 g6
      let hashtags := env.fakerPickList (fk + 1)
      let post : SocialPost :=
        { id := nid
          workspace_id := workspace.id
          account_id := account.id
          platform_post_id := toString pid1 ++ toString pid2
          media_type := media?
          caption := env.fakerStr fk ++ " " ++ String.intercalate " " hashtags
          permalink := "https://www.instagram.com/p/" ++ env.fakerStr (fk + 2) ++ "/"
          product_id := linkedProduct.map (·.id)
          posted_at := postedAt
          created_at := postedAt }
      let rest := postsInner env scale workspace account products n g7 (nid + 1) (fk + 3)
      ⟨post :: rest.posts, rest.rng, rest.nid, rest.fk⟩

/-- Outer loop of generateSocialPosts over the workspaces; the product pool
comes from the workspaceProducts lookup. -/
def postsOuter (env : Env) (scale : Scale) (accounts : List Account)
    (wsProducts : List (ℕ × List Product)) :
    List Workspace → Rng → ℕ → ℕ → PostOut
  | [], g, nid, fk => ⟨[], g, nid, fk⟩
  | workspace :: rest, g, nid, fk =>
      let account := (accounts.find? (fun a => a.workspace_id = workspace.id)).getD Account.dflt
      let products := (mapGet wsProducts workspace.id).getD []
      let t := postsInner env scale workspace account products scale.postsPerWorkspace g nid fk
      let r := postsOuter env scale accounts wsProducts rest t.rng t.nid t.fk
      ⟨t.posts ++ r.posts, r.rng, r.nid, r.fk⟩

/-- DataGenerator.generateSocialPosts, including the workspacePosts
lookup-map pushes. -/
def generateSocialPosts (env : Env) (scale : Scale) (s : GenState) : GenState :=
  let t := postsOuter env scale s.accounts s.workspaceProducts s.workspaces s.rng s.nid s.fk
  { s with
    social_posts := s.social_posts ++ t.posts
    workspacePosts :=
      t.posts.foldl (fun m p => mapPush m p.workspace_id p) s.workspacePosts
    rng := t.rng, nid := t.nid, fk := t.fk }

/-- Result of the generatePostMetrics loops. -/
structure PMOut where
  metrics : List PostMetric
  rng : Rng
  nid : ℕ

/-- Day loop of generatePostMetrics: one metric record per day since the
post, engagement decaying with the post's age through `Math.exp`. -/
def postMetricsDays (env : Env) (post : SocialPost) :
    ℕ → ℕ → Rng → ℕ → PMOut
  | _, 0, g, nid => ⟨[], g, nid⟩
  | day, dRemaining + 1, g, nid =>
      let metricDate := post.posted_at + day * msPerDay
      let decayFactor := env.jsExp (-(day : ℚ) * 0.1)
      let (base, g1) := randomInt 100 10000 g
      let baseReach := (base : ℚ) * decayFactor
      let (metrics, g2) := generateEngagementMetrics (jround baseReach) g1
      let (hour?, g3) := getWeightedHour g2
      let postMetric : PostMetric :=
        { id := nid
          post_id := post.id
          account_id := post.account_id
          metric_date := metricDate
          metric_hour := hour?
          impressions := metrics.impressions
          reach := metrics.reach
          likes := metrics.likes
          comments := metrics.comments
          shares := metrics.shares
          saves := metrics.saves
          engagement_rate := metrics.engagement_rate
          created_at := metricDate }
      let rest := postMetricsDays env post (day + 1) dRemaining g3 (nid + 1)
      ⟨postMetric :: rest.metrics, rest.rng, rest.nid⟩

/-- Post loop of generatePostMetrics: at most 30 days of metrics per post. -/
def postMetricsLoop (env : Env) :
    List SocialPost → Rng → ℕ → PMOut
  | [], g, nid => ⟨[], g, nid⟩
  | post :: rest, g, nid =>
      let daysSincePost := ⌊((env.now : ℚ) - (post.posted_at : ℚ)) / ((1000 * 60 * 60 * 24 : ℤ) : ℚ)⌋
      let metricsToGenerate := (min daysSincePost 30).toNat
      let t := postMetricsDays env post 0 metricsToGenerate g nid
      let r := postMetricsLoop env rest t.rng t.nid
      ⟨t.metrics ++ r.metrics, r.rng, r.nid⟩

/-- DataGenerator.generatePostMetrics. -/
def generatePostMetrics (env : Env) (_scale : Scale) (s : GenState) : GenState :=
  let t := postMetricsLoop env s.social_posts s.rng s.nid
  { s with
    post_metrics := s.post_metrics ++ t.metrics
    rng := t.rng, nid := t.nid }

/-- Result of the generateGarmentBindings loop. -/
structure BindOut where
  bindings : List GarmentBinding
  postBindings : List (ℕ × GarmentBinding)
  rng : Rng
  nid : ℕ

/-- Loop of generateGarmentBindings: posts without a linked product (or
whose product id resolves to no product) are skipped; triggers derive from
the post's summed impressions. -/
def bindingsLoop (env : Env) (products : List Product) (post_metrics : List PostMetric) :
    List SocialPost → Rng → ℕ → BindOut
  | [], g, nid => ⟨[], [], g, nid⟩
  | post :: rest, g, nid =>
      match post.product_id with
      | none => bindingsLoop env products post_metrics rest g nid
      | some pid =>
          match products.find? (fun p => p.id = pid) with
          | none => bindingsLoop env products post_metrics rest g nid
          | some product =>
              let postMetrics := post_metrics.filter (fun m => m.post_id = post.id)
              let totalImpressions := postMetrics.foldl (fun (sum : ℤ) m => sum + m.impressions) 0
              let (tm, g1) := randomFloat 0.001 0.01 g
              let totalTriggers := jround ((totalImpressions : ℚ) * tm)
              let (funnelMetrics, g2) := generateFunnelMetrics totalTriggers CONFIG.funnelRates g1
              let (rt, g3) := randomInt 500 3000 g2
              let (gt, g4) := randomInt 10000 25000 g3
              let (lastUsed, g5) :=
                if funnelMetrics.total_triggers > 0 then
                  let (d, g41) := randomDate (daysAgo env 7) env.now g4
                  (some d, g41)
                else (none, g4)
              let binding : GarmentBinding :=
                { id := nid
                  post_id := post.id
                  product_id := product.id
                  workspace_id := post.workspace_id
                  account_id := post.account_id
                  garment_name := product.title
                  is_active := true
                  total_triggers := funnelMetrics.total_triggers
                  total_dm_conversations := funnelMetrics.total_dm_conversations
                  total_photo_requests := funnelMetrics.total_photo_requests
                  total_photos_received := funnelMetrics.total_photos_received
                  total_generations := funnelMetrics.total_generations
                  successful_generations := funnelMetrics.successful_generations
                  total_purchases := funnelMetrics.total_purchases
                  trigger_to_dm_rate := funnelMetrics.trigger_to_dm_rate
                  dm_to_photo_rate := funnelMetrics.dm_to_photo_rate
                  photo_to_success_rate := funnelMetrics.photo_to_success_rate
                  overall_conversion_rate := funnelMetrics.overall_conversion_rate
                  total_revenue_cents := funnelMetrics.total_purchases * product.price_cents
                  avg_response_time_ms := rt
                  avg_generation_time_ms := gt
                  last_used_at := lastUsed
                  created_at := post.created_at
                  updated_at := env.now }
              let r := bindingsLoop env products post_metrics rest g5 (nid + 1)
              ⟨binding :: r.bindings, (post.id, binding) :: r.postBindings, r.rng, r.nid⟩

/-- DataGenerator.generateGarmentBindings. -/
def generateGarmentBindings (env : Env) (_scale : Scale) (s : GenState) : GenState :=
  let t := bindingsLoop env s.products s.post_metrics s.social_posts s.rng s.nid
  { s with
    garment_bindings := s.garment_bindings ++ t.bindings
    postBindings := s.postBindings ++ t.postBindings
    rng := t.rng, nid := t.nid }

/-- JS `x?.field || d` for an integer-valued field: the default replaces a
missing record and a zero (falsy) value. -/
def jsOrZ (x : Option ℤ) (d : ℤ) : ℤ :=
  match x with
  | none => d
  | some v => if v = 0 then d else v

/-- The three conversation states that count as a try-on
(generateConversations line 440). -/
def tryonStates : List String := ["processing_tryon", "result_sent", "completed"]

/-- Result of the generateConversations loops. -/
structure ConvOut where
  conversations : List Conversation
  rng : Rng
  nid : ℕ

/-- Inner loop of generateConversations: the conversations of one
workspace.  `resulted_in_purchase` only draws its 15% coin when the state
counts as a try-on (JS `&&` is lazy), and the purchase amount falls back to
5000 cents when the bound product is missing. -/
def conversationsInner (env : Env) (scale : Scale) (workspace : Workspace) (account : Account)
    (bindings : List GarmentBinding) (products : List Product) :
    ℕ → Rng → ℕ → ConvOut
  | 0, g, nid => ⟨[], g, nid⟩
  | n + 1, g, nid =>
      let (customerId, g1) := generateHash 16 g
      let (startedAt, g2) := randomDate (daysAgo env scale.daysOfHistory) env.now g1
      let (messageCount, g3) := randomInt 2 15 g2
      let (state?, g4) := randomChoice CONFIG.conversationStates g3
      let resultedInTryon := match state? with
        | some st => tryonStates.contains st
        | none => false
      let (resultedInPurchase, g5) :=
        if resultedInTryon then randomBool 0.15 g4 else (false, g4)
      let (binding?, g6) :=
        if bindings.length > 0 then randomChoice bindings g5 else (none, g5)
      let (lastMessageAt, g7) := randomDate startedAt env.now g6
      let conversation : Conversation :=
        { id := nid
          workspace_id := workspace.id
          account_id := account.id
          participant_id := customerId
          conversation_state := state?
          category := if resultedInTryon then "tryon" else "general"
          started_at := startedAt
          last_message_at := lastMessageAt
          message_count := messageCount
          bot_messages := jround ((messageCount : ℚ) * 0.4)
          user_messages := jround ((messageCount : ℚ) * 0.6)
          resulted_in_tryon := resultedInTryon
          resulted_in_purchase := resultedInPurchase
          purchase_amount_cents :=
            match binding?, resultedInPurchase with
            | some binding, true =>
                some (jsOrZ ((products.find? (fun p => p.id = binding.product_id)).map
                  (·.price_cents)) 5000)
            | _, _ => none
          created_at := startedAt }
      let rest := conversationsInner env scale workspace account bindings products n g7 (nid + 1)
      ⟨conversation :: rest.conversations, rest.rng, rest.nid⟩

/-- Outer loop of generateConversations over the workspaces. -/
def conversationsOuter (env : Env) (scale : Scale) (accounts : List Account)
    (allBindings : List GarmentBinding) (products : List Product) :
    List Workspace → Rng → ℕ → ConvOut
  | [], g, nid => ⟨[], g, nid⟩
  | workspace :: rest, g, nid =>
      let account := (accounts.find? (fun a => a.workspace_id = workspace.id)).getD Account.dflt
      let bindings := allBindings.filter (fun b => b.workspace_id = workspace.id)
      let t := conversationsInner env scale workspace account bindings products
        scale.conversationsPerWorkspace g nid
      let r := conversationsOuter env scale accounts allBindings products rest t.rng t.nid
      ⟨t.conversations ++ r.conversations, r.rng, r.nid⟩

/-- The customerConversations bookkeeping of generateConversations: ensure
the key exists, then push. -/
def trackCustomerConversation (m : List (String × List Conversation)) (c : Conversation) :
    List (String × List Conversation) :=
  let m1 := if (mapGet m c.participant_id).isSome then m else mapSet m c.participant_id []
  mapPush m1 c.participant_id c

/-- DataGenerator.generateConversations, including the
customerConversations lookup updates. -/
def generateConversations (env : Env) (scale : Scale) (s : GenState) : GenState :=
  let t := conversationsOuter env scale s.accounts s.garment_bindings s.products
    s.workspaces s.rng s.nid
  { s with
    conversations := s.conversations ++ t.conversations
    customerConversations :=
      t.conversations.foldl trackCustomerConversation s.customerConversations
    rng := t.rng, nid := t.nid }

/-- Default product for the unreachable `undefined` of a random choice on
an empty product list. -/
def Product.dflt : Product :=
  ⟨0, 0, 0, "", "", "", "", "", [], 0, none, 0, 0, false, 0, 0, "", 0, 0⟩

/-- Result of the generateOrders loops. -/
structure OrdOut where
  orders : List Order
  rng : Rng
  nid : ℕ

/-- Inner loop of generateOrders: the orders of one workspace. The loop
index `i` numbers the order and selects the linked purchase conversation. -/
def ordersInner (env : Env) (scale : Scale) (workspace : Workspace) (account : Account)
    (products : List Product) (conversations : List Conversation)
    (allBindings : List GarmentBinding) :
    ℕ → ℕ → Rng → ℕ → OrdOut
  | _, 0, g, nid => ⟨[], g, nid⟩
  | i, n + 1, g, nid =>
      let (product?, g1) := randomChoice products g
      let product := product?.getD Product.dflt
      let (itemCount, g2) := randomInt 1 4 g1
      let subtotal := product.price_cents * itemCount
      let tax := jround ((subtotal : ℚ) * 0.08)
      let (freeShip, g3) := randomBool 0.7 g2
      let (shipping, g4) :=
        if freeShip then ((0 : ℤ), g3) else randomInt 500 1500 g3
      let (hasDiscount, g5) := randomBool 0.2 g4
      let (discount, g6) :=
        if hasDiscount then
          let (dr, g51) := randomFloat 0.1 0.3 g5
          (jround ((subtotal : ℚ) * dr), g51)
        else ((0 : ℤ), g5)
      let conversation? := conversations.get? i
      let binding? : Option GarmentBinding :=
        match conversation? with
        | some _ => allBindings.find? (fun b => b.workspace_id = workspace.id)
        | none => none
      let (orderedAt, g7) := randomDate (daysAgo env scale.daysOfHistory) env.now g6
      let (shopifyId, g8) := randomInt 1000000 9999999 g7
      let (customerId, g9) :=
        match conversation? with
        | some c => (c.participant_id, g8)
        | none => generateHash 16 g8
      let (financial?, g10) := randomChoice ["paid", "paid", "paid", "pending", "refunded"] g9
      let (fulfillment?, g11) :=
        randomChoice [some "fulfilled", some "fulfilled", some "partial", none] g10
      let (confidence?, g12) :=
        match conversation? with
        | some _ =>
            let (c?, g111) := randomChoice ["high", "medium", "low"] g11
            (c?, g111)
        | none => (none, g11)
      let order : Order :=
        { id := nid
          workspace_id := workspace.id
          account_id := account.id
          shopify_order_id := toString shopifyId
          order_number := 1000 + i
          customer_id := customerId
          total_price_cents := subtotal + tax + shipping - discount
          subtotal_cents := subtotal
          tax_cents := tax
          shipping_cents := shipping
          discount_cents := discount
          line_items_count := itemCount
          financial_status := financial?
          fulfillment_status := fulfillment?.join
          attributed_to_tryon := conversation?.isSome
          attribution_confidence := confidence?
          conversation_id := conversation?.map (·.id)
          binding_id := binding?.map (·.id)
          ordered_at := orderedAt
          created_at := orderedAt }
      let rest := ordersInner env scale workspace account products conversations
        allBindings (i + 1) n g12 (nid + 1)
      ⟨order :: rest.orders, rest.rng, rest.nid⟩

/-- Outer loop of generateOrders over the workspaces: the candidate
conversations are this workspace's purchase conversations. -/
def ordersOuter (env : Env) (scale : Scale) (accounts : List Account)
    (wsProducts : List (ℕ × List Product)) (allConversations : List Conversation)
    (allBindings : List GarmentBinding) :
    List Workspace → Rng → ℕ → OrdOut
  | [], g, nid => ⟨[], g, nid⟩
  | workspace :: rest, g, nid =>
      let account := (accounts.find? (fun a => a.workspace_id = workspace.id)).getD Account.dflt
      let products := (mapGet wsProducts workspace.id).getD []
      let conversations := allConversations.filter
        (fun c => c.workspace_id = workspace.id && c.resulted_in_purchase)
      let t := ordersInner env scale workspace account products conversations allBindings
        0 scale.ordersPerWorkspace g nid
      let r := ordersOuter env scale accounts wsProducts allConversations allBindings
        rest t.rng t.nid
      ⟨t.orders ++ r.orders, r.rng, r.nid⟩

/-- DataGenerator.generateOrders. -/
def generateOrders (env : Env) (scale : Scale) (s : GenState) : GenState :=
  let t := ordersOuter env scale s.accounts s.workspaceProducts s.conversations
    s.garment_bindings s.workspaces s.rng s.nid
  { s with
    orders := s.orders ++ t.orders
    rng := t.rng, nid := t.nid }

/-- The nine event sequences of generateCustomerJourneys, from
view-only to full conversion. -/
def eventSequences : List (List String) :=
  [[EVENT_TYPES.POST_VIEW],
   [EVENT_TYPES.POST_VIEW, EVENT_TYPES.POST_LIKE],
   [EVENT_TYPES.POST_VIEW, EVENT_TYPES.POST_COMMENT],
   [EVENT_TYPES.POST_VIEW, EVENT_TYPES.POST_LIKE, EVENT_TYPES.DM_STARTED],
   [EVENT_TYPES.POST_VIEW, EVENT_TYPES.POST_COMMENT, EVENT_TYPES.TRIGGER_KEYWORD,
    EVENT_TYPES.DM_STARTED],
   [EVENT_TYPES.POST_VIEW, EVENT_TYPES.DM_STARTED, EVENT_TYPES.PHOTO_REQUESTED],
   [EVENT_TYPES.POST_VIEW, EVENT_TYPES.DM_STARTED, EVENT_TYPES.PHOTO_REQUESTED,
    EVENT_TYPES.PHOTO_RECEIVED, EVENT_TYPES.TRYON_COMPLETED],
   [EVENT_TYPES.POST_VIEW, EVENT_TYPES.DM_STARTED, EVENT_TYPES.PHOTO_RECEIVED,
    EVENT_TYPES.TRYON_COMPLETED, EVENT_TYPES.PRODUCT_LINK_CLICKED],
   [EVENT_TYPES.POST_VIEW, EVENT_TYPES.DM_STARTED, EVENT_TYPES.PHOTO_RECEIVED,
    EVENT_TYPES.TRYON_COMPLETED, EVENT_TYPES.PRODUCT_LINK_CLICKED,
    EVENT_TYPES.PURCHASE_COMPLETED]]

/-- The base probabilities of the nine event sequences. -/
def eventProbabilities : List ℚ :=
  [0.9800, 0.0080, 0.0040, 0.0030, 0.0015, 0.0012, 0.0010, 0.0008, 0.0005]

/-- One memoized performance tier: name and sampled multiplier. -/
structure Tier where
  tier : String
  multiplier : ℚ
deriving DecidableEq

/-- Cumulative scan of DataGenerator.getPerformanceTier over the
distribution buckets; the multiplier is sampled only for the matched
bucket. -/
def getPerformanceTierScan : List TierBucket → ℚ → ℚ → Rng → Option Tier × Rng
  | [], _, _, g => (none, g)
  | b :: rest, rand, cumulative, g =>
      let c := cumulative + b.probability
      if rand < c then
        let (m, g1) := randomFloat b.multMin b.multMax g
        (some ⟨b.tier, m⟩, g1)
      else getPerformanceTierScan rest rand c g

/-- DataGenerator.getPerformanceTier with its `average`/1.0 fall-back. -/
def getPerformanceTier (distribution : List TierBucket) (g : Rng) : Tier × Rng :=
  let (rand, g1) := rnd g
  let (t?, g2) := getPerformanceTierScan distribution rand 0 g1
  (t?.getD ⟨"average", 1.0⟩, g2)

/-- DataGenerator.getWeightedDeviceWithConversion. -/
def getWeightedDeviceWithConversion (g : Rng) : String × Rng :=
  let (rand, g1) := rnd g
  (if rand < CONFIG.devicesMobile then "mobile"
   else if rand < CONFIG.devicesMobile + CONFIG.devicesDesktop then "desktop"
   else "tablet", g1)

/-- Hour scan of DataGenerator.getWeightedHourOfDay, with its noon
fall-back. -/
def getWeightedHourOfDayScan : List ℚ → ℕ → ℚ → ℚ → ℕ
  | [], _, _, _ => 12
  | w :: rest, hour, rand, cumulative =>
      let c := cumulative + w
      if rand < c then hour else getWeightedHourOfDayScan rest (hour + 1) rand c

/-- DataGenerator.getWeightedHourOfDay. -/
def getWeightedHourOfDay (g : Rng) : ℕ × Rng :=
  let (rand, g1) := rnd g
  (getWeightedHourOfDayScan CONFIG.hourlyWeights 0 rand 0, g1)

/-- Rejection-sampling attempts of DataGenerator.getSeasonallyWeightedDate:
up to `attempts` seasonal-weighted tries, then an unweighted fall-back
date; the accepted day gets a weighted hour and random minute/second. -/
def getSeasonallyWeightedDateAttempts (env : Env) (daysOfHistory : ℕ) (startDate : ℤ) :
    ℕ → Rng → ℤ × Rng
  | 0, g =>
      let (randomDay, g1) := randomInt 0 daysOfHistory g
      let fallbackDate := startDate + randomDay * msPerDay
      let (hour, g2) := getWeightedHourOfDay g1
      let (minute, g3) := randomInt 0 59 g2
      let (second, g4) := randomInt 0 59 g3
      (env.setHMS fallbackDate hour minute second, g4)
  | attempt + 1, g =>
      let (randomDay, g1) := randomInt 0 daysOfHistory g
      let candidateDate := startDate + randomDay * msPerDay
      let month := env.monthOf candidateDate
      let seasonalWeight := jsOr (CONFIG.seasonalityMonthly month) 1.0
      let (accept, g2) := randomBool seasonalWeight g1
      if accept then
        let (hour, g3) := getWeightedHourOfDay g2
        let (minute, g4) := randomInt 0 59 g3
        let (second, g5) := randomInt 0 59 g4
        (env.setHMS candidateDate hour minute second, g5)
      else getSeasonallyWeightedDateAttempts env daysOfHistory startDate attempt g2

/-- DataGenerator.getSeasonallyWeightedDate (10 attempts). -/
def getSeasonallyWeightedDate (env : Env) (daysOfHistory : ℕ) (g : Rng) : ℤ × Rng :=
  getSeasonallyWeightedDateAttempts env daysOfHistory (daysAgo env daysOfHistory) 10 g

/-- Scan of DataGenerator.selectWeightedPost. -/
def selectWeightedPostScan (performanceMap : List (ℕ × Tier)) :
    List SocialPost → ℚ → Option SocialPost
  | [], _ => none
  | post :: rest, rand =>
      let w := jsOr ((mapGet performanceMap post.id).map (·.multiplier)) 1.0
      if rand - w ≤ 0 then some post
      else selectWeightedPostScan performanceMap rest (rand - w)

/-- DataGenerator.selectWeightedPost with its `posts[0]` fall-back. -/
def selectWeightedPost (posts : List SocialPost) (performanceMap : List (ℕ × Tier)) (g : Rng) :
    Option SocialPost × Rng :=
  let totalWeight := posts.foldl
    (fun sum post => sum + jsOr ((mapGet performanceMap post.id).map (·.multiplier)) 1.0) 0
  let (r, g1) := rnd g
  (match selectWeightedPostScan performanceMap posts (r * totalWeight) with
   | some p => some p
   | none => posts.get? 0, g1)

/-- DataGenerator.adjustProbabilities: clamp the multiplier to [0.3, 3.0],
shift mass between the view-only bucket and the deeper-funnel buckets, then
renormalize to sum 1. -/
def adjustProbabilities (baseProbs : List ℚ) (multiplier : ℚ) : List ℚ :=
  let mult := clamp multiplier 0.3 3.0
  let adjusted :=
    if mult > 1 then
      let boost := (mult - 1) * 0.01
      baseProbs.enum.map (fun p =>
        if p.1 = 0 then p.2 - boost
        else p.2 + boost / ((baseProbs.length - 1 : ℕ) : ℚ))
    else
      let reduction := (1 - mult) * 0.01
      baseProbs.enum.map (fun p =>
        if p.1 = 0 then p.2 + reduction
        else max 0 (p.2 - reduction / ((baseProbs.length - 1 : ℕ) : ℚ)))
  let sum := adjusted.foldl (fun a b => a + b) 0
  adjusted.map (fun p => p / sum)

/-- Cumulative scan choosing the event-sequence index (the `rand <
cumulative` loop of generateCustomerJourneys). -/
def pickSequenceIndex : List ℚ → ℚ → ℚ → ℕ → Option ℕ
  | [], _, _, _ => none
  | p :: rest, rand, cumulative, idx =>
      let c := cumulative + p
      if rand < c then some idx else pickSequenceIndex rest rand c (idx + 1)

/-- DataGenerator.getTimeToNextEvent: event-type-specific inter-event delay
ranges (ms), defaulting to [5000, 60000]. -/
def getTimeToNextEvent (eventType : String) (g : Rng) : ℤ × Rng :=
  let range : ℤ × ℤ :=
    if eventType = EVENT_TYPES.POST_VIEW then (2000, 10000)
    else if eventType = EVENT_TYPES.POST_LIKE then (5000, 30000)
    else if eventType = EVENT_TYPES.POST_COMMENT then (10000, 60000)
    else if eventType = EVENT_TYPES.DM_STARTED then (60000, 300000)
    else if eventType = EVENT_TYPES.TRIGGER_KEYWORD then (30000, 120000)
    else if eventType = EVENT_TYPES.PHOTO_REQUESTED then (60000, 1800000)
    else if eventType = EVENT_TYPES.PHOTO_RECEIVED then (5000, 30000)
    else if eventType = EVENT_TYPES.TRYON_COMPLETED then (10000, 60000)
    else if eventType = EVENT_TYPES.PRODUCT_LINK_CLICKED then (30000, 300000)
    else (5000, 60000)
  randomInt range.1 range.2 g

/-- DataGenerator.getEventFunnelStage: ordinal 1-5 depth of an event type,
defaulting to 1. -/
def getEventFunnelStage (eventType : String) : ℕ :=
  if eventType = EVENT_TYPES.POST_VIEW then 1
  else if eventType = EVENT_TYPES.POST_LIKE then 1
  else if eventType = EVENT_TYPES.POST_COMMENT then 1
  else if eventType = EVENT_TYPES.POST_SAVE then 1
  else if eventType = EVENT_TYPES.POST_SHARE then 1
  else if eventType = EVENT_TYPES.DM_STARTED then 2
  else if eventType = EVENT_TYPES.TRIGGER_KEYWORD then 2
  else if eventType = EVENT_TYPES.BOT_GREETING then 2
  else if eventType = EVENT_TYPES.PHOTO_REQUESTED then 3
  else if eventType = EVENT_TYPES.PHOTO_RECEIVED then 3
  else if eventType = EVENT_TYPES.TRYON_STARTED then 3
  else if eventType = EVENT_TYPES.TRYON_COMPLETED then 3
  else if eventType = EVENT_TYPES.TRYON_FAILED then 3
  else if eventType = EVENT_TYPES.PRODUCT_LINK_CLICKED then 4
  else if eventType = EVENT_TYPES.ADD_TO_CART then 4
  else if eventType = EVENT_TYPES.CHECKOUT_STARTED then 4
  else if eventType = EVENT_TYPES.PURCHASE_COMPLETED then 4
  else if eventType = EVENT_TYPES.REVIEW_SUBMITTED then 5
  else if eventType = EVENT_TYPES.RETURN_INITIATED then 5
  else if eventType = EVENT_TYPES.REPEAT_VISIT then 5
  else 1

/-- The postPerformance tier-map construction of generateCustomerJourneys:
one memoized tier per post of the workspace. -/
def postPerformanceLoop : List SocialPost → Rng → List (ℕ × Tier) → List (ℕ × Tier) × Rng
  | [], g, m => (m, g)
  | post :: rest, g, m =>
      let (tier, g1) := getPerformanceTier CONFIG.postPerformanceDistribution g
      postPerformanceLoop rest g1 (mapSet m post.id tier)

/-- Per-event loop of generateCustomerJourneys: one JourneyEvent per step
of the chosen sequence, the session clock advancing by an
event-type-specific delay after each event. -/
def journeyEventsLoop (env : Env) (workspace : Workspace) (sessionId : ℕ)
    (customerId : String) (device : String) (country? : Option String)
    (post? : Option SocialPost) (product? : Option Product)
    (conversation? : Option Conversation) (seqLen : ℕ) :
    List String → ℕ → ℤ → Rng → ℕ → ℕ → List JourneyEvent × Rng × ℕ × ℕ
  | [], _, _, g, nid, fk => ([], g, nid, fk)
  | eventType :: rest, eventIndex, eventTime, g, nid, fk =>
      let funnelStage := getEventFunnelStage eventType
      let (region?, g1) := maybeNull (env.fakerStr fk) g
      let (ttn, g2) := randomInt 5 300 g1
      let journey : JourneyEvent :=
        { id := nid
          session_id := sessionId
          customer_id := customerId
          workspace_id := workspace.id
          event_type := eventType
          event_timestamp := eventTime
          source_platform := "instagram"
          device_type := device
          geo_country := country?
          geo_region := region?
          post_id := post?.map (·.id)
          product_id := product?.map (·.id)
          conversation_id := conversation?.map (·.id)
          funnel_stage := funnelStage
          converted_to_next_stage := eventIndex < seqLen - 1
          time_to_next_event_seconds := ttn
          session_event_number := eventIndex + 1
          is_session_first_event := eventIndex = 0
          is_session_last_event := eventIndex = seqLen - 1 }
      let (timeToNext, g3) := getTimeToNextEvent eventType g2
      let (restEvents, g4, nid4, fk4) := journeyEventsLoop env workspace sessionId
        customerId device country? post? product? conversation? seqLen
        rest (eventIndex + 1) (eventTime + timeToNext) g3 (nid + 1) (fk + 1)
      (journey :: restEvents, g4, nid4, fk4)

/-- Result of the generateCustomerJourneys loops. -/
structure JourOut where
  journeys : List JourneyEvent
  rng : Rng
  nid : ℕ
  fk : ℕ

/-- Per-customer session body of generateCustomerJourneys: sample the
session context (device, country, seasonal timestamp, weighted post,
product, conversation), derive the combined multiplier, adjust and sample
the event-sequence distribution, and materialize the session's events. -/
def journeyCustomerStep (env : Env) (scale : Scale) (workspace : Workspace)
    (posts : List SocialPost) (products : List Product)
    (conversations : List Conversation) (performanceMap : List (ℕ × Tier))
    (g : Rng) (nid fk : ℕ) : List JourneyEvent × Rng × ℕ × ℕ :=
  let sessionId := nid
  let (customerId, g1) := generateHash 16 g
  let (device, g2) := getWeightedDeviceWithConversion g1
  let (country?, g3) := getWeightedCountry g2
  let (sessionStart, g4) := getSeasonallyWeightedDate env scale.daysOfHistory g3
  let month := env.monthOf sessionStart
  let seasonalMult := jsOr (CONFIG.seasonalityMonthly month) 1.0
  let dayOfWeek := env.dayOf sessionStart
  let dayMult := jsOr (CONFIG.dailyWeights dayOfWeek) 1.0
  let temporalMult := seasonalMult * dayMult
  let (post?, g5) := selectWeightedPost posts performanceMap g4
  let postMult := jsOr ((post?.bind (fun p => mapGet performanceMap p.id)).map
    (·.multiplier)) 1.0
  let (product?, g6) := randomChoice products g5
  let conversation? := conversations.find?
    (fun c => c.participant_id = customerId && c.workspace_id = workspace.id)
  let deviceMult := jsOr (CONFIG.conversionMultiplier device) 1.0
  let totalMult := temporalMult * postMult * deviceMult
  let adjustedProbs := adjustProbabilities eventProbabilities totalMult
  let (rand, g7) := rnd g6
  let sequenceIndex := (pickSequenceIndex adjustedProbs rand 0 0).getD 0
  let sequence := eventSequences.getD sequenceIndex []
  journeyEventsLoop env workspace sessionId customerId
    device country? post? product? conversation? sequence.length
    sequence 0 sessionStart g7 (nid + 1) fk

/-- Per-customer session loop of generateCustomerJourneys: one
journeyCustomerStep per simulated customer. -/
def journeyCustomerLoop (env : Env) (scale : Scale) (workspace : Workspace)
    (posts : List SocialPost) (products : List Product)
    (conversations : List Conversation) (performanceMap : List (ℕ × Tier))
    (n : ℕ) (g : Rng) (nid fk : ℕ) : JourOut :=
  @Nat.rec (fun _ => Rng → ℕ → ℕ → JourOut)
    (fun g nid fk => (⟨[], g, nid, fk⟩ : JourOut))
    (fun _ rec g nid fk =>
      let t := journeyCustomerStep env scale workspace posts products conversations
        performanceMap g nid fk
      let rest := rec t.2.1 t.2.2.1 t.2.2.2
      (⟨t.1 ++ rest.journeys, rest.rng, rest.nid, rest.fk⟩ : JourOut)) n g nid fk

/-- Outer loop of generateCustomerJourneys over the workspaces: assign the
memoized post performance tiers, then run the per-customer sessions. -/
def journeysOuter (env : Env) (scale : Scale)
    (wsPosts : List (ℕ × List SocialPost)) (wsProducts : List (ℕ × List Product))
    (conversations : List Conversation) :
    List Workspace → Rng → ℕ → ℕ → JourOut
  | [], g, nid, fk => ⟨[], g, nid, fk⟩
  | workspace :: rest, g, nid, fk =>
      let posts := (mapGet wsPosts workspace.id).getD []
      let products := (mapGet wsProducts workspace.id).getD []
      let (performanceMap, g1) := postPerformanceLoop posts g []
      let t := journeyCustomerLoop env scale workspace posts products conversations
        performanceMap scale.customersPerWorkspace g1 nid fk
      let r := journeysOuter env scale wsPosts wsProducts conversations rest t.rng t.nid t.fk
      ⟨t.journeys ++ r.journeys, r.rng, r.nid, r.fk⟩

/-- DataGenerator.generateCustomerJourneys. -/
def generateCustomerJourneys (env : Env) (scale : Scale) (s : GenState) : GenState :=
  let t := journeysOuter env scale s.workspacePosts s.workspaceProducts s.conversations
    s.workspaces s.rng s.nid s.fk
  { s with
    customer_journeys := s.customer_journeys ++ t.journeys
    rng := t.rng, nid := t.nid, fk := t.fk }

/-- The 10% product sample of generateDailyAggregates: the filter predicate
draws one coin per product, in product order, before the sampled products
are processed. -/
def dailySampleProducts : List Product → Rng → List Product × Rng
  | [], g => ([], g)
  | p :: rest, g =>
      let (keep, g1) := randomBool 0.1 g
      let (restKept, g2) := dailySampleProducts rest g1
      (if keep then p :: restKept else restKept, g2)

/-- Result of the generateDailyAggregates loops. -/
structure AggOut where
  aggregates : List DailyAggregate
  rng : Rng
  nid : ℕ

/-- Product-level aggregate loop of generateDailyAggregates for one day. -/
def dailyProductAggs (env : Env) (workspace : Workspace) (metricDate : ℤ)
    (dayOfWeek : ℕ) (isWeekend : Bool) (totalMult : ℚ) :
    List Product → Rng → ℕ → AggOut
  | [], g, nid => ⟨[], g, nid⟩
  | product :: rest, g, nid =>
      let (productPerformance, g1) := randomFloat 0.3 2.5 g
      let (pBaseImpressions, g2) := randomInt 500 3000 g1
      let (er, g3) := randomFloat 0.02 0.06 g2
      let pBaseEngagements := jround ((pBaseImpressions : ℚ) * er * productPerformance)
      let (dr, g4) := randomFloat 0.02 0.1 g3
      let pBaseDMs := jround ((pBaseEngagements : ℚ) * dr)
      let (tr, g5) := randomFloat 0.25 0.55 g4
      let pBaseTryons := jround ((pBaseDMs : ℚ) * tr)
      let (orr, g6) := randomFloat 0.08 0.3 g5
      let pBaseOrders := jround ((pBaseTryons : ℚ) * orr)
      let (ar, g7) := randomFloat 0.3 0.7 g6
      let (invStart, g8) := randomInt 10 100 g7
      let (invEnd, g9) := randomInt 10 100 g8
      let (holiday, g10) := randomBool 0.03 g9
      let (weather?, g11) := randomChoice CONFIG.weatherConditions g10
      let prodAggregate : DailyAggregate :=
        { id := nid
          workspace_id := workspace.id
          product_id := some product.id
          metric_date := metricDate
          impressions := jround ((pBaseImpressions : ℚ) * totalMult)
          post_engagements := jround ((pBaseEngagements : ℚ) * totalMult)
          dm_conversations_started := jround ((pBaseDMs : ℚ) * totalMult)
          tryons_completed := jround ((pBaseTryons : ℚ) * totalMult)
          orders_placed := jround ((pBaseOrders : ℚ) * totalMult)
          revenue_cents := jround ((pBaseOrders : ℚ) * (product.price_cents : ℚ) * totalMult)
          attributed_revenue_cents :=
            jround ((pBaseOrders : ℚ) * (product.price_cents : ℚ) * ar * totalMult)
          impression_to_dm_rate :=
            roundTo ((pBaseDMs : ℚ) / (max (pBaseImpressions : ℚ) 1)) 4
          dm_to_tryon_rate := roundTo ((pBaseTryons : ℚ) / (max (pBaseDMs : ℚ) 1)) 4
          tryon_to_purchase_rate := roundTo ((pBaseOrders : ℚ) / (max (pBaseTryons : ℚ) 1)) 4
          overall_conversion_rate :=
            roundTo ((pBaseOrders : ℚ) / (max (pBaseImpressions : ℚ) 1)) 4
          inventory_start := invStart
          inventory_end := invEnd
          units_sold := pBaseOrders
          day_of_week := dayOfWeek
          is_weekend := isWeekend
          is_holiday := holiday
          weather_condition := weather? }
      let rest2 := dailyProductAggs env workspace metricDate dayOfWeek isWeekend totalMult
        rest g11 (nid + 1)
      ⟨prodAggregate :: rest2.aggregates, rest2.rng, rest2.nid⟩

/-- Day loop of generateDailyAggregates: one workspace-level aggregate per
day, plus product aggregates for a fresh 10% sample of products. -/
def dailyDaysLoop (env : Env) (scale : Scale) (workspace : Workspace)
    (products : List Product) :
    ℕ → ℕ → Rng → ℕ → AggOut
  | _, 0, g, nid => ⟨[], g, nid⟩
  | day, dRemaining + 1, g, nid =>
      let metricDate := daysAgo env ((scale.daysOfHistory : ℤ) - day)
      let dayOfWeek := env.dayOf metricDate
      let isWeekend := dayOfWeek = 0 || dayOfWeek = 6
      let (weekendMult, g1) :=
        if isWeekend then randomFloat 1.4 1.6 g else ((1.0 : ℚ), g)
      let dayMult : ℚ := if dayOfWeek = 1 then 0.85 else if dayOfWeek = 5 then 1.15 else 1.0
      let totalMult := weekendMult * dayMult
      let (baseImpressions, g2) := randomInt 10000 30000 g1
      let (er, g3) := randomFloat 0.02 0.05 g2
      let baseEngagements := jround ((baseImpressions : ℚ) * er)
      let (dr, g4) := randomFloat 0.02 0.08 g3
      let baseDMs := jround ((baseEngagements : ℚ) * dr)
      let (tr, g5) := randomFloat 0.3 0.5 g4
      let baseTryons := jround ((baseDMs : ℚ) * tr)
      let (orr, g6) := randomFloat 0.1 0.25 g5
      let baseOrders := jround ((baseTryons : ℚ) * orr)
      let (rev, g7) := randomInt 3000 12000 g6
      let baseRevenue := baseOrders * rev
      let (om, g8) := randomFloat 1.2 1.5 g7
      let (rm, g9) := randomFloat 1.2 1.5 g8
      let (am, g10) := randomFloat 0.4 0.7 g9
      let (invStart, g11) := randomInt 500 5000 g10
      let (invEnd, g12) := randomInt 500 5000 g11
      let (um, g13) := randomFloat 1.0 1.5 g12
      let (holiday, g14) := randomBool 0.03 g13
      let (weather?, g15) := randomChoice CONFIG.weatherConditions g14
      let wsAggregate : DailyAggregate :=
        { id := nid
          workspace_id := workspace.id
          product_id := none
          metric_date := metricDate
          impressions := jround ((baseImpressions : ℚ) * totalMult)
          post_engagements := jround ((baseEngagements : ℚ) * totalMult)
          dm_conversations_started := jround ((baseDMs : ℚ) * totalMult)
          tryons_completed := jround ((baseTryons : ℚ) * totalMult)
          orders_placed := jround ((baseOrders : ℚ) * totalMult * om)
          revenue_cents := jround ((baseRevenue : ℚ) * totalMult * rm)
          attributed_revenue_cents := jround ((baseRevenue : ℚ) * totalMult * am)
          impression_to_dm_rate := roundTo ((baseDMs : ℚ) / (max (baseImpressions : ℚ) 1)) 4
          dm_to_tryon_rate := roundTo ((baseTryons : ℚ) / (max (baseDMs : ℚ) 1)) 4
          tryon_to_purchase_rate := roundTo ((baseOrders : ℚ) / (max (baseTryons : ℚ) 1)) 4
          overall_conversion_rate :=
            roundTo ((baseOrders : ℚ) / (max (baseImpressions : ℚ) 1)) 4
          inventory_start := invStart
          inventory_end := invEnd
          units_sold := jround ((baseOrders : ℚ) * um)
          day_of_week := dayOfWeek
          is_weekend := isWeekend
          is_holiday := holiday
          weather_condition := weather? }
      let (sampled, g16) := dailySampleProducts products g15
      let t := dailyProductAggs env workspace metricDate dayOfWeek isWeekend totalMult
        sampled g16 (nid + 1)
      let rest := dailyDaysLoop env scale workspace products (day + 1) dRemaining t.rng t.nid
      ⟨wsAggregate :: (t.aggregates ++ rest.aggregates), rest.rng, rest.nid⟩

/-- Outer loop of generateDailyAggregates over the workspaces. -/
def dailyOuter (env : Env) (scale : Scale) (wsProducts : List (ℕ × List Product)) :
    List Workspace → Rng → ℕ → AggOut
  | [], g, nid => ⟨[], g, nid⟩
  | workspace :: rest, g, nid =>
      let products := (mapGet wsProducts workspace.id).getD []
      let t := dailyDaysLoop env scale workspace products 0 scale.daysOfHistory g nid
      let r := dailyOuter env scale wsProducts rest t.rng t.nid
      ⟨t.aggregates ++ r.aggregates, r.rng, r.nid⟩

/-- DataGenerator.generateDailyAggregates. -/
def generateDailyAggregates (env : Env) (scale : Scale) (s : GenState) : GenState :=
  let t := dailyOuter env scale s.workspaceProducts s.workspaces s.rng s.nid
  { s with
    daily_aggregates := s.daily_aggregates ++ t.aggregates
    rng := t.rng, nid := t.nid }

/-- Default conversation, standing for the `undefined` JS would produce on
an (unreachable) empty customerConversations entry. -/
def Conversation.dflt : Conversation :=
  ⟨0, 0, 0, "", none, "", 0, 0, 0, 0, 0, false, false, none, 0⟩

/-- Default workspace for the (unreachable) failed workspace lookup of
generateCustomerProfiles. -/
def Workspace.dflt : Workspace := ⟨0, "", "", 0, 0⟩

/-- The per-segment sampled fields of generateCustomerProfiles. -/
structure SegmentDraw where
  segment : String
  churnProb : ℚ
  nextPurchaseProb : ℚ
  predictedLtv : ℤ

/-- The deterministic decision table of generateCustomerProfiles (the
if/else chain deriving the segment from observed behavior), together with
the segment-specific sampled churn/next-purchase/LTV values. -/
def deriveSegment (totalPurchases : ℕ) (totalRevenue : ℤ) (daysSinceLastSeen : ℤ)
    (totalTryons : ℕ) (g : Rng) : SegmentDraw × Rng :=
  if totalPurchases ≥ 3 ∨ totalRevenue > 30000 then
    let (cp, g1) := randomFloat 0.05 0.15 g
    let (np, g2) := randomFloat 0.4 0.7 g1
    let (lm, g3) := randomFloat 2 5 g2
    (⟨"high_value", cp, np, jround ((totalRevenue : ℚ) * lm)⟩, g3)
  else if totalPurchases ≥ 1 then
    let (cp, g1) := randomFloat 0.15 0.35 g
    let (np, g2) := randomFloat 0.2 0.4 g1
    let (lm, g3) := randomFloat 1.5 3 g2
    (⟨"regular", cp, np, jround ((totalRevenue : ℚ) * lm)⟩, g3)
  else if daysSinceLastSeen > 60 then
    let (cp, g1) := randomFloat 0.85 0.98 g
    let (np, g2) := randomFloat 0.01 0.05 g1
    (⟨"churned", cp, np, 0⟩, g2)
  else if daysSinceLastSeen > 30 then
    let (cp, g1) := randomFloat 0.5 0.8 g
    let (np, g2) := randomFloat 0.05 0.15 g1
    let (ltv, g3) := randomInt 2000 8000 g2
    (⟨"at_risk", cp, np, ltv⟩, g3)
  else if totalTryons > 0 then
    let (cp, g1) := randomFloat 0.3 0.5 g
    let (np, g2) := randomFloat 0.1 0.25 g1
    let (ltv, g3) := randomInt 5000 15000 g2
    (⟨"casual", cp, np, ltv⟩, g3)
  else
    let (cp, g1) := randomFloat 0.4 0.6 g
    let (np, g2) := randomFloat 0.05 0.1 g1
    let (ltv, g3) := randomInt 1000 5000 g2
    (⟨"casual", cp, np, ltv⟩, g3)

/-- Result of the generateCustomerProfiles loop. -/
structure ProfOut where
  profiles : List CustomerProfile
  rng : Rng
  nid : ℕ

/-- Loop of generateCustomerProfiles over the customerConversations map
entries (in key-insertion order): aggregate each customer's conversations
and derive the segment deterministically from the aggregates. -/
def profilesLoop (env : Env) (workspaces : List Workspace) :
    List (String × List Conversation) → Rng → ℕ → ProfOut
  | [], g, nid => ⟨[], g, nid⟩
  | (customerId, conversations) :: rest, g, nid =>
      let firstConv := conversations.head?.getD Conversation.dflt
      let workspace := (workspaces.find? (fun w => w.id = firstConv.workspace_id)).getD
        Workspace.dflt
      let totalPurchases := (conversations.filter (fun c => c.resulted_in_purchase)).length
      let totalRevenue := conversations.foldl
        (fun (sum : ℤ) c => sum + (c.purchase_amount_cents.getD 0)) 0
      let totalTryons := (conversations.filter (fun c => c.resulted_in_tryon)).length
      let lastSeen := (conversations.getLast?.getD Conversation.dflt).last_message_at
      let daysSinceLastSeen := ⌊((env.now : ℚ) - (lastSeen : ℚ)) / ((1000 * 60 * 60 * 24 : ℤ) : ℚ)⌋
      let (seg, g1) := deriveSegment totalPurchases totalRevenue daysSinceLastSeen
        totalTryons g
      let (device?, g2) := getWeightedDevice g1
      let (timeOfDay?, g3) := randomChoice ["morning", "afternoon", "evening", "night"] g2
      let (dayOfWeek?, g4) := getWeightedDayOfWeek g3
      let profile : CustomerProfile :=
        { id := nid
          customer_id := customerId
          workspace_id := workspace.id
          first_seen_at := firstConv.started_at
          last_seen_at := lastSeen
          total_sessions := conversations.length
          total_dm_conversations := conversations.length
          total_tryons := totalTryons
          total_purchases := totalPurchases
          total_revenue_cents := totalRevenue
          avg_order_value_cents :=
            if totalPurchases > 0 then
              jround ((totalRevenue : ℚ) / (totalPurchases : ℚ))
            else 0
          preferred_device := device?
          preferred_time_of_day := timeOfDay?
          preferred_day_of_week := dayOfWeek?
          predicted_ltv_cents := seg.predictedLtv
          churn_probability := roundTo seg.churnProb 4
          next_purchase_probability := roundTo seg.nextPurchaseProb 4
          customer_segment := seg.segment
          created_at := env.now
          updated_at := env.now }
      let r := profilesLoop env workspaces rest g4 (nid + 1)
      ⟨profile :: r.profiles, r.rng, r.nid⟩

/-- DataGenerator.generateCustomerProfiles. -/
def generateCustomerProfiles (env : Env) (_scale : Scale) (s : GenState) : GenState :=
  let t := profilesLoop env s.workspaces s.customerConversations s.rng s.nid
  { s with
    customer_profiles := s.customer_profiles ++ t.profiles
    rng := t.rng, nid := t.nid }

/-- The three forecast horizons of generateDemandForecasts. -/
def horizons : List ℕ := [7, 14, 30]

/-- Result of the generateDemandForecasts loops. -/
structure FcOut where
  forecasts : List DemandForecast
  rng : Rng
  nid : ℕ

/-- Horizon loop of generateDemandForecasts for one product. -/
def forecastHorizons (env : Env) (product : Product) :
    List ℕ → Rng → ℕ → FcOut
  | [], g, nid => ⟨[], g, nid⟩
  | horizon :: rest, g, nid =>
      let forecastDate := env.now + horizon * msPerDay
      let (predictedDemand, g1) := randomInt 5 50 g
      let (variance, g2) := randomFloat 0.1 0.3 g1
      let (conf, g3) := randomFloat 0.7 0.95 g2
      let forecast : DemandForecast :=
        { id := nid
          product_id := product.id
          variant_id := none
          workspace_id := product.workspace_id
          forecast_date := forecastDate
          forecast_horizon_days := horizon
          predicted_demand := predictedDemand
          confidence_interval_low := jround ((predictedDemand : ℚ) * (1 - variance))
          confidence_interval_high := jround ((predictedDemand : ℚ) * (1 + variance))
          prediction_confidence := roundTo conf 4
          actual_demand := none
          forecast_error := none
          model_version := "forecast-model-v1"
          features_used := ["inventory_history", "engagement_metrics", "seasonality", "price"]
          generated_at := env.now }
      let r := forecastHorizons env product rest g3 (nid + 1)
      ⟨forecast :: r.forecasts, r.rng, r.nid⟩

/-- Product loop of generateDemandForecasts over the 50-product sample. -/
def forecastProducts (env : Env) :
    List Product → Rng → ℕ → FcOut
  | [], g, nid => ⟨[], g, nid⟩
  | product :: rest, g, nid =>
      let t := forecastHorizons env product horizons g nid
      let r := forecastProducts env rest t.rng t.nid
      ⟨t.forecasts ++ r.forecasts, r.rng, r.nid⟩

/-- DataGenerator.generateDemandForecasts (`products.slice(0, 50)`). -/
def generateDemandForecasts (env : Env) (_scale : Scale) (s : GenState) : GenState :=
  let t := forecastProducts env (s.products.take 50) s.rng s.nid
  { s with
    demand_forecasts := s.demand_forecasts ++ t.forecasts
    rng := t.rng, nid := t.nid }

/-- DataGenerator.generate: the fixed-order 13-stage pipeline, from the
constructor's empty state. -/
def generate (env : Env) (scale : Scale) (g : Rng) : GenState :=
  generateDemandForecasts env scale
    (generateCustomerProfiles env scale
      (generateDailyAggregates env scale
        (generateCustomerJourneys env scale
          (generateOrders env scale
            (generateConversations env scale
              (generateGarmentBindings env scale
                (generatePostMetrics env scale
                  (generateSocialPosts env scale
                    (generateInventoryHistory env scale
                      (generateProductVariants env scale
                        (generateProducts env scale
                          (generateWorkspaces env scale (initState g)))))))))))))

/-- A concrete oracle environment for evaluating the model on explicit
inputs: a fixed wall clock, simple calendar stubs, and constant faker
outputs.  (Theorems quantified over `Env` hold for every oracle; this one
only instantiates witnesses.) -/
def oracleEnv : Env where
  now := 1700000000000
  monthOf := fun _ => 1
  dayOf := fun _ => 2
  setHMS := fun d h m s => d + h * 3600000 + m * 60000 + s * 1000
  setHM := fun d h m => d + h * 3600000 + m * 60000
  jsExp := fun _ => 1
  fakerStr := fun _ => "x"
  fakerPickList := fun _ => ["Black"]

/-- The constant stream returning `c` forever. -/
def constRng (c : ℚ) : Rng := ⟨fun _ => c, 0⟩

/-- A minimal scale profile used to instantiate witnesses on concrete runs. -/
def tinyScale : Scale where
  name := "Tiny"
  description := "witness profile"
  workspaces := 1
  productsPerWorkspace := 1
  variantsPerProduct := 1
  postsPerWorkspace := 1
  conversationsPerWorkspace := 1
  ordersPerWorkspace := 1
  daysOfHistory := 0
  customersPerWorkspace := 1

/-- A scale profile with a month of history but minimal cardinalities,
exhibiting the value-dependent record counts. -/
def probeScale : Scale where
  name := "Probe"
  description := "cardinality probe profile"
  workspaces := 1
  productsPerWorkspace := 1
  variantsPerProduct := 1
  postsPerWorkspace := 1
  conversationsPerWorkspace := 1
  ordersPerWorkspace := 1
  daysOfHistory := 30
  customersPerWorkspace := 1

/-- Validity of one funnel-rate range in the sense of the spec: the
`[min, max]` interval lies within `[0, 1]`. -/
def RateRange.InUnit (rr : RateRange) : Prop :=
  0 ≤ rr.min ∧ rr.min ≤ rr.max ∧ rr.max ≤ 1

/-- Modelled from the spec: the customer-segment decision table in the
spec's own words ("first match wins: ≥3 purchases or >$300 revenue →
high_value; ≥1 purchase → regular; inactive >60 days → churned; inactive
>30 days → at_risk; else casual"), to be compared with the segment the
generator assigns. -/
def segmentSpec (totalPurchases : ℕ) (totalRevenue : ℤ) (daysSinceLastSeen : ℤ) : String :=
  if totalPurchases ≥ 3 ∨ totalRevenue > 30000 then "high_value"
  else if totalPurchases ≥ 1 then "regular"
  else if daysSinceLastSeen > 60 then "churned"
  else if daysSinceLastSeen > 30 then "at_risk"
  else "casual"

/-- The per-conversation facts shared by the conversation claims. -/
def ConvFacts (c : Conversation) : Prop :=
  (c.bot_messages + c.user_messages = c.message_count) ∧
  (c.resulted_in_tryon = true ↔
    (c.conversation_state = some "processing_tryon" ∨
     c.conversation_state = some "result_sent" ∨
     c.conversation_state = some "completed")) ∧
  (c.resulted_in_purchase = true → c.resulted_in_tryon = true)

/-- The first conversation of a concrete tiny run, used by witnesses. -/
def witnessConv : Conversation :=
  (generate oracleEnv tinyScale (constRng (1/2))).conversations.getD 0 Conversation.dflt

/-- The per-record inventory-ledger facts of the spec. -/
def InvFacts (rec : InventoryHistoryRecord) : Prop :=
  rec.change_amount = rec.new_quantity - rec.previous_quantity ∧
  0 ≤ rec.new_quantity ∧ rec.new_quantity ≤ 500 ∧
  rec.previous_quantity ≠ rec.new_quantity

/-- Default inventory record (only a `getD` default for witnesses). -/
def InventoryHistoryRecord.dflt : InventoryHistoryRecord := ⟨0, 0, 0, 0, 0, 0, "", "", 0⟩

/-- The first inventory record of a concrete probe run, used by witnesses. -/
def witnessInvRecord : InventoryHistoryRecord :=
  (generate oracleEnv probeScale (constRng (9/10))).inventory_history.getD 0
    InventoryHistoryRecord.dflt

/-- Default customer profile (only a `getD` default for witnesses). -/
def CustomerProfile.dflt : CustomerProfile :=
  ⟨0, "", 0, 0, 0, 0, 0, 0, 0, 0, 0, none, none, none, 0, 0, 0, "", 0, 0⟩

/-- The first customer profile of a concrete tiny run, used by witnesses. -/
def witnessProfile : CustomerProfile :=
  (generate oracleEnv tinyScale (constRng (1/2))).customer_profiles.getD 0
    CustomerProfile.dflt

/-- The per-session well-formedness facts of one session's event list. -/
def SessionProps (evs : List JourneyEvent) : Prop :=
  List.Chain' (fun a b => a.event_timestamp ≤ b.event_timestamp) evs ∧
  (evs ≠ [] →
    evs.countP (fun e => e.is_session_first_event) = 1 ∧
    evs.countP (fun e => e.is_session_last_event) = 1 ∧
    (evs.countP (fun e => e.is_session_first_event && e.is_session_last_event) = 1 ↔
      evs.length = 1))

/-- Session well-formedness of a journey-event list: every session (the
events sharing one session_id) satisfies SessionProps. -/
def SessionWF (l : List JourneyEvent) : Prop :=
  ∀ sid : ℕ, SessionProps (l.filter (fun e => e.session_id == sid))

/-- The first product of a concrete tiny run, used by witnesses. -/
def witnessProduct : Product :=
  (generate oracleEnv tinyScale (constRng (1/2))).products.get ⟨0, by decide⟩

theorem jround_nonneg {q : ℚ} (h : 0 ≤ q) : 0 ≤ jround q := by
  unfold jround
  exact Int.le_floor.mpr (by push_cast; linarith)

theorem jround_le_of_le {x : ℤ} {q : ℚ} (h : q ≤ (x : ℚ)) : jround q ≤ x := by
  unfold jround
  refine Int.lt_add_one_iff.mp (Int.floor_lt.mpr ?_)
  push_cast
  linarith

theorem rate_in_unit {mn mx r : ℚ} (h0 : 0 ≤ mn) (hmm : mn ≤ mx) (h1 : mx ≤ 1)
    (hr0 : 0 ≤ r) (hr1 : r < 1) : 0 ≤ r * (mx - mn) + mn ∧ r * (mx - mn) + mn ≤ 1 := by
  constructor
  · nlinarith
  · nlinarith

theorem funnelStage_bounds {x : ℤ} {rate : ℚ} (hx : 0 ≤ x) (hr0 : 0 ≤ rate) (hr1 : rate ≤ 1) :
    0 ≤ jround ((x : ℚ) * rate) ∧ jround ((x : ℚ) * rate) ≤ x := by
  have hx' : (0 : ℚ) ≤ (x : ℚ) := by exact_mod_cast hx
  constructor
  · exact jround_nonneg (mul_nonneg hx' hr0)
  · exact jround_le_of_le (by nlinarith)

theorem generateFunnelMetrics_chain (totalTriggers : ℤ) (rates : FunnelRates) (g : Rng)
    (ht : 0 ≤ totalTriggers) (hg : g.Valid)
    (h1 : rates.engagementToDM.InUnit) (h2 : rates.dmToPhotoRequest.InUnit)
    (h3 : rates.photoRequestToReceived.InUnit) (h4 : rates.photoToTryon.InUnit)
    (h5 : rates.tryonToLinkClick.InUnit) (h6 : rates.linkClickToPurchase.InUnit) :
    0 ≤ (generateFunnelMetrics totalTriggers rates g).1.total_dm_conversations ∧
    (generateFunnelMetrics totalTriggers rates g).1.total_dm_conversations ≤ totalTriggers ∧
    0 ≤ (generateFunnelMetrics totalTriggers rates g).1.total_photo_requests ∧
    (generateFunnelMetrics totalTriggers rates g).1.total_photo_requests ≤
      (generateFunnelMetrics totalTriggers rates g).1.total_dm_conversations ∧
    0 ≤ (generateFunnelMetrics totalTriggers rates g).1.total_photos_received ∧
    (generateFunnelMetrics totalTriggers rates g).1.total_photos_received ≤
      (generateFunnelMetrics totalTriggers rates g).1.total_photo_requests ∧
    0 ≤ (generateFunnelMetrics totalTriggers rates g).1.successful_generations ∧
    (generateFunnelMetrics totalTriggers rates g).1.successful_generations ≤
      (generateFunnelMetrics totalTriggers rates g).1.total_photos_received ∧
    0 ≤ (generateFunnelMetrics totalTriggers rates g).1.total_purchases ∧
    (generateFunnelMetrics totalTriggers rates g).1.total_purchases ≤
      (generateFunnelMetrics totalTriggers rates g).1.successful_generations := by
  obtain ⟨h10, h1m, h11⟩ := h1
  obtain ⟨h20, h2m, h21⟩ := h2
  obtain ⟨h30, h3m, h31⟩ := h3
  obtain ⟨h40, h4m, h41⟩ := h4
  obtain ⟨h50, h5m, h51⟩ := h5
  obtain ⟨h60, h6m, h61⟩ := h6
  simp only [generateFunnelMetrics, calculateConversionRate, randomFloat, rnd]
  obtain ⟨hr1a, hr1b⟩ := rate_in_unit h10 h1m h11 (hg g.k).1 (hg g.k).2
  obtain ⟨hd0, hd1⟩ := funnelStage_bounds ht hr1a hr1b
  obtain ⟨hr2a, hr2b⟩ := rate_in_unit h20 h2m h21 (hg (g.k + 1)).1 (hg (g.k + 1)).2
  obtain ⟨hp0, hp1⟩ := funnelStage_bounds hd0 hr2a hr2b
  obtain ⟨hr3a, hr3b⟩ := rate_in_unit h30 h3m h31 (hg (g.k + 1 + 1)).1 (hg (g.k + 1 + 1)).2
  obtain ⟨hv0, hv1⟩ := funnelStage_bounds hp0 hr3a hr3b
  obtain ⟨hr4a, hr4b⟩ := rate_in_unit h40 h4m h41 (hg (g.k + 1 + 1 + 1)).1 (hg (g.k + 1 + 1 + 1)).2
  obtain ⟨hs0, hs1⟩ := funnelStage_bounds hv0 hr4a hr4b
  obtain ⟨hr5a, hr5b⟩ :=
    rate_in_unit h50 h5m h51 (hg (g.k + 1 + 1 + 1 + 1)).1 (hg (g.k + 1 + 1 + 1 + 1)).2
  obtain ⟨hl0, hl1⟩ := funnelStage_bounds hs0 hr5a hr5b
  obtain ⟨hr6a, hr6b⟩ :=
    rate_in_unit h60 h6m h61 (hg (g.k + 1 + 1 + 1 + 1 + 1)).1 (hg (g.k + 1 + 1 + 1 + 1 + 1)).2
  obtain ⟨hq0, hq1⟩ := funnelStage_bounds hl0 hr6a hr6b
  exact ⟨hd0, hd1, hp0, hp1, hv0, hv1, hs0, hs1, hq0, le_trans hq1 hl1⟩

/-- C2: for every non-negative trigger count, every rate configuration
whose six ranges lie in [0, 1], and every valid random stream, the funnel
record satisfies total_purchases ≤ successful_generations ≤
total_photos_received ≤ total_photo_requests ≤ total_dm_conversations ≤
total_triggers: each stage count round(previous × rate) never exceeds the
previous stage's count. -/
theorem C2_funnel_monotone (totalTriggers : ℤ) (rates : FunnelRates) (g : Rng)
    (ht : 0 ≤ totalTriggers) (hg : g.Valid)
    (h1 : rates.engagementToDM.InUnit) (h2 : rates.dmToPhotoRequest.InUnit)
    (h3 : rates.photoRequestToReceived.InUnit) (h4 : rates.photoToTryon.InUnit)
    (h5 : rates.tryonToLinkClick.InUnit) (h6 : rates.linkClickToPurchase.InUnit) :
    (generateFunnelMetrics totalTriggers rates g).1.total_purchases ≤
      (generateFunnelMetrics totalTriggers rates g).1.successful_generations ∧
    (generateFunnelMetrics totalTriggers rates g).1.successful_generations ≤
      (generateFunnelMetrics totalTriggers rates g).1.total_photos_received ∧
    (generateFunnelMetrics totalTriggers rates g).1.total_photos_received ≤
      (generateFunnelMetrics totalTriggers rates g).1.total_photo_requests ∧
    (generateFunnelMetrics totalTriggers rates g).1.total_photo_requests ≤
      (generateFunnelMetrics totalTriggers rates g).1.total_dm_conversations ∧
    (generateFunnelMetrics totalTriggers rates g).1.total_dm_conversations ≤
      (generateFunnelMetrics totalTriggers rates g).1.total_triggers := by
  obtain ⟨_, hd1, _, hp1, _, hv1, _, hs1, _, hq⟩ :=
    generateFunnelMetrics_chain totalTriggers rates g ht hg h1 h2 h3 h4 h5 h6
  exact ⟨hq, hs1, hv1, hp1, hd1⟩

theorem funnelRates_inUnit : CONFIG.funnelRates.engagementToDM.InUnit ∧
    CONFIG.funnelRates.dmToPhotoRequest.InUnit ∧
    CONFIG.funnelRates.photoRequestToReceived.InUnit ∧
    CONFIG.funnelRates.photoToTryon.InUnit ∧
    CONFIG.funnelRates.tryonToLinkClick.InUnit ∧
    CONFIG.funnelRates.linkClickToPurchase.InUnit := by
  refine ⟨⟨?_, ?_, ?_⟩, ⟨?_, ?_, ?_⟩, ⟨?_, ?_, ?_⟩, ⟨?_, ?_, ?_⟩, ⟨?_, ?_, ?_⟩, ⟨?_, ?_, ?_⟩⟩ <;>
    norm_num [CONFIG.funnelRates]

theorem constRng_valid (c : ℚ) (h0 : 0 ≤ c) (h1 : c < 1) : (constRng c).Valid :=
  fun _ => ⟨h0, h1⟩

/-- Witness for C2: the monotone chain holds on a concrete run with 100
triggers, the configured rates, and the constant half stream. -/
theorem C2_funnel_monotone_witness :
    (generateFunnelMetrics 100 CONFIG.funnelRates (constRng (1/2))).1.total_purchases ≤
      (generateFunnelMetrics 100 CONFIG.funnelRates (constRng (1/2))).1.successful_generations ∧
    (generateFunnelMetrics 100 CONFIG.funnelRates (constRng (1/2))).1.successful_generations ≤
      (generateFunnelMetrics 100 CONFIG.funnelRates (constRng (1/2))).1.total_photos_received ∧
    (generateFunnelMetrics 100 CONFIG.funnelRates (constRng (1/2))).1.total_photos_received ≤
      (generateFunnelMetrics 100 CONFIG.funnelRates (constRng (1/2))).1.total_photo_requests ∧
    (generateFunnelMetrics 100 CONFIG.funnelRates (constRng (1/2))).1.total_photo_requests ≤
      (generateFunnelMetrics 100 CONFIG.funnelRates (constRng (1/2))).1.total_dm_conversations ∧
    (generateFunnelMetrics 100 CONFIG.funnelRates (constRng (1/2))).1.total_dm_conversations ≤
      (generateFunnelMetrics 100 CONFIG.funnelRates (constRng (1/2))).1.total_triggers := by
  obtain ⟨i1, i2, i3, i4, i5, i6⟩ := funnelRates_inUnit
  exact C2_funnel_monotone 100 CONFIG.funnelRates (constRng (1/2)) (by norm_num)
    (constRng_valid (1/2) (by norm_num) (by norm_num)) i1 i2 i3 i4 i5 i6

theorem toFixedNum_nonneg (d : ℕ) {q : ℚ} (h : 0 ≤ q) : 0 ≤ toFixedNum d q := by
  unfold toFixedNum
  have h1 : (0 : ℤ) ≤ jround (q * 10 ^ d) := jround_nonneg (by positivity)
  have h2 : (0 : ℚ) ≤ (jround (q * 10 ^ d) : ℚ) := by exact_mod_cast h1
  positivity

theorem toFixedNum2_le_100 {q : ℚ} (h : q ≤ 100) : toFixedNum 2 q ≤ 100 := by
  unfold toFixedNum
  have h1 : jround (q * 10 ^ 2) ≤ (10000 : ℤ) := jround_le_of_le (by push_cast; nlinarith)
  have h2 : (jround (q * 10 ^ 2) : ℚ) ≤ 10000 := by exact_mod_cast h1
  rw [div_le_iff₀ (by norm_num)]
  linarith

theorem ratio_bounds {a b : ℚ} (ha : 0 ≤ a) (hab : a ≤ b) (hb : 0 < b) :
    0 ≤ a / b * 100 ∧ a / b * 100 ≤ 100 := by
  constructor
  · positivity
  · have : a / b ≤ 1 := (div_le_one hb).mpr hab
    linarith

theorem pctField_bounds {num den : ℤ} (hn : 0 ≤ num) (hnd : num ≤ den) :
    0 ≤ (if den > 0 then toFixedNum 2 ((num : ℚ) / (den : ℚ) * 100) else 0) ∧
    (if den > 0 then toFixedNum 2 ((num : ℚ) / (den : ℚ) * 100) else 0) ≤ 100 := by
  by_cases hc : den > 0
  · rw [if_pos hc]
    have hnq : (0 : ℚ) ≤ (num : ℚ) := by exact_mod_cast hn
    have hndq : (num : ℚ) ≤ (den : ℚ) := by exact_mod_cast hnd
    have hdq : (0 : ℚ) < (den : ℚ) := by exact_mod_cast hc
    obtain ⟨b1, b2⟩ := ratio_bounds hnq hndq hdq
    exact ⟨toFixedNum_nonneg 2 b1, toFixedNum2_le_100 b2⟩
  · rw [if_neg hc]
    norm_num

theorem pctField_zero {den : ℤ} (num : ℤ) (h : den = 0) :
    (if den > 0 then toFixedNum 2 ((num : ℚ) / (den : ℚ) * 100) else 0) = 0 := by
  rw [if_neg (by omega)]

/-- C6: on every non-negative trigger count, in-[0,1] rate configuration
and valid stream, the four percentage fields of generateFunnelMetrics lie
in [0, 100]; when the corresponding denominator (total_triggers,
total_dm_conversations, total_photos_received) is zero the field is
exactly 0 (the rational model has no NaN or Infinity: the division-by-zero
guard returns 0 before any division is used). -/
theorem C6_percentage_bounds (totalTriggers : ℤ) (rates : FunnelRates) (g : Rng)
    (ht : 0 ≤ totalTriggers) (hg : g.Valid)
    (h1 : rates.engagementToDM.InUnit) (h2 : rates.dmToPhotoRequest.InUnit)
    (h3 : rates.photoRequestToReceived.InUnit) (h4 : rates.photoToTryon.InUnit)
    (h5 : rates.tryonToLinkClick.InUnit) (h6 : rates.linkClickToPurchase.InUnit) :
    (0 ≤ (generateFunnelMetrics totalTriggers rates g).1.trigger_to_dm_rate ∧
      (generateFunnelMetrics totalTriggers rates g).1.trigger_to_dm_rate ≤ 100) ∧
    (0 ≤ (generateFunnelMetrics totalTriggers rates g).1.dm_to_photo_rate ∧
      (generateFunnelMetrics totalTriggers rates g).1.dm_to_photo_rate ≤ 100) ∧
    (0 ≤ (generateFunnelMetrics totalTriggers rates g).1.photo_to_success_rate ∧
      (generateFunnelMetrics totalTriggers rates g).1.photo_to_success_rate ≤ 100) ∧
    (0 ≤ (generateFunnelMetrics totalTriggers rates g).1.overall_conversion_rate ∧
      (generateFunnelMetrics totalTriggers rates g).1.overall_conversion_rate ≤ 100) ∧
    ((generateFunnelMetrics totalTriggers rates g).1.total_triggers = 0 →
      (generateFunnelMetrics totalTriggers rates g).1.trigger_to_dm_rate = 0 ∧
      (generateFunnelMetrics totalTriggers rates g).1.overall_conversion_rate = 0) ∧
    ((generateFunnelMetrics totalTriggers rates g).1.total_dm_conversations = 0 →
      (generateFunnelMetrics totalTriggers rates g).1.dm_to_photo_rate = 0) ∧
    ((generateFunnelMetrics totalTriggers rates g).1.total_photos_received = 0 →
      (generateFunnelMetrics totalTriggers rates g).1.photo_to_success_rate = 0) := by
  obtain ⟨hd0, hd1, hp0, hp1, hv0, hv1, hs0, hs1, hq0, hq1⟩ :=
    generateFunnelMetrics_chain totalTriggers rates g ht hg h1 h2 h3 h4 h5 h6
  revert hd0 hd1 hp0 hp1 hv0 hv1 hs0 hs1 hq0 hq1
  simp only [generateFunnelMetrics, calculateConversionRate, randomFloat, rnd]
  intro hd0 hd1 hp0 hp1 hv0 hv1 hs0 hs1 hq0 hq1
  refine ⟨?_, ?_, ?_, ?_, ?_, ?_, ?_⟩
  · exact pctField_bounds hd0 hd1
  · exact pctField_bounds hv0 (le_trans hv1 hp1)
  · exact pctField_bounds hs0 hs1
  · exact pctField_bounds hq0
      (le_trans hq1 (le_trans hs1 (le_trans hv1 (le_trans hp1 hd1))))
  · intro h
    exact ⟨pctField_zero _ h, pctField_zero _ h⟩
  · intro h
    exact pctField_zero _ h
  · intro h
    exact pctField_zero _ h

/-- Witness for C6: the percentage bounds and zero-denominator behavior on
a concrete run (100 triggers, configured rates, constant half stream). -/
theorem C6_percentage_bounds_witness :
    (0 ≤ (generateFunnelMetrics 100 CONFIG.funnelRates (constRng (1/2))).1.trigger_to_dm_rate ∧
      (generateFunnelMetrics 100 CONFIG.funnelRates (constRng (1/2))).1.trigger_to_dm_rate ≤ 100) ∧
    (0 ≤ (generateFunnelMetrics 100 CONFIG.funnelRates (constRng (1/2))).1.dm_to_photo_rate ∧
      (generateFunnelMetrics 100 CONFIG.funnelRates (constRng (1/2))).1.dm_to_photo_rate ≤ 100) ∧
    (0 ≤ (generateFunnelMetrics 100 CONFIG.funnelRates (constRng (1/2))).1.photo_to_success_rate ∧
      (generateFunnelMetrics 100 CONFIG.funnelRates (constRng (1/2))).1.photo_to_success_rate ≤ 100) ∧
    (0 ≤ (generateFunnelMetrics 100 CONFIG.funnelRates
        (constRng (1/2))).1.overall_conversion_rate ∧
      (generateFunnelMetrics 100 CONFIG.funnelRates
        (constRng (1/2))).1.overall_conversion_rate ≤ 100) ∧
    ((generateFunnelMetrics 100 CONFIG.funnelRates (constRng (1/2))).1.total_triggers = 0 →
      (generateFunnelMetrics 100 CONFIG.funnelRates (constRng (1/2))).1.trigger_to_dm_rate = 0 ∧
      (generateFunnelMetrics 100 CONFIG.funnelRates
        (constRng (1/2))).1.overall_conversion_rate = 0) ∧
    ((generateFunnelMetrics 100 CONFIG.funnelRates (constRng (1/2))).1.total_dm_conversations = 0 →
      (generateFunnelMetrics 100 CONFIG.funnelRates (constRng (1/2))).1.dm_to_photo_rate = 0) ∧
    ((generateFunnelMetrics 100 CONFIG.funnelRates (constRng (1/2))).1.total_photos_received = 0 →
      (generateFunnelMetrics 100 CONFIG.funnelRates (constRng (1/2))).1.photo_to_success_rate = 0) := by
  obtain ⟨i1, i2, i3, i4, i5, i6⟩ := funnelRates_inUnit
  exact C6_percentage_bounds 100 CONFIG.funnelRates (constRng (1/2)) (by norm_num)
    (constRng_valid (1/2) (by norm_num) (by norm_num)) i1 i2 i3 i4 i5 i6

/-- Counterexample for C3: on a two-item table with both weights zero,
weightedChoice returns the FIRST item, not the last one the claim
promises — the scan loop's `random <= 0` test already fires on the first
item (`0 - 0 <= 0`), so the last-item fall-back line is never reached. -/
theorem C3_weightedChoice_zero_counterexample :
    (weightedChoice [((0 : ℕ), (0 : ℚ)), (1, 0)] (constRng 0)).1 = some 0 ∧
    (weightedChoice [((0 : ℕ), (0 : ℚ)), (1, 0)] (constRng 0)).1 ≠ some 1 := by
  constructor
  · decide
  · decide

/-- C3 (amended): for every non-empty list of pairs with non-negative
weights summing to zero, weightedChoice returns the FIRST item of the list
(for any random stream: the scaled draw is 0·r = 0 and the first scan step
returns). -/
theorem C3_weightedChoice_zero_first {α : Type} (xs : List (α × ℚ)) (g : Rng)
    (hne : xs ≠ []) (hw : ∀ p ∈ xs, 0 ≤ p.2)
    (htot : xs.foldl (fun sum item => sum + item.2) 0 = 0) :
    (weightedChoice xs g).1 = xs.head?.map Prod.fst := by
  match xs, hne with
  | (i, w) :: rest, _ =>
    have hw0 : 0 ≤ w := hw (i, w) (List.mem_cons_self _ _)
    simp only [weightedChoice, rnd, htot, mul_zero, wcScan]
    rw [if_pos (by linarith)]
    rfl

/-- Witness for C3's amended statement: a concrete zero-weight table and
stream on which the first item comes back. -/
theorem C3_weightedChoice_zero_first_witness :
    (weightedChoice [((7 : ℕ), (0 : ℚ)), (9, 0)] (constRng (1/2))).1 =
      ([((7 : ℕ), (0 : ℚ)), (9, 0)].head?).map Prod.fst :=
  C3_weightedChoice_zero_first [((7 : ℕ), (0 : ℚ)), (9, 0)] (constRng (1/2))
    (by decide) (by decide) (by decide)

theorem jround_split (m : ℤ) :
    jround ((m : ℚ) * 0.4) + jround ((m : ℚ) * 0.6) = m := by
  have hm : m = 5 * (m / 5) + m % 5 := (Int.ediv_add_emod m 5).symm
  have h5 : m % 5 = 0 ∨ m % 5 = 1 ∨ m % 5 = 2 ∨ m % 5 = 3 ∨ m % 5 = 4 := by omega
  unfold jround
  rcases h5 with h | h | h | h | h <;> rw [hm, h]
  · have e1 : ((5 * (m / 5) + 0 : ℤ) : ℚ) * 0.4 + 1/2 = 1/2 + ((2 * (m / 5) : ℤ) : ℚ) := by
      push_cast; ring_nf
    have e2 : ((5 * (m / 5) + 0 : ℤ) : ℚ) * 0.6 + 1/2 = 1/2 + ((3 * (m / 5) : ℤ) : ℚ) := by
      push_cast; ring_nf
    rw [e1, e2, Int.floor_add_int, Int.floor_add_int]
    have : ⌊(1/2 : ℚ)⌋ = 0 := by decide
    rw [this]; ring
  · have e1 : ((5 * (m / 5) + 1 : ℤ) : ℚ) * 0.4 + 1/2 = 9/10 + ((2 * (m / 5) : ℤ) : ℚ) := by
      push_cast; ring_nf
    have e2 : ((5 * (m / 5) + 1 : ℤ) : ℚ) * 0.6 + 1/2 = 11/10 + ((3 * (m / 5) : ℤ) : ℚ) := by
      push_cast; ring_nf
    rw [e1, e2, Int.floor_add_int, Int.floor_add_int]
    have d1 : ⌊(9/10 : ℚ)⌋ = 0 := by decide
    have d2 : ⌊(11/10 : ℚ)⌋ = 1 := by decide
    rw [d1, d2]; ring
  · have e1 : ((5 * (m / 5) + 2 : ℤ) : ℚ) * 0.4 + 1/2 = 13/10 + ((2 * (m / 5) : ℤ) : ℚ) := by
      push_cast; ring_nf
    have e2 : ((5 * (m / 5) + 2 : ℤ) : ℚ) * 0.6 + 1/2 = 17/10 + ((3 * (m / 5) : ℤ) : ℚ) := by
      push_cast; ring_nf
    rw [e1, e2, Int.floor_add_int, Int.floor_add_int]
    have d1 : ⌊(13/10 : ℚ)⌋ = 1 := by decide
    have d2 : ⌊(17/10 : ℚ)⌋ = 1 := by decide
    rw [d1, d2]; ring
  · have e1 : ((5 * (m / 5) + 3 : ℤ) : ℚ) * 0.4 + 1/2 = 17/10 + ((2 * (m / 5) : ℤ) : ℚ) := by
      push_cast; ring_nf
    have e2 : ((5 * (m / 5) + 3 : ℤ) : ℚ) * 0.6 + 1/2 = 23/10 + ((3 * (m / 5) : ℤ) : ℚ) := by
      push_cast; ring_nf
    rw [e1, e2, Int.floor_add_int, Int.floor_add_int]
    have d1 : ⌊(17/10 : ℚ)⌋ = 1 := by decide
    have d2 : ⌊(23/10 : ℚ)⌋ = 2 := by decide
    rw [d1, d2]; ring
  · have e1 : ((5 * (m / 5) + 4 : ℤ) : ℚ) * 0.4 + 1/2 = 21/10 + ((2 * (m / 5) : ℤ) : ℚ) := by
      push_cast; ring_nf
    have e2 : ((5 * (m / 5) + 4 : ℤ) : ℚ) * 0.6 + 1/2 = 29/10 + ((3 * (m / 5) : ℤ) : ℚ) := by
      push_cast; ring_nf
    rw [e1, e2, Int.floor_add_int, Int.floor_add_int]
    have d1 : ⌊(21/10 : ℚ)⌋ = 2 := by decide
    have d2 : ⌊(29/10 : ℚ)⌋ = 2 := by decide
    rw [d1, d2]; ring

theorem conversationsInner_facts (env : Env) (scale : Scale) (workspace : Workspace)
    (account : Account) (bindings : List GarmentBinding) (products : List Product) :
    ∀ n g nid, ∀ c ∈ (conversationsInner env scale workspace account bindings products
      n g nid).conversations, ConvFacts c := by
  intro n
  induction n with
  | zero =>
      intro g nid c hc
      simp [conversationsInner] at hc
  | succ n ih =>
      intro g nid c hc
      simp only [conversationsInner] at hc
      rw [List.mem_cons] at hc
      rcases hc with hc | hc
      · subst hc
        refine ⟨jround_split _, ?_, ?_⟩
        · dsimp only
          split
          · next st heq =>
              rw [heq]
              simp only [tryonStates, List.contains_cons, List.contains_nil,
                Bool.or_eq_true, beq_iff_eq, Option.some.injEq]
              constructor
              · intro h
                rcases h with h | h | h
                · exact Or.inl h
                · exact Or.inr (Or.inl h)
                · rcases h with h | h
                  · exact Or.inr (Or.inr h)
                  · exact absurd h (by simp)
              · intro h
                rcases h with h | h | h
                · exact Or.inl h
                · exact Or.inr (Or.inl h)
                · exact Or.inr (Or.inr (Or.inl h))
          · next heq =>
              rw [heq]
              simp
        · dsimp only
          split
          · next ht => intro _; exact ht
          · next ht => intro hfalse; exact absurd hfalse (by simp)
      · exact ih _ _ c hc

theorem conversationsOuter_facts (env : Env) (scale : Scale) (accounts : List Account)
    (allBindings : List GarmentBinding) (products : List Product) :
    ∀ wss g nid, ∀ c ∈ (conversationsOuter env scale accounts allBindings products
      wss g nid).conversations, ConvFacts c := by
  intro wss
  induction wss with
  | nil =>
      intro g nid c hc
      simp [conversationsOuter] at hc
  | cons w rest ih =>
      intro g nid c hc
      simp only [conversationsOuter] at hc
      rw [List.mem_append] at hc
      rcases hc with hc | hc
      · exact conversationsInner_facts env scale w _ _ products _ _ _ c hc
      · exact ih _ _ c hc

theorem generate_conversations_facts (env : Env) (scale : Scale) (g : Rng) :
    ∀ c ∈ (generate env scale g).conversations, ConvFacts c := fun c hc =>
  conversationsOuter_facts env scale _ _ _ _ _ _ c hc

/-- C7: every Conversation produced by generateConversations has
resulted_in_tryon true exactly when its sampled state is processing_tryon,
result_sent or completed; consequently a completed conversation has
resulted_in_tryon, and resulted_in_purchase implies resulted_in_tryon. -/
theorem C7_conversation_tryon_iff (env : Env) (scale : Scale) (g : Rng) :
    ∀ c ∈ (generate env scale g).conversations,
      (c.resulted_in_tryon = true ↔
        (c.conversation_state = some "processing_tryon" ∨
         c.conversation_state = some "result_sent" ∨
         c.conversation_state = some "completed")) ∧
      (c.conversation_state = some "completed" → c.resulted_in_tryon = true) ∧
      (c.resulted_in_purchase = true → c.resulted_in_tryon = true) := by
  intro c hc
  obtain ⟨_, hiff, himp⟩ := generate_conversations_facts env scale g c hc
  exact ⟨hiff, fun h => hiff.mpr (Or.inr (Or.inr h)), himp⟩

/-- Witness for C7 on the first conversation of a concrete tiny run. -/
theorem C7_conversation_tryon_iff_witness :
    (witnessConv.resulted_in_tryon = true ↔
      (witnessConv.conversation_state = some "processing_tryon" ∨
       witnessConv.conversation_state = some "result_sent" ∨
       witnessConv.conversation_state = some "completed")) ∧
    (witnessConv.conversation_state = some "completed" →
      witnessConv.resulted_in_tryon = true) ∧
    (witnessConv.resulted_in_purchase = true → witnessConv.resulted_in_tryon = true) :=
  C7_conversation_tryon_iff oracleEnv tinyScale (constRng (1/2)) witnessConv (by decide)

/-- C10: every Conversation produced by generateConversations has
bot_messages + user_messages equal to message_count; in particular
round(0.4·n) + round(0.6·n) = n for every integer n in the sampled range
2..15 (the fractional parts of 0.4n and 0.6n sum to 0 or 1 and round in
opposite directions). -/
theorem C10_messages_sum (env : Env) (scale : Scale) (g : Rng) :
    (∀ c ∈ (generate env scale g).conversations,
      c.bot_messages + c.user_messages = c.message_count) ∧
    (∀ n : ℤ, 2 ≤ n → n ≤ 15 →
      jround ((n : ℚ) * 0.4) + jround ((n : ℚ) * 0.6) = n) := by
  constructor
  · intro c hc
    exact (generate_conversations_facts env scale g c hc).1
  · intro n _ _
    exact jround_split n

/-- Witness for C10 on the first conversation of a concrete tiny run. -/
theorem C10_messages_sum_witness :
    witnessConv.bot_messages + witnessConv.user_messages = witnessConv.message_count :=
  (C10_messages_sum oracleEnv tinyScale (constRng (1/2))).1 witnessConv (by decide)

theorem clamp_mem (v : ℚ) : 0 ≤ clamp v 0 500 ∧ clamp v 0 500 ≤ 500 := by
  unfold clamp
  constructor
  · exact le_max_left 0 _
  · exact max_le (by norm_num) (min_le_left _ _)

theorem inventoryChangesLoop_facts (env : Env) (variant : Variant) (dayDate : ℤ) :
    ∀ n stock g nid, ∀ rec ∈ (inventoryChangesLoop env variant dayDate
      n stock g nid).records, InvFacts rec := by
  intro n
  induction n with
  | zero =>
      intro stock g nid rec hrec
      simp [inventoryChangesLoop] at hrec
  | succ n ih =>
      intro stock g nid rec hrec
      rw [inventoryChangesLoop] at hrec
      dsimp only at hrec
      split at hrec
      · rename_i hne
        rw [List.mem_cons] at hrec
        rcases hrec with hrec | hrec
        · subst hrec
          exact ⟨rfl, (clamp_mem _).1, (clamp_mem _).2, hne⟩
        · exact ih _ _ _ rec hrec
      · exact ih _ _ _ rec hrec

theorem inventoryDaysLoop_facts (env : Env) (variant : Variant) (startDate : ℤ) :
    ∀ n day stock g nid, ∀ rec ∈ (inventoryDaysLoop env variant startDate
      day n stock g nid).records, InvFacts rec := by
  intro n
  induction n with
  | zero =>
      intro day stock g nid rec hrec
      simp [inventoryDaysLoop] at hrec
  | succ n ih =>
      intro day stock g nid rec hrec
      rw [inventoryDaysLoop] at hrec
      dsimp only at hrec
      rw [List.mem_append] at hrec
      rcases hrec with hrec | hrec
      · exact inventoryChangesLoop_facts env variant _ _ _ _ _ rec hrec
      · exact ih _ _ _ _ rec hrec

theorem inventoryVariantsLoop_facts (env : Env) (scale : Scale) :
    ∀ vs g nid, ∀ rec ∈ (inventoryVariantsLoop env scale vs g nid).1, InvFacts rec := by
  intro vs
  induction vs with
  | nil =>
      intro g nid rec hrec
      simp [inventoryVariantsLoop] at hrec
  | cons v rest ih =>
      intro g nid rec hrec
      rw [inventoryVariantsLoop] at hrec
      dsimp only at hrec
      rw [List.mem_append] at hrec
      rcases hrec with hrec | hrec
      · exact inventoryDaysLoop_facts env v _ _ _ _ _ _ rec hrec
      · exact ih _ _ rec hrec

/-- C5: every InventoryHistoryRecord produced by generateInventoryHistory
satisfies change_amount = new_quantity - previous_quantity and
0 ≤ new_quantity ≤ 500, and carries an actual change of the clamped stock
(previous_quantity ≠ new_quantity) — an attempted change absorbed by the
clamp appends no record, so no record with previous = new exists. -/
theorem C5_inventory_ledger (env : Env) (scale : Scale) (g : Rng) :
    ∀ rec ∈ (generate env scale g).inventory_history,
      rec.change_amount = rec.new_quantity - rec.previous_quantity ∧
      0 ≤ rec.new_quantity ∧ rec.new_quantity ≤ 500 ∧
      rec.previous_quantity ≠ rec.new_quantity := fun rec hrec =>
  inventoryVariantsLoop_facts env scale _ _ _ rec hrec

/-- Witness for C5 on the first inventory record of a concrete probe run. -/
theorem C5_inventory_ledger_witness :
    witnessInvRecord.change_amount =
      witnessInvRecord.new_quantity - witnessInvRecord.previous_quantity ∧
    0 ≤ witnessInvRecord.new_quantity ∧ witnessInvRecord.new_quantity ≤ 500 ∧
    witnessInvRecord.previous_quantity ≠ witnessInvRecord.new_quantity :=
  C5_inventory_ledger oracleEnv probeScale (constRng (9/10)) witnessInvRecord (by decide)

theorem deriveSegment_matches_spec (tp : ℕ) (trv : ℤ) (ds : ℤ) (tt : ℕ) (g : Rng) :
    (deriveSegment tp trv ds tt g).1.segment = segmentSpec tp trv ds := by
  unfold deriveSegment segmentSpec
  split_ifs <;> rfl

theorem profilesLoop_segment (env : Env) (workspaces : List Workspace) :
    ∀ entries g nid, ∀ p ∈ (profilesLoop env workspaces entries g nid).profiles,
      p.customer_segment = segmentSpec p.total_purchases p.total_revenue_cents
        (⌊((env.now : ℚ) - (p.last_seen_at : ℚ)) / ((1000 * 60 * 60 * 24 : ℤ) : ℚ)⌋) := by
  intro entries
  induction entries with
  | nil =>
      intro g nid p hp
      simp [profilesLoop] at hp
  | cons entry rest ih =>
      intro g nid p hp
      rw [profilesLoop] at hp
      rcases entry with ⟨customerId, conversations⟩
      dsimp only at hp
      rw [List.mem_cons] at hp
      rcases hp with hp | hp
      · subst hp
        exact deriveSegment_matches_spec _ _ _ _ _
      · exact ih _ _ p hp

/-- C8: the customer_segment of every CustomerProfile is the deterministic
first-match-wins function of the profile's observed aggregates given by the
spec's decision table (high_value on ≥3 purchases or >30000 cents revenue;
else regular on ≥1 purchase; else churned past 60 inactive days; else
at_risk past 30; else casual, covering both try-on and no-try-on fallback
paths) — no random draw decides the label. -/
theorem C8_segment_deterministic (env : Env) (scale : Scale) (g : Rng) :
    ∀ p ∈ (generate env scale g).customer_profiles,
      p.customer_segment = segmentSpec p.total_purchases p.total_revenue_cents
        (⌊((env.now : ℚ) - (p.last_seen_at : ℚ)) / ((1000 * 60 * 60 * 24 : ℤ) : ℚ)⌋) :=
  fun p hp => profilesLoop_segment env _ _ _ _ p hp

/-- Witness for C8 on the first profile of a concrete tiny run. -/
theorem C8_segment_deterministic_witness :
    witnessProfile.customer_segment = segmentSpec witnessProfile.total_purchases
      witnessProfile.total_revenue_cents
      (⌊((oracleEnv.now : ℚ) - (witnessProfile.last_seen_at : ℚ)) /
        ((1000 * 60 * 60 * 24 : ℤ) : ℚ)⌋) :=
  C8_segment_deterministic oracleEnv tinyScale (constRng (1/2)) witnessProfile (by decide)

theorem Rng.Valid.of_f_eq {g g2 : Rng} (h : g.Valid) (he : g2.f = g.f) : g2.Valid := by
  intro n
  rw [he]
  exact h n

theorem getTimeToNextEvent_pos (et : String) (g : Rng) (hr : 0 ≤ g.f g.k) :
    0 < (getTimeToNextEvent et g).1 := by
  unfold getTimeToNextEvent randomInt rnd
  dsimp only
  split_ifs <;>
    exact add_pos_of_nonneg_of_pos
      (Int.le_floor.mpr (by push_cast; exact mul_nonneg hr (by norm_num)))
      (by norm_num)

theorem journeyEventsLoop_sid (env : Env) (workspace : Workspace) (sessionId : ℕ)
    (customerId : String) (device : String) (country? : Option String)
    (post? : Option SocialPost) (product? : Option Product)
    (conversation? : Option Conversation) (seqLen : ℕ) :
    ∀ seq i t g nid fk, ∀ e ∈ (journeyEventsLoop env workspace sessionId customerId device
      country? post? product? conversation? seqLen seq i t g nid fk).1,
      e.session_id = sessionId := by
  intro seq
  induction seq with
  | nil =>
      intro i t g nid fk e he
      simp [journeyEventsLoop] at he
  | cons et rest ih =>
      intro i t g nid fk e he
      rw [journeyEventsLoop] at he
      dsimp only at he
      rw [List.mem_cons] at he
      rcases he with he | he
      · subst he; rfl
      · exact ih _ _ _ _ _ e he

theorem journeyEventsLoop_len (env : Env) (workspace : Workspace) (sessionId : ℕ)
    (customerId : String) (device : String) (country? : Option String)
    (post? : Option SocialPost) (product? : Option Product)
    (conversation? : Option Conversation) (seqLen : ℕ) :
    ∀ seq i t g nid fk, (journeyEventsLoop env workspace sessionId customerId device
      country? post? product? conversation? seqLen seq i t g nid fk).1.length =
      seq.length := by
  intro seq
  induction seq with
  | nil => intro i t g nid fk; rfl
  | cons et rest ih =>
      intro i t g nid fk
      rw [journeyEventsLoop]
      dsimp only
      rw [List.length_cons, ih]
      simp

theorem journeyEventsLoop_head_ts (env : Env) (workspace : Workspace) (sessionId : ℕ)
    (customerId : String) (device : String) (country? : Option String)
    (post? : Option SocialPost) (product? : Option Product)
    (conversation? : Option Conversation) (seqLen : ℕ) :
    ∀ et rest i t g nid fk, ((journeyEventsLoop env workspace sessionId customerId device
      country? post? product? conversation? seqLen (et :: rest) i t g nid fk).1.head?).map
        (fun e => e.event_timestamp) = some t := by
  intro et rest i t g nid fk
  rw [journeyEventsLoop]
  rfl

theorem journeyEventsLoop_countFirst (env : Env) (workspace : Workspace) (sessionId : ℕ)
    (customerId : String) (device : String) (country? : Option String)
    (post? : Option SocialPost) (product? : Option Product)
    (conversation? : Option Conversation) (seqLen : ℕ) :
    ∀ seq i t g nid fk, (journeyEventsLoop env workspace sessionId customerId device
      country? post? product? conversation? seqLen seq i t g nid fk).1.countP
        (fun e => e.is_session_first_event) =
      if seq.length = 0 then 0 else if i = 0 then 1 else 0 := by
  intro seq
  induction seq with
  | nil => intro i t g nid fk; rfl
  | cons et rest ih =>
      intro i t g nid fk
      rw [journeyEventsLoop]
      dsimp only
      rw [List.countP_cons, ih]
      rcases rest with _ | ⟨r2, rest2⟩
      · simp only [List.length_nil, List.length_cons]
        by_cases hi : i = 0
        · subst hi; simp
        · simp [hi]
      · simp only [List.length_cons]
        by_cases hi : i = 0
        · subst hi; simp
        · simp [hi]

theorem journeyEventsLoop_countLast (env : Env) (workspace : Workspace) (sessionId : ℕ)
    (customerId : String) (device : String) (country? : Option String)
    (post? : Option SocialPost) (product? : Option Product)
    (conversation? : Option Conversation) (seqLen : ℕ) :
    ∀ seq i t g nid fk, i + seq.length = seqLen →
      (journeyEventsLoop env workspace sessionId customerId device
        country? post? product? conversation? seqLen seq i t g nid fk).1.countP
          (fun e => e.is_session_last_event) =
      if seq.length = 0 then 0 else 1 := by
  intro seq
  induction seq with
  | nil => intro i t g nid fk _; rfl
  | cons et rest ih =>
      intro i t g nid fk hinv
      rw [journeyEventsLoop]
      dsimp only
      rw [List.countP_cons, ih _ _ _ _ _ (by simp at hinv ⊢; omega)]
      rcases rest with _ | ⟨r2, rest2⟩
      · simp only [List.length_nil, List.length_cons] at hinv ⊢
        have hlast : i = seqLen - 1 := by omega
        simp [hlast]
      · simp only [List.length_cons] at hinv ⊢
        have hlast : ¬(i = seqLen - 1) := by omega
        simp [hlast]

theorem journeyEventsLoop_countBoth (env : Env) (workspace : Workspace) (sessionId : ℕ)
    (customerId : String) (device : String) (country? : Option String)
    (post? : Option SocialPost) (product? : Option Product)
    (conversation? : Option Conversation) (seqLen : ℕ) :
    ∀ seq i t g nid fk, i + seq.length = seqLen →
      (journeyEventsLoop env workspace sessionId customerId device
        country? post? product? conversation? seqLen seq i t g nid fk).1.countP
          (fun e => e.is_session_first_event && e.is_session_last_event) =
      if seq.length = 0 then 0 else if i = 0 ∧ seqLen = 1 then 1 else 0 := by
  intro seq
  induction seq with
  | nil => intro i t g nid fk _; rfl
  | cons et rest ih =>
      intro i t g nid fk hinv
      rw [journeyEventsLoop]
      dsimp only
      rw [List.countP_cons, ih _ _ _ _ _ (by simp at hinv ⊢; omega)]
      dsimp only
      simp only [List.length_cons, decide_eq_true_eq, Bool.and_eq_true] at hinv ⊢
      split_ifs <;> first
      | omega
      | tauto

theorem journeyEventsLoop_chain (env : Env) (workspace : Workspace) (sessionId : ℕ)
    (customerId : String) (device : String) (country? : Option String)
    (post? : Option SocialPost) (product? : Option Product)
    (conversation? : Option Conversation) (seqLen : ℕ) :
    ∀ seq i t g nid fk, g.Valid →
      List.Chain' (fun a b => a.event_timestamp ≤ b.event_timestamp)
        (journeyEventsLoop env workspace sessionId customerId device country? post?
          product? conversation? seqLen seq i t g nid fk).1 := by
  intro seq
  induction seq with
  | nil =>
      intro i t g nid fk _
      rw [journeyEventsLoop]
      exact List.chain'_nil
  | cons et rest ih =>
      intro i t g nid fk hv
      rw [journeyEventsLoop]
      dsimp only
      refine List.chain'_cons'.mpr ⟨?_, ih _ _ _ _ _ (hv.of_f_eq rfl)⟩
      intro y hy
      rcases rest with _ | ⟨et2, rest2⟩
      · rw [journeyEventsLoop] at hy
        simp at hy
      · rw [journeyEventsLoop] at hy
        simp only [List.head?, Option.mem_def, Option.some.injEq] at hy
        subst hy
        dsimp only
        have hpos := getTimeToNextEvent_pos et
          ((randomInt 5 300 (maybeNull (env.fakerStr fk) g).2).2) ((hv _).1)
        omega

theorem generateHash_f : ∀ (n : ℕ) (g : Rng), (generateHash n g).2.f = g.f := by
  intro n
  induction n with
  | zero => intro g; rfl
  | succ n ih =>
      intro g
      rw [generateHash]
      dsimp only
      rw [ih]
      rfl

theorem getSeasonallyWeightedDateAttempts_f (env : Env) (daysOfHistory : ℕ) (startDate : ℤ) :
    ∀ n g, (getSeasonallyWeightedDateAttempts env daysOfHistory startDate n g).2.f = g.f := by
  intro n
  induction n with
  | zero => intro g; rfl
  | succ n ih =>
      intro g
      rw [getSeasonallyWeightedDateAttempts]
      dsimp only
      split
      · rfl
      · rw [ih]
        rfl

theorem getPerformanceTierScan_f :
    ∀ (bs : List TierBucket) (rand cumulative : ℚ) (g : Rng),
      (getPerformanceTierScan bs rand cumulative g).2.f = g.f := by
  intro bs
  induction bs with
  | nil => intro rand cumulative g; rfl
  | cons b rest ih =>
      intro rand cumulative g
      rw [getPerformanceTierScan]
      dsimp only
      split
      · rfl
      · exact ih _ _ _

theorem postPerformanceLoop_f :
    ∀ (posts : List SocialPost) (g : Rng) (m : List (ℕ × Tier)),
      (postPerformanceLoop posts g m).2.f = g.f := by
  intro posts
  induction posts with
  | nil => intro g m; rfl
  | cons p rest ih =>
      intro g m
      rw [postPerformanceLoop]
      dsimp only
      rw [ih]
      unfold getPerformanceTier
      dsimp only
      rw [getPerformanceTierScan_f]
      rfl

theorem journeyEventsLoop_f (env : Env) (workspace : Workspace) (sessionId : ℕ)
    (customerId : String) (device : String) (country? : Option String)
    (post? : Option SocialPost) (product? : Option Product)
    (conversation? : Option Conversation) (seqLen : ℕ) :
    ∀ seq i t g nid fk, (journeyEventsLoop env workspace sessionId customerId device
      country? post? product? conversation? seqLen seq i t g nid fk).2.1.f = g.f := by
  intro seq
  induction seq with
  | nil => intro i t g nid fk; rfl
  | cons et rest ih =>
      intro i t g nid fk
      rw [journeyEventsLoop]
      dsimp only
      rw [ih]
      rfl

theorem journeyEventsLoop_nid_mono (env : Env) (workspace : Workspace) (sessionId : ℕ)
    (customerId : String) (device : String) (country? : Option String)
    (post? : Option SocialPost) (product? : Option Product)
    (conversation? : Option Conversation) (seqLen : ℕ) :
    ∀ seq i t g nid fk, nid ≤ (journeyEventsLoop env workspace sessionId customerId device
      country? post? product? conversation? seqLen seq i t g nid fk).2.2.1 := by
  intro seq
  induction seq with
  | nil => intro i t g nid fk; exact le_refl nid
  | cons et rest ih =>
      intro i t g nid fk
      rw [journeyEventsLoop]
      dsimp only
      exact le_trans (Nat.le_succ nid) (ih _ _ _ _ _)

theorem journeyCustomerStep_f (env : Env) (scale : Scale) (workspace : Workspace)
    (posts : List SocialPost) (products : List Product)
    (conversations : List Conversation) (performanceMap : List (ℕ × Tier))
    (g : Rng) (nid fk : ℕ) :
    (journeyCustomerStep env scale workspace posts products conversations
      performanceMap g nid fk).2.1.f = g.f := by
  rw [journeyCustomerStep]
  dsimp only
  rw [journeyEventsLoop_f]
  dsimp only [rnd, randomChoice, selectWeightedPost, getSeasonallyWeightedDate,
    getWeightedCountry, weightedChoice, getWeightedDeviceWithConversion]
  rw [getSeasonallyWeightedDateAttempts_f, generateHash_f]

theorem journeyCustomerStep_nid (env : Env) (scale : Scale) (workspace : Workspace)
    (posts : List SocialPost) (products : List Product)
    (conversations : List Conversation) (performanceMap : List (ℕ × Tier))
    (g : Rng) (nid fk : ℕ) :
    nid + 1 ≤ (journeyCustomerStep env scale workspace posts products conversations
      performanceMap g nid fk).2.2.1 := by
  rw [journeyCustomerStep]
  dsimp only
  exact journeyEventsLoop_nid_mono _ _ _ _ _ _ _ _ _ _ _ _ _ _ _ _

theorem journeyCustomerStep_sid (env : Env) (scale : Scale) (workspace : Workspace)
    (posts : List SocialPost) (products : List Product)
    (conversations : List Conversation) (performanceMap : List (ℕ × Tier))
    (g : Rng) (nid fk : ℕ) :
    ∀ e ∈ (journeyCustomerStep env scale workspace posts products conversations
      performanceMap g nid fk).1, e.session_id = nid := by
  rw [journeyCustomerStep]
  dsimp only
  exact journeyEventsLoop_sid _ _ _ _ _ _ _ _ _ _ _ _ _ _ _ _

theorem journeyCustomerLoop_zero (env : Env) (scale : Scale) (workspace : Workspace)
    (posts : List SocialPost) (products : List Product)
    (conversations : List Conversation) (performanceMap : List (ℕ × Tier))
    (g : Rng) (nid fk : ℕ) :
    journeyCustomerLoop env scale workspace posts products conversations
      performanceMap 0 g nid fk = ⟨[], g, nid, fk⟩ := rfl

theorem journeyCustomerLoop_succ (env : Env) (scale : Scale) (workspace : Workspace)
    (posts : List SocialPost) (products : List Product)
    (conversations : List Conversation) (performanceMap : List (ℕ × Tier))
    (n : ℕ) (g : Rng) (nid fk : ℕ) :
    journeyCustomerLoop env scale workspace posts products conversations
      performanceMap (n + 1) g nid fk =
    (let t := journeyCustomerStep env scale workspace posts products conversations
       performanceMap g nid fk
     let rest := journeyCustomerLoop env scale workspace posts products conversations
       performanceMap n t.2.1 t.2.2.1 t.2.2.2
     ⟨t.1 ++ rest.journeys, rest.rng, rest.nid, rest.fk⟩) := rfl

theorem journeyCustomerLoop_f (env : Env) (scale : Scale) (workspace : Workspace)
    (posts : List SocialPost) (products : List Product)
    (conversations : List Conversation) (performanceMap : List (ℕ × Tier)) :
    ∀ n g nid fk, (journeyCustomerLoop env scale workspace posts products conversations
      performanceMap n g nid fk).rng.f = g.f := by
  intro n
  induction n with
  | zero => intro g nid fk; rfl
  | succ n ih =>
      intro g nid fk
      rw [journeyCustomerLoop_succ]
      dsimp only
      rw [ih, journeyCustomerStep_f]

theorem journeyCustomerLoop_nid_mono (env : Env) (scale : Scale) (workspace : Workspace)
    (posts : List SocialPost) (products : List Product)
    (conversations : List Conversation) (performanceMap : List (ℕ × Tier)) :
    ∀ n g nid fk, nid ≤ (journeyCustomerLoop env scale workspace posts products conversations
      performanceMap n g nid fk).nid := by
  intro n
  induction n with
  | zero => intro g nid fk; exact le_refl nid
  | succ n ih =>
      intro g nid fk
      rw [journeyCustomerLoop_succ]
      dsimp only
      have h1 := journeyCustomerStep_nid env scale workspace posts products conversations
        performanceMap g nid fk
      have h2 := ih (journeyCustomerStep env scale workspace posts products conversations
        performanceMap g nid fk).2.1 (journeyCustomerStep env scale workspace posts products
        conversations performanceMap g nid fk).2.2.1 (journeyCustomerStep env scale workspace
        posts products conversations performanceMap g nid fk).2.2.2
      omega

theorem journeyCustomerLoop_sid_bounds (env : Env) (scale : Scale) (workspace : Workspace)
    (posts : List SocialPost) (products : List Product)
    (conversations : List Conversation) (performanceMap : List (ℕ × Tier)) :
    ∀ n g nid fk, ∀ e ∈ (journeyCustomerLoop env scale workspace posts products conversations
      performanceMap n g nid fk).journeys,
      nid ≤ e.session_id ∧ e.session_id < (journeyCustomerLoop env scale workspace posts
        products conversations performanceMap n g nid fk).nid := by
  intro n
  induction n with
  | zero =>
      intro g nid fk e he
      rw [journeyCustomerLoop_zero] at he
      simp at he
  | succ n ih =>
      intro g nid fk e he
      rw [journeyCustomerLoop_succ] at he ⊢
      dsimp only at he ⊢
      rw [List.mem_append] at he
      have h1 := journeyCustomerStep_nid env scale workspace posts products conversations
        performanceMap g nid fk
      have h2 := journeyCustomerLoop_nid_mono env scale workspace posts products conversations
        performanceMap n (journeyCustomerStep env scale workspace posts products conversations
        performanceMap g nid fk).2.1 (journeyCustomerStep env scale workspace posts products
        conversations performanceMap g nid fk).2.2.1 (journeyCustomerStep env scale workspace
        posts products conversations performanceMap g nid fk).2.2.2
      rcases he with he | he
      · have hsid := journeyCustomerStep_sid env scale workspace posts products conversations
          performanceMap g nid fk e he
        omega
      · obtain ⟨hlo, hhi⟩ := ih _ _ _ e he
        exact ⟨by omega, hhi⟩

theorem sessionProps_nil : SessionProps [] := by
  constructor
  · exact List.chain'_nil
  · intro h
    exact absurd rfl h

theorem sessionProps_filter_const {l : List JourneyEvent} {c : ℕ}
    (hall : ∀ e ∈ l, e.session_id = c) (hp : SessionProps l) :
    ∀ sid : ℕ, SessionProps (l.filter (fun e => e.session_id == sid)) := by
  intro sid
  by_cases hs : sid = c
  · subst hs
    have heq : l.filter (fun e => e.session_id == sid) = l :=
      List.filter_eq_self.mpr (fun e he => by rw [hall e he]; simp)
    rw [heq]
    exact hp
  · have heq : l.filter (fun e => e.session_id == sid) = [] :=
      List.filter_eq_nil.mpr (fun e he => by rw [hall e he]; simp; omega)
    rw [heq]
    exact sessionProps_nil

theorem sessionProps_filter_append (N : ℕ) {l1 l2 : List JourneyEvent}
    (h1 : ∀ e ∈ l1, e.session_id < N) (h2 : ∀ e ∈ l2, N ≤ e.session_id)
    (p1 : ∀ sid : ℕ, SessionProps (l1.filter (fun e => e.session_id == sid)))
    (p2 : ∀ sid : ℕ, SessionProps (l2.filter (fun e => e.session_id == sid))) :
    ∀ sid : ℕ, SessionProps ((l1 ++ l2).filter (fun e => e.session_id == sid)) := by
  intro sid
  rw [List.filter_append]
  by_cases hs : sid < N
  · have hnil : l2.filter (fun e => e.session_id == sid) = [] :=
      List.filter_eq_nil.mpr (fun e he => by have := h2 e he; simp; omega)
    rw [hnil, List.append_nil]
    exact p1 sid
  · have hnil : l1.filter (fun e => e.session_id == sid) = [] :=
      List.filter_eq_nil.mpr (fun e he => by have := h1 e he; simp; omega)
    rw [hnil, List.nil_append]
    exact p2 sid

theorem journeyEventsLoop_props (env : Env) (workspace : Workspace) (sessionId : ℕ)
    (customerId : String) (device : String) (country? : Option String)
    (post? : Option SocialPost) (product? : Option Product)
    (conversation? : Option Conversation) (seq : List String) (t : ℤ) (g : Rng)
    (nid fk : ℕ) (hv : g.Valid) :
    SessionProps (journeyEventsLoop env workspace sessionId customerId device country?
      post? product? conversation? seq.length seq 0 t g nid fk).1 := by
  constructor
  · exact journeyEventsLoop_chain _ _ _ _ _ _ _ _ _ _ _ _ _ _ _ _ hv
  · intro hne
    have hlen := journeyEventsLoop_len env workspace sessionId customerId device country?
      post? product? conversation? seq.length seq 0 t g nid fk
    have hne' : seq.length ≠ 0 := by
      intro h0
      exact hne (List.length_eq_zero.mp (hlen.trans h0))
    have hf := journeyEventsLoop_countFirst env workspace sessionId customerId device country?
      post? product? conversation? seq.length seq 0 t g nid fk
    have hl := journeyEventsLoop_countLast env workspace sessionId customerId device country?
      post? product? conversation? seq.length seq 0 t g nid fk (by simp)
    have hb := journeyEventsLoop_countBoth env workspace sessionId customerId device country?
      post? product? conversation? seq.length seq 0 t g nid fk (by simp)
    rw [if_neg hne', if_pos rfl] at hf
    rw [if_neg hne'] at hl
    rw [if_neg hne'] at hb
    refine ⟨hf, hl, ?_⟩
    rw [hb, hlen]
    by_cases h1 : seq.length = 1
    · simp [h1]
    · simp [h1]

theorem journeyCustomerStep_props (env : Env) (scale : Scale) (workspace : Workspace)
    (posts : List SocialPost) (products : List Product)
    (conversations : List Conversation) (performanceMap : List (ℕ × Tier))
    (g : Rng) (nid fk : ℕ) (hv : g.Valid) :
    SessionProps (journeyCustomerStep env scale workspace posts products conversations
      performanceMap g nid fk).1 := by
  rw [journeyCustomerStep]
  dsimp only
  refine journeyEventsLoop_props _ _ _ _ _ _ _ _ _ _ _ _ _ _ (hv.of_f_eq ?_)
  dsimp only [rnd, randomChoice, selectWeightedPost, getSeasonallyWeightedDate,
    getWeightedCountry, weightedChoice, getWeightedDeviceWithConversion]
  rw [getSeasonallyWeightedDateAttempts_f, generateHash_f]

theorem journeyCustomerLoop_sessionProps (env : Env) (scale : Scale) (workspace : Workspace)
    (posts : List SocialPost) (products : List Product)
    (conversations : List Conversation) (performanceMap : List (ℕ × Tier)) :
    ∀ n g nid fk, g.Valid → ∀ sid : ℕ,
      SessionProps ((journeyCustomerLoop env scale workspace posts products conversations
        performanceMap n g nid fk).journeys.filter (fun e => e.session_id == sid)) := by
  intro n
  induction n with
  | zero =>
      intro g nid fk _ sid
      rw [journeyCustomerLoop_zero]
      exact sessionProps_nil
  | succ n ih =>
      intro g nid fk hv sid
      rw [journeyCustomerLoop_succ]
      dsimp only
      refine sessionProps_filter_append (nid + 1) ?_ ?_ ?_ ?_ sid
      · intro e he
        rw [journeyCustomerStep_sid env scale workspace posts products conversations
          performanceMap g nid fk e he]
        omega
      · intro e he
        exact le_trans (journeyCustomerStep_nid env scale workspace posts products
          conversations performanceMap g nid fk)
          ((journeyCustomerLoop_sid_bounds env scale workspace posts products conversations
            performanceMap n _ _ _ e he).1)
      · exact sessionProps_filter_const
          (journeyCustomerStep_sid env scale workspace posts products conversations
            performanceMap g nid fk)
          (journeyCustomerStep_props env scale workspace posts products conversations
            performanceMap g nid fk hv)
      · exact ih _ _ _ (hv.of_f_eq (journeyCustomerStep_f env scale workspace posts products
          conversations performanceMap g nid fk))

theorem journeysOuter_nid_mono (env : Env) (scale : Scale)
    (wsPosts : List (ℕ × List SocialPost)) (wsProducts : List (ℕ × List Product))
    (conversations : List Conversation) :
    ∀ ws g nid fk, nid ≤ (journeysOuter env scale wsPosts wsProducts conversations
      ws g nid fk).nid := by
  intro ws
  induction ws with
  | nil => intro g nid fk; exact le_refl nid
  | cons w rest ih =>
      intro g nid fk
      rw [journeysOuter]
      dsimp only
      exact le_trans (journeyCustomerLoop_nid_mono _ _ _ _ _ _ _ _ _ _ _) (ih _ _ _)

theorem journeysOuter_sid_bounds (env : Env) (scale : Scale)
    (wsPosts : List (ℕ × List SocialPost)) (wsProducts : List (ℕ × List Product))
    (conversations : List Conversation) :
    ∀ ws g nid fk, ∀ e ∈ (journeysOuter env scale wsPosts wsProducts conversations
      ws g nid fk).journeys,
      nid ≤ e.session_id ∧ e.session_id < (journeysOuter env scale wsPosts wsProducts
        conversations ws g nid fk).nid := by
  intro ws
  induction ws with
  | nil =>
      intro g nid fk e he
      simp [journeysOuter] at he
  | cons w rest ih =>
      intro g nid fk e he
      rw [journeysOuter] at he ⊢
      dsimp only at he ⊢
      rw [List.mem_append] at he
      have h2 := ih (journeyCustomerLoop env scale w ((mapGet wsPosts w.id).getD [])
        ((mapGet wsProducts w.id).getD []) conversations
        (postPerformanceLoop ((mapGet wsPosts w.id).getD []) g []).1
        scale.customersPerWorkspace
        (postPerformanceLoop ((mapGet wsPosts w.id).getD []) g []).2 nid fk).rng
        (journeyCustomerLoop env scale w ((mapGet wsPosts w.id).getD [])
        ((mapGet wsProducts w.id).getD []) conversations
        (postPerformanceLoop ((mapGet wsPosts w.id).getD []) g []).1
        scale.customersPerWorkspace
        (postPerformanceLoop ((mapGet wsPosts w.id).getD []) g []).2 nid fk).nid
        (journeyCustomerLoop env scale w ((mapGet wsPosts w.id).getD [])
        ((mapGet wsProducts w.id).getD []) conversations
        (postPerformanceLoop ((mapGet wsPosts w.id).getD []) g []).1
        scale.customersPerWorkspace
        (postPerformanceLoop ((mapGet wsPosts w.id).getD []) g []).2 nid fk).fk
      rcases he with he | he
      · obtain ⟨hlo, hhi⟩ := journeyCustomerLoop_sid_bounds env scale w _ _ _ _ _ _ _ _ e he
        refine ⟨hlo, lt_of_lt_of_le hhi ?_⟩
        exact journeysOuter_nid_mono env scale wsPosts wsProducts conversations rest _ _ _
      · obtain ⟨hlo, hhi⟩ := ih _ _ _ e he
        refine ⟨le_trans (journeyCustomerLoop_nid_mono _ _ _ _ _ _ _ _ _ _ _) hlo, hhi⟩

theorem journeysOuter_sessionProps (env : Env) (scale : Scale)
    (wsPosts : List (ℕ × List SocialPost)) (wsProducts : List (ℕ × List Product))
    (conversations : List Conversation) :
    ∀ ws g nid fk, g.Valid → ∀ sid : ℕ,
      SessionProps ((journeysOuter env scale wsPosts wsProducts conversations
        ws g nid fk).journeys.filter (fun e => e.session_id == sid)) := by
  intro ws
  induction ws with
  | nil =>
      intro g nid fk _ sid
      rw [journeysOuter]
      exact sessionProps_nil
  | cons w rest ih =>
      intro g nid fk hv sid
      rw [journeysOuter]
      dsimp only
      set posts := (mapGet wsPosts w.id).getD [] with hposts
      set products := (mapGet wsProducts w.id).getD [] with hproducts
      set pm := (postPerformanceLoop posts g []).1 with hpm
      set g1 := (postPerformanceLoop posts g []).2 with hg1
      set t := journeyCustomerLoop env scale w posts products conversations pm
        scale.customersPerWorkspace g1 nid fk with ht
      refine sessionProps_filter_append t.nid ?_ ?_ ?_ ?_ sid
      · intro e he
        rw [ht] at he ⊢
        exact (journeyCustomerLoop_sid_bounds env scale w posts products conversations pm
          scale.customersPerWorkspace g1 nid fk e he).2
      · intro e he
        exact (journeysOuter_sid_bounds env scale wsPosts wsProducts conversations
          rest t.rng t.nid t.fk e he).1
      · intro sid2
        rw [ht]
        exact journeyCustomerLoop_sessionProps env scale w posts products conversations pm
          scale.customersPerWorkspace g1 nid fk
          (hv.of_f_eq (postPerformanceLoop_f posts g [])) sid2
      · refine ih t.rng t.nid t.fk (hv.of_f_eq ?_)
        rw [ht, journeyCustomerLoop_f, hg1, postPerformanceLoop_f]

/-- C9: within every customer-journey session produced by
generateCustomerJourneys (the events sharing one session_id), the
event_timestamp values are non-decreasing in emission order, exactly one
event has is_session_first_event = true and exactly one has
is_session_last_event = true, and the two marks fall on the same event
exactly when the session consists of a single event.  Stated over
journeysOuter, the loop body of generateCustomerJourneys, for any
environment, scale, lookup tables and valid random stream. -/
theorem C9_journey_sessions_wellformed (env : Env) (scale : Scale)
    (wsPosts : List (ℕ × List SocialPost)) (wsProducts : List (ℕ × List Product))
    (conversations : List Conversation) (workspaces : List Workspace)
    (g : Rng) (nid fk : ℕ) (hv : g.Valid) :
    SessionWF (journeysOuter env scale wsPosts wsProducts conversations
      workspaces g nid fk).journeys :=
  fun sid => journeysOuter_sessionProps env scale wsPosts wsProducts conversations
    workspaces g nid fk hv sid

/-- Witness for C9: the session well-formedness facts hold for a concrete
tiny run over the constant stream 1/2. -/
theorem C9_journey_sessions_wellformed_witness :
    (constRng (1/2)).Valid ∧
    SessionWF (journeysOuter oracleEnv tinyScale [] [] [] [Workspace.dflt]
      (constRng (1/2)) 0 0).journeys :=
  ⟨constRng_valid (1/2) (by norm_num) (by norm_num),
   C9_journey_sessions_wellformed oracleEnv tinyScale [] [] [] [Workspace.dflt]
     (constRng (1/2)) 0 0 (constRng_valid (1/2) (by norm_num) (by norm_num))⟩

theorem workspacesLoop_ws_len (env : Env) :
    ∀ n g nid fk, (workspacesLoop env n g nid fk).workspaces.length = n := by
  intro n
  induction n with
  | zero => intro g nid fk; rfl
  | succ n ih =>
      intro g nid fk
      rw [workspacesLoop]
      dsimp only
      rw [List.length_cons, ih]

theorem workspacesLoop_acc_len (env : Env) :
    ∀ n g nid fk, (workspacesLoop env n g nid fk).accounts.length = n := by
  intro n
  induction n with
  | zero => intro g nid fk; rfl
  | succ n ih =>
      intro g nid fk
      rw [workspacesLoop]
      dsimp only
      rw [List.length_cons, ih]

theorem productsInner_len (env : Env) (scale : Scale) (workspace : Workspace)
    (account : Account) :
    ∀ n g nid fk, (productsInner env scale workspace account n g nid fk).products.length = n := by
  intro n
  induction n with
  | zero => intro g nid fk; rfl
  | succ n ih =>
      intro g nid fk
      rw [productsInner]
      dsimp only
      rw [List.length_cons, ih]

theorem productsOuter_len (env : Env) (scale : Scale) (accounts : List Account) :
    ∀ ws g nid fk, (productsOuter env scale accounts ws g nid fk).products.length =
      ws.length * scale.productsPerWorkspace := by
  intro ws
  induction ws with
  | nil => intro g nid fk; simp [productsOuter]
  | cons w rest ih =>
      intro g nid fk
      rw [productsOuter]
      dsimp only
      rw [List.length_append, productsInner_len, ih, List.length_cons]
      ring

theorem variantsInner_len (env : Env) (scale : Scale) (product : Product)
    (colors : List String) :
    ∀ n i g nid fk, (variantsInner env scale product colors i n g nid fk).variants.length = n := by
  intro n
  induction n with
  | zero => intro i g nid fk; rfl
  | succ n ih =>
      intro i g nid fk
      rw [variantsInner]
      dsimp only
      rw [List.length_cons, ih]

theorem variantsOuter_len (env : Env) (scale : Scale) :
    ∀ ps g nid fk, (variantsOuter env scale ps g nid fk).variants.length =
      ps.length * scale.variantsPerProduct := by
  intro ps
  induction ps with
  | nil => intro g nid fk; simp [variantsOuter]
  | cons p rest ih =>
      intro g nid fk
      rw [variantsOuter]
      dsimp only
      rw [List.length_append, variantsInner_len, ih, List.length_cons]
      ring

theorem postsInner_len (env : Env) (scale : Scale) (workspace : Workspace)
    (account : Account) (products : List Product) :
    ∀ n g nid fk,
      (postsInner env scale workspace account products n g nid fk).posts.length = n := by
  intro n
  induction n with
  | zero => intro g nid fk; rfl
  | succ n ih =>
      intro g nid fk
      rw [postsInner]
      dsimp only
      rw [List.length_cons, ih]

theorem postsOuter_len (env : Env) (scale : Scale) (accounts : List Account)
    (wsProducts : List (ℕ × List Product)) :
    ∀ ws g nid fk, (postsOuter env scale accounts wsProducts ws g nid fk).posts.length =
      ws.length * scale.postsPerWorkspace := by
  intro ws
  induction ws with
  | nil => intro g nid fk; simp [postsOuter]
  | cons w rest ih =>
      intro g nid fk
      rw [postsOuter]
      dsimp only
      rw [List.length_append, postsInner_len, ih, List.length_cons]
      ring

theorem conversationsInner_len (env : Env) (scale : Scale) (workspace : Workspace)
    (account : Account) (bindings : List GarmentBinding) (products : List Product) :
    ∀ n g nid,
      (conversationsInner env scale workspace account bindings products n g nid).conversations.length = n := by
  intro n
  induction n with
  | zero => intro g nid; rfl
  | succ n ih =>
      intro g nid
      rw [conversationsInner]
      dsimp only
      rw [List.length_cons, ih]

theorem conversationsOuter_len (env : Env) (scale : Scale) (accounts : List Account)
    (allBindings : List GarmentBinding) (products : List Product) :
    ∀ ws g nid,
      (conversationsOuter env scale accounts allBindings products ws g nid).conversations.length =
      ws.length * scale.conversationsPerWorkspace := by
  intro ws
  induction ws with
  | nil => intro g nid; simp [conversationsOuter]
  | cons w rest ih =>
      intro g nid
      rw [conversationsOuter]
      dsimp only
      rw [List.length_append, conversationsInner_len, ih, List.length_cons]
      ring

theorem ordersInner_len (env : Env) (scale : Scale) (workspace : Workspace)
    (account : Account) (products : List Product) (conversations : List Conversation)
    (allBindings : List GarmentBinding) :
    ∀ n i g nid,
      (ordersInner env scale workspace account products conversations allBindings
        i n g nid).orders.length = n := by
  intro n
  induction n with
  | zero => intro i g nid; rfl
  | succ n ih =>
      intro i g nid
      rw [ordersInner]
      dsimp only
      rw [List.length_cons, ih]

theorem ordersOuter_len (env : Env) (scale : Scale) (accounts : List Account)
    (wsProducts : List (ℕ × List Product)) (allConversations : List Conversation)
    (allBindings : List GarmentBinding) :
    ∀ ws g nid,
      (ordersOuter env scale accounts wsProducts allConversations allBindings
        ws g nid).orders.length = ws.length * scale.ordersPerWorkspace := by
  intro ws
  induction ws with
  | nil => intro g nid; simp [ordersOuter]
  | cons w rest ih =>
      intro g nid
      rw [ordersOuter]
      dsimp only
      rw [List.length_append, ordersInner_len, ih, List.length_cons]
      ring

theorem forecastHorizons_len (env : Env) (product : Product) :
    ∀ hs g nid, (forecastHorizons env product hs g nid).forecasts.length = hs.length := by
  intro hs
  induction hs with
  | nil => intro g nid; rfl
  | cons h rest ih =>
      intro g nid
      rw [forecastHorizons]
      dsimp only
      rw [List.length_cons, ih, List.length_cons]

theorem forecastProducts_len (env : Env) :
    ∀ ps g nid, (forecastProducts env ps g nid).forecasts.length =
      ps.length * horizons.length := by
  intro ps
  induction ps with
  | nil => intro g nid; simp [forecastProducts]
  | cons p rest ih =>
      intro g nid
      rw [forecastProducts]
      dsimp only
      rw [List.length_append, forecastHorizons_len, ih, List.length_cons]
      ring

theorem generateProducts_workspaces_frame (env : Env) (scale : Scale) (s : GenState) :
    (generateProducts env scale s).workspaces = s.workspaces := rfl

theorem generateProductVariants_workspaces_frame (env : Env) (scale : Scale) (s : GenState) :
    (generateProductVariants env scale s).workspaces = s.workspaces := rfl

theorem generateInventoryHistory_workspaces_frame (env : Env) (scale : Scale) (s : GenState) :
    (generateInventoryHistory env scale s).workspaces = s.workspaces := rfl

theorem generateSocialPosts_workspaces_frame (env : Env) (scale : Scale) (s : GenState) :
    (generateSocialPosts env scale s).workspaces = s.workspaces := rfl

theorem generatePostMetrics_workspaces_frame (env : Env) (scale : Scale) (s : GenState) :
    (generatePostMetrics env scale s).workspaces = s.workspaces := rfl

theorem generateGarmentBindings_workspaces_frame (env : Env) (scale : Scale) (s : GenState) :
    (generateGarmentBindings env scale s).workspaces = s.workspaces := rfl

theorem generateConversations_workspaces_frame (env : Env) (scale : Scale) (s : GenState) :
    (generateConversations env scale s).workspaces = s.workspaces := rfl

theorem generateOrders_workspaces_frame (env : Env) (scale : Scale) (s : GenState) :
    (generateOrders env scale s).workspaces = s.workspaces := rfl

theorem generateCustomerJourneys_workspaces_frame (env : Env) (scale : Scale) (s : GenState) :
    (generateCustomerJourneys env scale s).workspaces = s.workspaces := rfl

theorem generateDailyAggregates_workspaces_frame (env : Env) (scale : Scale) (s : GenState) :
    (generateDailyAggregates env scale s).workspaces = s.workspaces := rfl

theorem generateCustomerProfiles_workspaces_frame (env : Env) (scale : Scale) (s : GenState) :
    (generateCustomerProfiles env scale s).workspaces = s.workspaces := rfl

theorem generateDemandForecasts_workspaces_frame (env : Env) (scale : Scale) (s : GenState) :
    (generateDemandForecasts env scale s).workspaces = s.workspaces := rfl

theorem generateProducts_accounts_frame (env : Env) (scale : Scale) (s : GenState) :
    (generateProducts env scale s).accounts = s.accounts := rfl

theorem generateProductVariants_accounts_frame (env : Env) (scale : Scale) (s : GenState) :
    (generateProductVariants env scale s).accounts = s.accounts := rfl

theorem generateInventoryHistory_accounts_frame (env : Env) (scale : Scale) (s : GenState) :
    (generateInventoryHistory env scale s).accounts = s.accounts := rfl

theorem generateSocialPosts_accounts_frame (env : Env) (scale : Scale) (s : GenState) :
    (generateSocialPosts env scale s).accounts = s.accounts := rfl

theorem generatePostMetrics_accounts_frame (env : Env) (scale : Scale) (s : GenState) :
    (generatePostMetrics env scale s).accounts = s.accounts := rfl

theorem generateGarmentBindings_accounts_frame (env : Env) (scale : Scale) (s : GenState) :
    (generateGarmentBindings env scale s).accounts = s.accounts := rfl

theorem generateConversations_accounts_frame (env : Env) (scale : Scale) (s : GenState) :
    (generateConversations env scale s).accounts = s.accounts := rfl

theorem generateOrders_accounts_frame (env : Env) (scale : Scale) (s : GenState) :
    (generateOrders env scale s).accounts = s.accounts := rfl

theorem generateCustomerJourneys_accounts_frame (env : Env) (scale : Scale) (s : GenState) :
    (generateCustomerJourneys env scale s).accounts = s.accounts := rfl

theorem generateDailyAggregates_accounts_frame (env : Env) (scale : Scale) (s : GenState) :
    (generateDailyAggregates env scale s).accounts = s.accounts := rfl

theorem generateCustomerProfiles_accounts_frame (env : Env) (scale : Scale) (s : GenState) :
    (generateCustomerProfiles env scale s).accounts = s.accounts := rfl

theorem generateDemandForecasts_accounts_frame (env : Env) (scale : Scale) (s : GenState) :
    (generateDemandForecasts env scale s).accounts = s.accounts := rfl

theorem generateWorkspaces_products_frame (env : Env) (scale : Scale) (s : GenState) :
    (generateWorkspaces env scale s).products = s.products := rfl

theorem generateProductVariants_products_frame (env : Env) (scale : Scale) (s : GenState) :
    (generateProductVariants env scale s).products = s.products := rfl

theorem generateInventoryHistory_products_frame (env : Env) (scale : Scale) (s : GenState) :
    (generateInventoryHistory env scale s).products = s.products := rfl

theorem generateSocialPosts_products_frame (env : Env) (scale : Scale) (s : GenState) :
    (generateSocialPosts env scale s).products = s.products := rfl

theorem generatePostMetrics_products_frame (env : Env) (scale : Scale) (s : GenState) :
    (generatePostMetrics env scale s).products = s.products := rfl

theorem generateGarmentBindings_products_frame (env : Env) (scale : Scale) (s : GenState) :
    (generateGarmentBindings env scale s).products = s.products := rfl

theorem generateConversations_products_frame (env : Env) (scale : Scale) (s : GenState) :
    (generateConversations env scale s).products = s.products := rfl

theorem generateOrders_products_frame (env : Env) (scale : Scale) (s : GenState) :
    (generateOrders env scale s).products = s.products := rfl

theorem generateCustomerJourneys_products_frame (env : Env) (scale : Scale) (s : GenState) :
    (generateCustomerJourneys env scale s).products = s.products := rfl

theorem generateDailyAggregates_products_frame (env : Env) (scale : Scale) (s : GenState) :
    (generateDailyAggregates env scale s).products = s.products := rfl

theorem generateCustomerProfiles_products_frame (env : Env) (scale : Scale) (s : GenState) :
    (generateCustomerProfiles env scale s).products = s.products := rfl

theorem generateDemandForecasts_products_frame (env : Env) (scale : Scale) (s : GenState) :
    (generateDemandForecasts env scale s).products = s.products := rfl

theorem generateWorkspaces_product_variants_frame (env : Env) (scale : Scale) (s : GenState) :
    (generateWorkspaces env scale s).product_variants = s.product_variants := rfl

theorem generateProducts_product_variants_frame (env : Env) (scale : Scale) (s : GenState) :
    (generateProducts env scale s).product_variants = s.product_variants := rfl

theorem generateInventoryHistory_product_variants_frame (env : Env) (scale : Scale) (s : GenState) :
    (generateInventoryHistory env scale s).product_variants = s.product_variants := rfl

theorem generateSocialPosts_product_variants_frame (env : Env) (scale : Scale) (s : GenState) :
    (generateSocialPosts env scale s).product_variants = s.product_variants := rfl

theorem generatePostMetrics_product_variants_frame (env : Env) (scale : Scale) (s : GenState) :
    (generatePostMetrics env scale s).product_variants = s.product_variants := rfl

theorem generateGarmentBindings_product_variants_frame (env : Env) (scale : Scale) (s : GenState) :
    (generateGarmentBindings env scale s).product_variants = s.product_variants := rfl

theorem generateConversations_product_variants_frame (env : Env) (scale : Scale) (s : GenState) :
    (generateConversations env scale s).product_variants = s.product_variants := rfl

theorem generateOrders_product_variants_frame (env : Env) (scale : Scale) (s : GenState) :
    (generateOrders env scale s).product_variants = s.product_variants := rfl

theorem generateCustomerJourneys_product_variants_frame (env : Env) (scale : Scale) (s : GenState) :
    (generateCustomerJourneys env scale s).product_variants = s.product_variants := rfl

theorem generateDailyAggregates_product_variants_frame (env : Env) (scale : Scale) (s : GenState) :
    (generateDailyAggregates env scale s).product_variants = s.product_variants := rfl

theorem generateCustomerProfiles_product_variants_frame (env : Env) (scale : Scale) (s : GenState) :
    (generateCustomerProfiles env scale s).product_variants = s.product_variants := rfl

theorem generateDemandForecasts_product_variants_frame (env : Env) (scale : Scale) (s : GenState) :
    (generateDemandForecasts env scale s).product_variants = s.product_variants := rfl

theorem generateWorkspaces_social_posts_frame (env : Env) (scale : Scale) (s : GenState) :
    (generateWorkspaces env scale s).social_posts = s.social_posts := rfl

theorem generateProducts_social_posts_frame (env : Env) (scale : Scale) (s : GenState) :
    (generateProducts env scale s).social_posts = s.social_posts := rfl

theorem generateProductVariants_social_posts_frame (env : Env) (scale : Scale) (s : GenState) :
    (generateProductVariants env scale s).social_posts = s.social_posts := rfl

theorem generateInventoryHistory_social_posts_frame (env : Env) (scale : Scale) (s : GenState) :
    (generateInventoryHistory env scale s).social_posts = s.social_posts := rfl

theorem generatePostMetrics_social_posts_frame (env : Env) (scale : Scale) (s : GenState) :
    (generatePostMetrics env scale s).social_posts = s.social_posts := rfl

theorem generateGarmentBindings_social_posts_frame (env : Env) (scale : Scale) (s : GenState) :
    (generateGarmentBindings env scale s).social_posts = s.social_posts := rfl

theorem generateConversations_social_posts_frame (env : Env) (scale : Scale) (s : GenState) :
    (generateConversations env scale s).social_posts = s.social_posts := rfl

theorem generateOrders_social_posts_frame (env : Env) (scale : Scale) (s : GenState) :
    (generateOrders env scale s).social_posts = s.social_posts := rfl

theorem generateCustomerJourneys_social_posts_frame (env : Env) (scale : Scale) (s : GenState) :
    (generateCustomerJourneys env scale s).social_posts = s.social_posts := rfl

theorem generateDailyAggregates_social_posts_frame (env : Env) (scale : Scale) (s : GenState) :
    (generateDailyAggregates env scale s).social_posts = s.social_posts := rfl

theorem generateCustomerProfiles_social_posts_frame (env : Env) (scale : Scale) (s : GenState) :
    (generateCustomerProfiles env scale s).social_posts = s.social_posts := rfl

theorem generateDemandForecasts_social_posts_frame (env : Env) (scale : Scale) (s : GenState) :
    (generateDemandForecasts env scale s).social_posts = s.social_posts := rfl

theorem generateWorkspaces_conversations_frame (env : Env) (scale : Scale) (s : GenState) :
    (generateWorkspaces env scale s).conversations = s.conversations := rfl

theorem generateProducts_conversations_frame (env : Env) (scale : Scale) (s : GenState) :
    (generateProducts env scale s).conversations = s.conversations := rfl

theorem generateProductVariants_conversations_frame (env : Env) (scale : Scale) (s : GenState) :
    (generateProductVariants env scale s).conversations = s.conversations := rfl

theorem generateInventoryHistory_conversations_frame (env : Env) (scale : Scale) (s : GenState) :
    (generateInventoryHistory env scale s).conversations = s.conversations := rfl

theorem generateSocialPosts_conversations_frame (env : Env) (scale : Scale) (s : GenState) :
    (generateSocialPosts env scale s).conversations = s.conversations := rfl

theorem generatePostMetrics_conversations_frame (env : Env) (scale : Scale) (s : GenState) :
    (generatePostMetrics env scale s).conversations = s.conversations := rfl

theorem generateGarmentBindings_conversations_frame (env : Env) (scale : Scale) (s : GenState) :
    (generateGarmentBindings env scale s).conversations = s.conversations := rfl

theorem generateOrders_conversations_frame (env : Env) (scale : Scale) (s : GenState) :
    (generateOrders env scale s).conversations = s.conversations := rfl

theorem generateCustomerJourneys_conversations_frame (env : Env) (scale : Scale) (s : GenState) :
    (generateCustomerJourneys env scale s).conversations = s.conversations := rfl

theorem generateDailyAggregates_conversations_frame (env : Env) (scale : Scale) (s : GenState) :
    (generateDailyAggregates env scale s).conversations = s.conversations := rfl

theorem generateCustomerProfiles_conversations_frame (env : Env) (scale : Scale) (s : GenState) :
    (generateCustomerProfiles env scale s).conversations = s.conversations := rfl

theorem generateDemandForecasts_conversations_frame (env : Env) (scale : Scale) (s : GenState) :
    (generateDemandForecasts env scale s).conversations = s.conversations := rfl

theorem generateWorkspaces_orders_frame (env : Env) (scale : Scale) (s : GenState) :
    (generateWorkspaces env scale s).orders = s.orders := rfl

theorem generateProducts_orders_frame (env : Env) (scale : Scale) (s : GenState) :
    (generateProducts env scale s).orders = s.orders := rfl

theorem generateProductVariants_orders_frame (env : Env) (scale : Scale) (s : GenState) :
    (generateProductVariants env scale s).orders = s.orders := rfl

theorem generateInventoryHistory_orders_frame (env : Env) (scale : Scale) (s : GenState) :
    (generateInventoryHistory env scale s).orders = s.orders := rfl

theorem generateSocialPosts_orders_frame (env : Env) (scale : Scale) (s : GenState) :
    (generateSocialPosts env scale s).orders = s.orders := rfl

theorem generatePostMetrics_orders_frame (env : Env) (scale : Scale) (s : GenState) :
    (generatePostMetrics env scale s).orders = s.orders := rfl

theorem generateGarmentBindings_orders_frame (env : Env) (scale : Scale) (s : GenState) :
    (generateGarmentBindings env scale s).orders = s.orders := rfl

theorem generateConversations_orders_frame (env : Env) (scale : Scale) (s : GenState) :
    (generateConversations env scale s).orders = s.orders := rfl

theorem generateCustomerJourneys_orders_frame (env : Env) (scale : Scale) (s : GenState) :
    (generateCustomerJourneys env scale s).orders = s.orders := rfl

theorem generateDailyAggregates_orders_frame (env : Env) (scale : Scale) (s : GenState) :
    (generateDailyAggregates env scale s).orders = s.orders := rfl

theorem generateCustomerProfiles_orders_frame (env : Env) (scale : Scale) (s : GenState) :
    (generateCustomerProfiles env scale s).orders = s.orders := rfl

theorem generateDemandForecasts_orders_frame (env : Env) (scale : Scale) (s : GenState) :
    (generateDemandForecasts env scale s).orders = s.orders := rfl

theorem generateWorkspaces_demand_forecasts_frame (env : Env) (scale : Scale) (s : GenState) :
    (generateWorkspaces env scale s).demand_forecasts = s.demand_forecasts := rfl

theorem generateProducts_demand_forecasts_frame (env : Env) (scale : Scale) (s : GenState) :
    (generateProducts env scale s).demand_forecasts = s.demand_forecasts := rfl

theorem generateProductVariants_demand_forecasts_frame (env : Env) (scale : Scale) (s : GenState) :
    (generateProductVariants env scale s).demand_forecasts = s.demand_forecasts := rfl

theorem generateInventoryHistory_demand_forecasts_frame (env : Env) (scale : Scale) (s : GenState) :
    (generateInventoryHistory env scale s).demand_forecasts = s.demand_forecasts := rfl

theorem generateSocialPosts_demand_forecasts_frame (env : Env) (scale : Scale) (s : GenState) :
    (generateSocialPosts env scale s).demand_forecasts = s.demand_forecasts := rfl

theorem generatePostMetrics_demand_forecasts_frame (env : Env) (scale : Scale) (s : GenState) :
    (generatePostMetrics env scale s).demand_forecasts = s.demand_forecasts := rfl

theorem generateGarmentBindings_demand_forecasts_frame (env : Env) (scale : Scale) (s : GenState) :
    (generateGarmentBindings env scale s).demand_forecasts = s.demand_forecasts := rfl

theorem generateConversations_demand_forecasts_frame (env : Env) (scale : Scale) (s : GenState) :
    (generateConversations env scale s).demand_forecasts = s.demand_forecasts := rfl

theorem generateOrders_demand_forecasts_frame (env : Env) (scale : Scale) (s : GenState) :
    (generateOrders env scale s).demand_forecasts = s.demand_forecasts := rfl

theorem generateCustomerJourneys_demand_forecasts_frame (env : Env) (scale : Scale) (s : GenState) :
    (generateCustomerJourneys env scale s).demand_forecasts = s.demand_forecasts := rfl

theorem generateDailyAggregates_demand_forecasts_frame (env : Env) (scale : Scale) (s : GenState) :
    (generateDailyAggregates env scale s).demand_forecasts = s.demand_forecasts := rfl

theorem generateCustomerProfiles_demand_forecasts_frame (env : Env) (scale : Scale) (s : GenState) :
    (generateCustomerProfiles env scale s).demand_forecasts = s.demand_forecasts := rfl

theorem generateWorkspaces_workspaces_eq (env : Env) (scale : Scale) (s : GenState) :
    (generateWorkspaces env scale s).workspaces =
      s.workspaces ++ (workspacesLoop env scale.workspaces s.rng s.nid s.fk).workspaces := rfl

theorem generateWorkspaces_accounts_eq (env : Env) (scale : Scale) (s : GenState) :
    (generateWorkspaces env scale s).accounts =
      s.accounts ++ (workspacesLoop env scale.workspaces s.rng s.nid s.fk).accounts := rfl

theorem generateProducts_products_eq (env : Env) (scale : Scale) (s : GenState) :
    (generateProducts env scale s).products =
      s.products ++ (productsOuter env scale s.accounts s.workspaces s.rng s.nid s.fk).products := rfl

theorem generateProductVariants_variants_eq (env : Env) (scale : Scale) (s : GenState) :
    (generateProductVariants env scale s).product_variants =
      s.product_variants ++ (variantsOuter env scale s.products s.rng s.nid s.fk).variants := rfl

theorem generateSocialPosts_posts_eq (env : Env) (scale : Scale) (s : GenState) :
    (generateSocialPosts env scale s).social_posts =
      s.social_posts ++ (postsOuter env scale s.accounts s.workspaceProducts s.workspaces
        s.rng s.nid s.fk).posts := rfl

theorem generateConversations_conversations_eq (env : Env) (scale : Scale) (s : GenState) :
    (generateConversations env scale s).conversations =
      s.conversations ++ (conversationsOuter env scale s.accounts s.garment_bindings
        s.products s.workspaces s.rng s.nid).conversations := rfl

theorem generateOrders_orders_eq (env : Env) (scale : Scale) (s : GenState) :
    (generateOrders env scale s).orders =
      s.orders ++ (ordersOuter env scale s.accounts s.workspaceProducts s.conversations
        s.garment_bindings s.workspaces s.rng s.nid).orders := rfl

theorem generateDemandForecasts_forecasts_eq (env : Env) (scale : Scale) (s : GenState) :
    (generateDemandForecasts env scale s).demand_forecasts =
      s.demand_forecasts ++ (forecastProducts env (s.products.take 50) s.rng s.nid).forecasts := rfl

theorem generate_workspaces_len (env : Env) (scale : Scale) (g : Rng) :
    (generate env scale g).workspaces.length = scale.workspaces := by
  simp only [generate, generateProducts_workspaces_frame, generateProductVariants_workspaces_frame, generateInventoryHistory_workspaces_frame, generateSocialPosts_workspaces_frame, generatePostMetrics_workspaces_frame, generateGarmentBindings_workspaces_frame, generateConversations_workspaces_frame, generateOrders_workspaces_frame, generateCustomerJourneys_workspaces_frame, generateDailyAggregates_workspaces_frame, generateCustomerProfiles_workspaces_frame, generateDemandForecasts_workspaces_frame, generateProducts_accounts_frame, generateProductVariants_accounts_frame, generateInventoryHistory_accounts_frame, generateSocialPosts_accounts_frame, generatePostMetrics_accounts_frame, generateGarmentBindings_accounts_frame, generateConversations_accounts_frame, generateOrders_accounts_frame, generateCustomerJourneys_accounts_frame, generateDailyAggregates_accounts_frame, generateCustomerProfiles_accounts_frame, generateDemandForecasts_accounts_frame, generateWorkspaces_products_frame, generateProductVariants_products_frame, generateInventoryHistory_products_frame, generateSocialPosts_products_frame, generatePostMetrics_products_frame, generateGarmentBindings_products_frame, generateConversations_products_frame, generateOrders_products_frame, generateCustomerJourneys_products_frame, generateDailyAggregates_products_frame, generateCustomerProfiles_products_frame, generateDemandForecasts_products_frame, generateWorkspaces_product_variants_frame, generateProducts_product_variants_frame, generateInventoryHistory_product_variants_frame, generateSocialPosts_product_variants_frame, generatePostMetrics_product_variants_frame, generateGarmentBindings_product_variants_frame, generateConversations_product_variants_frame, generateOrders_product_variants_frame, generateCustomerJourneys_product_variants_frame, generateDailyAggregates_product_variants_frame, generateCustomerProfiles_product_variants_frame, generateDemandForecasts_product_variants_frame, generateWorkspaces_social_posts_frame, generateProducts_social_posts_frame, generateProductVariants_social_posts_frame, generateInventoryHistory_social_posts_frame, generatePostMetrics_social_posts_frame, generateGarmentBindings_social_posts_frame, generateConversations_social_posts_frame, generateOrders_social_posts_frame, generateCustomerJourneys_social_posts_frame, generateDailyAggregates_social_posts_frame, generateCustomerProfiles_social_posts_frame, generateDemandForecasts_social_posts_frame, generateWorkspaces_conversations_frame, generateProducts_conversations_frame, generateProductVariants_conversations_frame, generateInventoryHistory_conversations_frame, generateSocialPosts_conversations_frame, generatePostMetrics_conversations_frame, generateGarmentBindings_conversations_frame, generateOrders_conversations_frame, generateCustomerJourneys_conversations_frame, generateDailyAggregates_conversations_frame, generateCustomerProfiles_conversations_frame, generateDemandForecasts_conversations_frame, generateWorkspaces_orders_frame, generateProducts_orders_frame, generateProductVariants_orders_frame, generateInventoryHistory_orders_frame, generateSocialPosts_orders_frame, generatePostMetrics_orders_frame, generateGarmentBindings_orders_frame, generateConversations_orders_frame, generateCustomerJourneys_orders_frame, generateDailyAggregates_orders_frame, generateCustomerProfiles_orders_frame, generateDemandForecasts_orders_frame, generateWorkspaces_demand_forecasts_frame, generateProducts_demand_forecasts_frame, generateProductVariants_demand_forecasts_frame, generateInventoryHistory_demand_forecasts_frame, generateSocialPosts_demand_forecasts_frame, generatePostMetrics_demand_forecasts_frame, generateGarmentBindings_demand_forecasts_frame, generateConversations_demand_forecasts_frame, generateOrders_demand_forecasts_frame, generateCustomerJourneys_demand_forecasts_frame, generateDailyAggregates_demand_forecasts_frame, generateCustomerProfiles_demand_forecasts_frame, generateWorkspaces_workspaces_eq, generateWorkspaces_accounts_eq, generateProducts_products_eq, generateProductVariants_variants_eq, generateSocialPosts_posts_eq, generateConversations_conversations_eq, generateOrders_orders_eq, generateDemandForecasts_forecasts_eq, workspacesLoop_ws_len, workspacesLoop_acc_len, productsOuter_len, variantsOuter_len, postsOuter_len, conversationsOuter_len, ordersOuter_len, forecastProducts_len, List.length_append, List.length_nil, List.nil_append, List.length_take, List.length_cons, initState, horizons]

theorem generate_accounts_len (env : Env) (scale : Scale) (g : Rng) :
    (generate env scale g).accounts.length = scale.workspaces := by
  simp only [generate, generateProducts_workspaces_frame, generateProductVariants_workspaces_frame, generateInventoryHistory_workspaces_frame, generateSocialPosts_workspaces_frame, generatePostMetrics_workspaces_frame, generateGarmentBindings_workspaces_frame, generateConversations_workspaces_frame, generateOrders_workspaces_frame, generateCustomerJourneys_workspaces_frame, generateDailyAggregates_workspaces_frame, generateCustomerProfiles_workspaces_frame, generateDemandForecasts_workspaces_frame, generateProducts_accounts_frame, generateProductVariants_accounts_frame, generateInventoryHistory_accounts_frame, generateSocialPosts_accounts_frame, generatePostMetrics_accounts_frame, generateGarmentBindings_accounts_frame, generateConversations_accounts_frame, generateOrders_accounts_frame, generateCustomerJourneys_accounts_frame, generateDailyAggregates_accounts_frame, generateCustomerProfiles_accounts_frame, generateDemandForecasts_accounts_frame, generateWorkspaces_products_frame, generateProductVariants_products_frame, generateInventoryHistory_products_frame, generateSocialPosts_products_frame, generatePostMetrics_products_frame, generateGarmentBindings_products_frame, generateConversations_products_frame, generateOrders_products_frame, generateCustomerJourneys_products_frame, generateDailyAggregates_products_frame, generateCustomerProfiles_products_frame, generateDemandForecasts_products_frame, generateWorkspaces_product_variants_frame, generateProducts_product_variants_frame, generateInventoryHistory_product_variants_frame, generateSocialPosts_product_variants_frame, generatePostMetrics_product_variants_frame, generateGarmentBindings_product_variants_frame, generateConversations_product_variants_frame, generateOrders_product_variants_frame, generateCustomerJourneys_product_variants_frame, generateDailyAggregates_product_variants_frame, generateCustomerProfiles_product_variants_frame, generateDemandForecasts_product_variants_frame, generateWorkspaces_social_posts_frame, generateProducts_social_posts_frame, generateProductVariants_social_posts_frame, generateInventoryHistory_social_posts_frame, generatePostMetrics_social_posts_frame, generateGarmentBindings_social_posts_frame, generateConversations_social_posts_frame, generateOrders_social_posts_frame, generateCustomerJourneys_social_posts_frame, generateDailyAggregates_social_posts_frame, generateCustomerProfiles_social_posts_frame, generateDemandForecasts_social_posts_frame, generateWorkspaces_conversations_frame, generateProducts_conversations_frame, generateProductVariants_conversations_frame, generateInventoryHistory_conversations_frame, generateSocialPosts_conversations_frame, generatePostMetrics_conversations_frame, generateGarmentBindings_conversations_frame, generateOrders_conversations_frame, generateCustomerJourneys_conversations_frame, generateDailyAggregates_conversations_frame, generateCustomerProfiles_conversations_frame, generateDemandForecasts_conversations_frame, generateWorkspaces_orders_frame, generateProducts_orders_frame, generateProductVariants_orders_frame, generateInventoryHistory_orders_frame, generateSocialPosts_orders_frame, generatePostMetrics_orders_frame, generateGarmentBindings_orders_frame, generateConversations_orders_frame, generateCustomerJourneys_orders_frame, generateDailyAggregates_orders_frame, generateCustomerProfiles_orders_frame, generateDemandForecasts_orders_frame, generateWorkspaces_demand_forecasts_frame, generateProducts_demand_forecasts_frame, generateProductVariants_demand_forecasts_frame, generateInventoryHistory_demand_forecasts_frame, generateSocialPosts_demand_forecasts_frame, generatePostMetrics_demand_forecasts_frame, generateGarmentBindings_demand_forecasts_frame, generateConversations_demand_forecasts_frame, generateOrders_demand_forecasts_frame, generateCustomerJourneys_demand_forecasts_frame, generateDailyAggregates_demand_forecasts_frame, generateCustomerProfiles_demand_forecasts_frame, generateWorkspaces_workspaces_eq, generateWorkspaces_accounts_eq, generateProducts_products_eq, generateProductVariants_variants_eq, generateSocialPosts_posts_eq, generateConversations_conversations_eq, generateOrders_orders_eq, generateDemandForecasts_forecasts_eq, workspacesLoop_ws_len, workspacesLoop_acc_len, productsOuter_len, variantsOuter_len, postsOuter_len, conversationsOuter_len, ordersOuter_len, forecastProducts_len, List.length_append, List.length_nil, List.nil_append, List.length_take, List.length_cons, initState, horizons]

theorem generate_products_len (env : Env) (scale : Scale) (g : Rng) :
    (generate env scale g).products.length = scale.workspaces * scale.productsPerWorkspace := by
  simp only [generate, generateProducts_workspaces_frame, generateProductVariants_workspaces_frame, generateInventoryHistory_workspaces_frame, generateSocialPosts_workspaces_frame, generatePostMetrics_workspaces_frame, generateGarmentBindings_workspaces_frame, generateConversations_workspaces_frame, generateOrders_workspaces_frame, generateCustomerJourneys_workspaces_frame, generateDailyAggregates_workspaces_frame, generateCustomerProfiles_workspaces_frame, generateDemandForecasts_workspaces_frame, generateProducts_accounts_frame, generateProductVariants_accounts_frame, generateInventoryHistory_accounts_frame, generateSocialPosts_accounts_frame, generatePostMetrics_accounts_frame, generateGarmentBindings_accounts_frame, generateConversations_accounts_frame, generateOrders_accounts_frame, generateCustomerJourneys_accounts_frame, generateDailyAggregates_accounts_frame, generateCustomerProfiles_accounts_frame, generateDemandForecasts_accounts_frame, generateWorkspaces_products_frame, generateProductVariants_products_frame, generateInventoryHistory_products_frame, generateSocialPosts_products_frame, generatePostMetrics_products_frame, generateGarmentBindings_products_frame, generateConversations_products_frame, generateOrders_products_frame, generateCustomerJourneys_products_frame, generateDailyAggregates_products_frame, generateCustomerProfiles_products_frame, generateDemandForecasts_products_frame, generateWorkspaces_product_variants_frame, generateProducts_product_variants_frame, generateInventoryHistory_product_variants_frame, generateSocialPosts_product_variants_frame, generatePostMetrics_product_variants_frame, generateGarmentBindings_product_variants_frame, generateConversations_product_variants_frame, generateOrders_product_variants_frame, generateCustomerJourneys_product_variants_frame, generateDailyAggregates_product_variants_frame, generateCustomerProfiles_product_variants_frame, generateDemandForecasts_product_variants_frame, generateWorkspaces_social_posts_frame, generateProducts_social_posts_frame, generateProductVariants_social_posts_frame, generateInventoryHistory_social_posts_frame, generatePostMetrics_social_posts_frame, generateGarmentBindings_social_posts_frame, generateConversations_social_posts_frame, generateOrders_social_posts_frame, generateCustomerJourneys_social_posts_frame, generateDailyAggregates_social_posts_frame, generateCustomerProfiles_social_posts_frame, generateDemandForecasts_social_posts_frame, generateWorkspaces_conversations_frame, generateProducts_conversations_frame, generateProductVariants_conversations_frame, generateInventoryHistory_conversations_frame, generateSocialPosts_conversations_frame, generatePostMetrics_conversations_frame, generateGarmentBindings_conversations_frame, generateOrders_conversations_frame, generateCustomerJourneys_conversations_frame, generateDailyAggregates_conversations_frame, generateCustomerProfiles_conversations_frame, generateDemandForecasts_conversations_frame, generateWorkspaces_orders_frame, generateProducts_orders_frame, generateProductVariants_orders_frame, generateInventoryHistory_orders_frame, generateSocialPosts_orders_frame, generatePostMetrics_orders_frame, generateGarmentBindings_orders_frame, generateConversations_orders_frame, generateCustomerJourneys_orders_frame, generateDailyAggregates_orders_frame, generateCustomerProfiles_orders_frame, generateDemandForecasts_orders_frame, generateWorkspaces_demand_forecasts_frame, generateProducts_demand_forecasts_frame, generateProductVariants_demand_forecasts_frame, generateInventoryHistory_demand_forecasts_frame, generateSocialPosts_demand_forecasts_frame, generatePostMetrics_demand_forecasts_frame, generateGarmentBindings_demand_forecasts_frame, generateConversations_demand_forecasts_frame, generateOrders_demand_forecasts_frame, generateCustomerJourneys_demand_forecasts_frame, generateDailyAggregates_demand_forecasts_frame, generateCustomerProfiles_demand_forecasts_frame, generateWorkspaces_workspaces_eq, generateWorkspaces_accounts_eq, generateProducts_products_eq, generateProductVariants_variants_eq, generateSocialPosts_posts_eq, generateConversations_conversations_eq, generateOrders_orders_eq, generateDemandForecasts_forecasts_eq, workspacesLoop_ws_len, workspacesLoop_acc_len, productsOuter_len, variantsOuter_len, postsOuter_len, conversationsOuter_len, ordersOuter_len, forecastProducts_len, List.length_append, List.length_nil, List.nil_append, List.length_take, List.length_cons, initState, horizons]

theorem generate_variants_len (env : Env) (scale : Scale) (g : Rng) :
    (generate env scale g).product_variants.length = scale.workspaces * scale.productsPerWorkspace * scale.variantsPerProduct := by
  simp only [generate, generateProducts_workspaces_frame, generateProductVariants_workspaces_frame, generateInventoryHistory_workspaces_frame, generateSocialPosts_workspaces_frame, generatePostMetrics_workspaces_frame, generateGarmentBindings_workspaces_frame, generateConversations_workspaces_frame, generateOrders_workspaces_frame, generateCustomerJourneys_workspaces_frame, generateDailyAggregates_workspaces_frame, generateCustomerProfiles_workspaces_frame, generateDemandForecasts_workspaces_frame, generateProducts_accounts_frame, generateProductVariants_accounts_frame, generateInventoryHistory_accounts_frame, generateSocialPosts_accounts_frame, generatePostMetrics_accounts_frame, generateGarmentBindings_accounts_frame, generateConversations_accounts_frame, generateOrders_accounts_frame, generateCustomerJourneys_accounts_frame, generateDailyAggregates_accounts_frame, generateCustomerProfiles_accounts_frame, generateDemandForecasts_accounts_frame, generateWorkspaces_products_frame, generateProductVariants_products_frame, generateInventoryHistory_products_frame, generateSocialPosts_products_frame, generatePostMetrics_products_frame, generateGarmentBindings_products_frame, generateConversations_products_frame, generateOrders_products_frame, generateCustomerJourneys_products_frame, generateDailyAggregates_products_frame, generateCustomerProfiles_products_frame, generateDemandForecasts_products_frame, generateWorkspaces_product_variants_frame, generateProducts_product_variants_frame, generateInventoryHistory_product_variants_frame, generateSocialPosts_product_variants_frame, generatePostMetrics_product_variants_frame, generateGarmentBindings_product_variants_frame, generateConversations_product_variants_frame, generateOrders_product_variants_frame, generateCustomerJourneys_product_variants_frame, generateDailyAggregates_product_variants_frame, generateCustomerProfiles_product_variants_frame, generateDemandForecasts_product_variants_frame, generateWorkspaces_social_posts_frame, generateProducts_social_posts_frame, generateProductVariants_social_posts_frame, generateInventoryHistory_social_posts_frame, generatePostMetrics_social_posts_frame, generateGarmentBindings_social_posts_frame, generateConversations_social_posts_frame, generateOrders_social_posts_frame, generateCustomerJourneys_social_posts_frame, generateDailyAggregates_social_posts_frame, generateCustomerProfiles_social_posts_frame, generateDemandForecasts_social_posts_frame, generateWorkspaces_conversations_frame, generateProducts_conversations_frame, generateProductVariants_conversations_frame, generateInventoryHistory_conversations_frame, generateSocialPosts_conversations_frame, generatePostMetrics_conversations_frame, generateGarmentBindings_conversations_frame, generateOrders_conversations_frame, generateCustomerJourneys_conversations_frame, generateDailyAggregates_conversations_frame, generateCustomerProfiles_conversations_frame, generateDemandForecasts_conversations_frame, generateWorkspaces_orders_frame, generateProducts_orders_frame, generateProductVariants_orders_frame, generateInventoryHistory_orders_frame, generateSocialPosts_orders_frame, generatePostMetrics_orders_frame, generateGarmentBindings_orders_frame, generateConversations_orders_frame, generateCustomerJourneys_orders_frame, generateDailyAggregates_orders_frame, generateCustomerProfiles_orders_frame, generateDemandForecasts_orders_frame, generateWorkspaces_demand_forecasts_frame, generateProducts_demand_forecasts_frame, generateProductVariants_demand_forecasts_frame, generateInventoryHistory_demand_forecasts_frame, generateSocialPosts_demand_forecasts_frame, generatePostMetrics_demand_forecasts_frame, generateGarmentBindings_demand_forecasts_frame, generateConversations_demand_forecasts_frame, generateOrders_demand_forecasts_frame, generateCustomerJourneys_demand_forecasts_frame, generateDailyAggregates_demand_forecasts_frame, generateCustomerProfiles_demand_forecasts_frame, generateWorkspaces_workspaces_eq, generateWorkspaces_accounts_eq, generateProducts_products_eq, generateProductVariants_variants_eq, generateSocialPosts_posts_eq, generateConversations_conversations_eq, generateOrders_orders_eq, generateDemandForecasts_forecasts_eq, workspacesLoop_ws_len, workspacesLoop_acc_len, productsOuter_len, variantsOuter_len, postsOuter_len, conversationsOuter_len, ordersOuter_len, forecastProducts_len, List.length_append, List.length_nil, List.nil_append, List.length_take, List.length_cons, initState, horizons]

theorem generate_posts_len (env : Env) (scale : Scale) (g : Rng) :
    (generate env scale g).social_posts.length = scale.workspaces * scale.postsPerWorkspace := by
  simp only [generate, generateProducts_workspaces_frame, generateProductVariants_workspaces_frame, generateInventoryHistory_workspaces_frame, generateSocialPosts_workspaces_frame, generatePostMetrics_workspaces_frame, generateGarmentBindings_workspaces_frame, generateConversations_workspaces_frame, generateOrders_workspaces_frame, generateCustomerJourneys_workspaces_frame, generateDailyAggregates_workspaces_frame, generateCustomerProfiles_workspaces_frame, generateDemandForecasts_workspaces_frame, generateProducts_accounts_frame, generateProductVariants_accounts_frame, generateInventoryHistory_accounts_frame, generateSocialPosts_accounts_frame, generatePostMetrics_accounts_frame, generateGarmentBindings_accounts_frame, generateConversations_accounts_frame, generateOrders_accounts_frame, generateCustomerJourneys_accounts_frame, generateDailyAggregates_accounts_frame, generateCustomerProfiles_accounts_frame, generateDemandForecasts_accounts_frame, generateWorkspaces_products_frame, generateProductVariants_products_frame, generateInventoryHistory_products_frame, generateSocialPosts_products_frame, generatePostMetrics_products_frame, generateGarmentBindings_products_frame, generateConversations_products_frame, generateOrders_products_frame, generateCustomerJourneys_products_frame, generateDailyAggregates_products_frame, generateCustomerProfiles_products_frame, generateDemandForecasts_products_frame, generateWorkspaces_product_variants_frame, generateProducts_product_variants_frame, generateInventoryHistory_product_variants_frame, generateSocialPosts_product_variants_frame, generatePostMetrics_product_variants_frame, generateGarmentBindings_product_variants_frame, generateConversations_product_variants_frame, generateOrders_product_variants_frame, generateCustomerJourneys_product_variants_frame, generateDailyAggregates_product_variants_frame, generateCustomerProfiles_product_variants_frame, generateDemandForecasts_product_variants_frame, generateWorkspaces_social_posts_frame, generateProducts_social_posts_frame, generateProductVariants_social_posts_frame, generateInventoryHistory_social_posts_frame, generatePostMetrics_social_posts_frame, generateGarmentBindings_social_posts_frame, generateConversations_social_posts_frame, generateOrders_social_posts_frame, generateCustomerJourneys_social_posts_frame, generateDailyAggregates_social_posts_frame, generateCustomerProfiles_social_posts_frame, generateDemandForecasts_social_posts_frame, generateWorkspaces_conversations_frame, generateProducts_conversations_frame, generateProductVariants_conversations_frame, generateInventoryHistory_conversations_frame, generateSocialPosts_conversations_frame, generatePostMetrics_conversations_frame, generateGarmentBindings_conversations_frame, generateOrders_conversations_frame, generateCustomerJourneys_conversations_frame, generateDailyAggregates_conversations_frame, generateCustomerProfiles_conversations_frame, generateDemandForecasts_conversations_frame, generateWorkspaces_orders_frame, generateProducts_orders_frame, generateProductVariants_orders_frame, generateInventoryHistory_orders_frame, generateSocialPosts_orders_frame, generatePostMetrics_orders_frame, generateGarmentBindings_orders_frame, generateConversations_orders_frame, generateCustomerJourneys_orders_frame, generateDailyAggregates_orders_frame, generateCustomerProfiles_orders_frame, generateDemandForecasts_orders_frame, generateWorkspaces_demand_forecasts_frame, generateProducts_demand_forecasts_frame, generateProductVariants_demand_forecasts_frame, generateInventoryHistory_demand_forecasts_frame, generateSocialPosts_demand_forecasts_frame, generatePostMetrics_demand_forecasts_frame, generateGarmentBindings_demand_forecasts_frame, generateConversations_demand_forecasts_frame, generateOrders_demand_forecasts_frame, generateCustomerJourneys_demand_forecasts_frame, generateDailyAggregates_demand_forecasts_frame, generateCustomerProfiles_demand_forecasts_frame, generateWorkspaces_workspaces_eq, generateWorkspaces_accounts_eq, generateProducts_products_eq, generateProductVariants_variants_eq, generateSocialPosts_posts_eq, generateConversations_conversations_eq, generateOrders_orders_eq, generateDemandForecasts_forecasts_eq, workspacesLoop_ws_len, workspacesLoop_acc_len, productsOuter_len, variantsOuter_len, postsOuter_len, conversationsOuter_len, ordersOuter_len, forecastProducts_len, List.length_append, List.length_nil, List.nil_append, List.length_take, List.length_cons, initState, horizons]

theorem generate_conversations_len (env : Env) (scale : Scale) (g : Rng) :
    (generate env scale g).conversations.length = scale.workspaces * scale.conversationsPerWorkspace := by
  simp only [generate, generateProducts_workspaces_frame, generateProductVariants_workspaces_frame, generateInventoryHistory_workspaces_frame, generateSocialPosts_workspaces_frame, generatePostMetrics_workspaces_frame, generateGarmentBindings_workspaces_frame, generateConversations_workspaces_frame, generateOrders_workspaces_frame, generateCustomerJourneys_workspaces_frame, generateDailyAggregates_workspaces_frame, generateCustomerProfiles_workspaces_frame, generateDemandForecasts_workspaces_frame, generateProducts_accounts_frame, generateProductVariants_accounts_frame, generateInventoryHistory_accounts_frame, generateSocialPosts_accounts_frame, generatePostMetrics_accounts_frame, generateGarmentBindings_accounts_frame, generateConversations_accounts_frame, generateOrders_accounts_frame, generateCustomerJourneys_accounts_frame, generateDailyAggregates_accounts_frame, generateCustomerProfiles_accounts_frame, generateDemandForecasts_accounts_frame, generateWorkspaces_products_frame, generateProductVariants_products_frame, generateInventoryHistory_products_frame, generateSocialPosts_products_frame, generatePostMetrics_products_frame, generateGarmentBindings_products_frame, generateConversations_products_frame, generateOrders_products_frame, generateCustomerJourneys_products_frame, generateDailyAggregates_products_frame, generateCustomerProfiles_products_frame, generateDemandForecasts_products_frame, generateWorkspaces_product_variants_frame, generateProducts_product_variants_frame, generateInventoryHistory_product_variants_frame, generateSocialPosts_product_variants_frame, generatePostMetrics_product_variants_frame, generateGarmentBindings_product_variants_frame, generateConversations_product_variants_frame, generateOrders_product_variants_frame, generateCustomerJourneys_product_variants_frame, generateDailyAggregates_product_variants_frame, generateCustomerProfiles_product_variants_frame, generateDemandForecasts_product_variants_frame, generateWorkspaces_social_posts_frame, generateProducts_social_posts_frame, generateProductVariants_social_posts_frame, generateInventoryHistory_social_posts_frame, generatePostMetrics_social_posts_frame, generateGarmentBindings_social_posts_frame, generateConversations_social_posts_frame, generateOrders_social_posts_frame, generateCustomerJourneys_social_posts_frame, generateDailyAggregates_social_posts_frame, generateCustomerProfiles_social_posts_frame, generateDemandForecasts_social_posts_frame, generateWorkspaces_conversations_frame, generateProducts_conversations_frame, generateProductVariants_conversations_frame, generateInventoryHistory_conversations_frame, generateSocialPosts_conversations_frame, generatePostMetrics_conversations_frame, generateGarmentBindings_conversations_frame, generateOrders_conversations_frame, generateCustomerJourneys_conversations_frame, generateDailyAggregates_conversations_frame, generateCustomerProfiles_conversations_frame, generateDemandForecasts_conversations_frame, generateWorkspaces_orders_frame, generateProducts_orders_frame, generateProductVariants_orders_frame, generateInventoryHistory_orders_frame, generateSocialPosts_orders_frame, generatePostMetrics_orders_frame, generateGarmentBindings_orders_frame, generateConversations_orders_frame, generateCustomerJourneys_orders_frame, generateDailyAggregates_orders_frame, generateCustomerProfiles_orders_frame, generateDemandForecasts_orders_frame, generateWorkspaces_demand_forecasts_frame, generateProducts_demand_forecasts_frame, generateProductVariants_demand_forecasts_frame, generateInventoryHistory_demand_forecasts_frame, generateSocialPosts_demand_forecasts_frame, generatePostMetrics_demand_forecasts_frame, generateGarmentBindings_demand_forecasts_frame, generateConversations_demand_forecasts_frame, generateOrders_demand_forecasts_frame, generateCustomerJourneys_demand_forecasts_frame, generateDailyAggregates_demand_forecasts_frame, generateCustomerProfiles_demand_forecasts_frame, generateWorkspaces_workspaces_eq, generateWorkspaces_accounts_eq, generateProducts_products_eq, generateProductVariants_variants_eq, generateSocialPosts_posts_eq, generateConversations_conversations_eq, generateOrders_orders_eq, generateDemandForecasts_forecasts_eq, workspacesLoop_ws_len, workspacesLoop_acc_len, productsOuter_len, variantsOuter_len, postsOuter_len, conversationsOuter_len, ordersOuter_len, forecastProducts_len, List.length_append, List.length_nil, List.nil_append, List.length_take, List.length_cons, initState, horizons]

theorem generate_orders_len (env : Env) (scale : Scale) (g : Rng) :
    (generate env scale g).orders.length = scale.workspaces * scale.ordersPerWorkspace := by
  simp only [generate, generateProducts_workspaces_frame, generateProductVariants_workspaces_frame, generateInventoryHistory_workspaces_frame, generateSocialPosts_workspaces_frame, generatePostMetrics_workspaces_frame, generateGarmentBindings_workspaces_frame, generateConversations_workspaces_frame, generateOrders_workspaces_frame, generateCustomerJourneys_workspaces_frame, generateDailyAggregates_workspaces_frame, generateCustomerProfiles_workspaces_frame, generateDemandForecasts_workspaces_frame, generateProducts_accounts_frame, generateProductVariants_accounts_frame, generateInventoryHistory_accounts_frame, generateSocialPosts_accounts_frame, generatePostMetrics_accounts_frame, generateGarmentBindings_accounts_frame, generateConversations_accounts_frame, generateOrders_accounts_frame, generateCustomerJourneys_accounts_frame, generateDailyAggregates_accounts_frame, generateCustomerProfiles_accounts_frame, generateDemandForecasts_accounts_frame, generateWorkspaces_products_frame, generateProductVariants_products_frame, generateInventoryHistory_products_frame, generateSocialPosts_products_frame, generatePostMetrics_products_frame, generateGarmentBindings_products_frame, generateConversations_products_frame, generateOrders_products_frame, generateCustomerJourneys_products_frame, generateDailyAggregates_products_frame, generateCustomerProfiles_products_frame, generateDemandForecasts_products_frame, generateWorkspaces_product_variants_frame, generateProducts_product_variants_frame, generateInventoryHistory_product_variants_frame, generateSocialPosts_product_variants_frame, generatePostMetrics_product_variants_frame, generateGarmentBindings_product_variants_frame, generateConversations_product_variants_frame, generateOrders_product_variants_frame, generateCustomerJourneys_product_variants_frame, generateDailyAggregates_product_variants_frame, generateCustomerProfiles_product_variants_frame, generateDemandForecasts_product_variants_frame, generateWorkspaces_social_posts_frame, generateProducts_social_posts_frame, generateProductVariants_social_posts_frame, generateInventoryHistory_social_posts_frame, generatePostMetrics_social_posts_frame, generateGarmentBindings_social_posts_frame, generateConversations_social_posts_frame, generateOrders_social_posts_frame, generateCustomerJourneys_social_posts_frame, generateDailyAggregates_social_posts_frame, generateCustomerProfiles_social_posts_frame, generateDemandForecasts_social_posts_frame, generateWorkspaces_conversations_frame, generateProducts_conversations_frame, generateProductVariants_conversations_frame, generateInventoryHistory_conversations_frame, generateSocialPosts_conversations_frame, generatePostMetrics_conversations_frame, generateGarmentBindings_conversations_frame, generateOrders_conversations_frame, generateCustomerJourneys_conversations_frame, generateDailyAggregates_conversations_frame, generateCustomerProfiles_conversations_frame, generateDemandForecasts_conversations_frame, generateWorkspaces_orders_frame, generateProducts_orders_frame, generateProductVariants_orders_frame, generateInventoryHistory_orders_frame, generateSocialPosts_orders_frame, generatePostMetrics_orders_frame, generateGarmentBindings_orders_frame, generateConversations_orders_frame, generateCustomerJourneys_orders_frame, generateDailyAggregates_orders_frame, generateCustomerProfiles_orders_frame, generateDemandForecasts_orders_frame, generateWorkspaces_demand_forecasts_frame, generateProducts_demand_forecasts_frame, generateProductVariants_demand_forecasts_frame, generateInventoryHistory_demand_forecasts_frame, generateSocialPosts_demand_forecasts_frame, generatePostMetrics_demand_forecasts_frame, generateGarmentBindings_demand_forecasts_frame, generateConversations_demand_forecasts_frame, generateOrders_demand_forecasts_frame, generateCustomerJourneys_demand_forecasts_frame, generateDailyAggregates_demand_forecasts_frame, generateCustomerProfiles_demand_forecasts_frame, generateWorkspaces_workspaces_eq, generateWorkspaces_accounts_eq, generateProducts_products_eq, generateProductVariants_variants_eq, generateSocialPosts_posts_eq, generateConversations_conversations_eq, generateOrders_orders_eq, generateDemandForecasts_forecasts_eq, workspacesLoop_ws_len, workspacesLoop_acc_len, productsOuter_len, variantsOuter_len, postsOuter_len, conversationsOuter_len, ordersOuter_len, forecastProducts_len, List.length_append, List.length_nil, List.nil_append, List.length_take, List.length_cons, initState, horizons]

theorem generate_forecasts_len (env : Env) (scale : Scale) (g : Rng) :
    (generate env scale g).demand_forecasts.length = min 50 (scale.workspaces * scale.productsPerWorkspace) * 3 := by
  simp only [generate, generateProducts_workspaces_frame, generateProductVariants_workspaces_frame, generateInventoryHistory_workspaces_frame, generateSocialPosts_workspaces_frame, generatePostMetrics_workspaces_frame, generateGarmentBindings_workspaces_frame, generateConversations_workspaces_frame, generateOrders_workspaces_frame, generateCustomerJourneys_workspaces_frame, generateDailyAggregates_workspaces_frame, generateCustomerProfiles_workspaces_frame, generateDemandForecasts_workspaces_frame, generateProducts_accounts_frame, generateProductVariants_accounts_frame, generateInventoryHistory_accounts_frame, generateSocialPosts_accounts_frame, generatePostMetrics_accounts_frame, generateGarmentBindings_accounts_frame, generateConversations_accounts_frame, generateOrders_accounts_frame, generateCustomerJourneys_accounts_frame, generateDailyAggregates_accounts_frame, generateCustomerProfiles_accounts_frame, generateDemandForecasts_accounts_frame, generateWorkspaces_products_frame, generateProductVariants_products_frame, generateInventoryHistory_products_frame, generateSocialPosts_products_frame, generatePostMetrics_products_frame, generateGarmentBindings_products_frame, generateConversations_products_frame, generateOrders_products_frame, generateCustomerJourneys_products_frame, generateDailyAggregates_products_frame, generateCustomerProfiles_products_frame, generateDemandForecasts_products_frame, generateWorkspaces_product_variants_frame, generateProducts_product_variants_frame, generateInventoryHistory_product_variants_frame, generateSocialPosts_product_variants_frame, generatePostMetrics_product_variants_frame, generateGarmentBindings_product_variants_frame, generateConversations_product_variants_frame, generateOrders_product_variants_frame, generateCustomerJourneys_product_variants_frame, generateDailyAggregates_product_variants_frame, generateCustomerProfiles_product_variants_frame, generateDemandForecasts_product_variants_frame, generateWorkspaces_social_posts_frame, generateProducts_social_posts_frame, generateProductVariants_social_posts_frame, generateInventoryHistory_social_posts_frame, generatePostMetrics_social_posts_frame, generateGarmentBindings_social_posts_frame, generateConversations_social_posts_frame, generateOrders_social_posts_frame, generateCustomerJourneys_social_posts_frame, generateDailyAggregates_social_posts_frame, generateCustomerProfiles_social_posts_frame, generateDemandForecasts_social_posts_frame, generateWorkspaces_conversations_frame, generateProducts_conversations_frame, generateProductVariants_conversations_frame, generateInventoryHistory_conversations_frame, generateSocialPosts_conversations_frame, generatePostMetrics_conversations_frame, generateGarmentBindings_conversations_frame, generateOrders_conversations_frame, generateCustomerJourneys_conversations_frame, generateDailyAggregates_conversations_frame, generateCustomerProfiles_conversations_frame, generateDemandForecasts_conversations_frame, generateWorkspaces_orders_frame, generateProducts_orders_frame, generateProductVariants_orders_frame, generateInventoryHistory_orders_frame, generateSocialPosts_orders_frame, generatePostMetrics_orders_frame, generateGarmentBindings_orders_frame, generateConversations_orders_frame, generateCustomerJourneys_orders_frame, generateDailyAggregates_orders_frame, generateCustomerProfiles_orders_frame, generateDemandForecasts_orders_frame, generateWorkspaces_demand_forecasts_frame, generateProducts_demand_forecasts_frame, generateProductVariants_demand_forecasts_frame, generateInventoryHistory_demand_forecasts_frame, generateSocialPosts_demand_forecasts_frame, generatePostMetrics_demand_forecasts_frame, generateGarmentBindings_demand_forecasts_frame, generateConversations_demand_forecasts_frame, generateOrders_demand_forecasts_frame, generateCustomerJourneys_demand_forecasts_frame, generateDailyAggregates_demand_forecasts_frame, generateCustomerProfiles_demand_forecasts_frame, generateWorkspaces_workspaces_eq, generateWorkspaces_accounts_eq, generateProducts_products_eq, generateProductVariants_variants_eq, generateSocialPosts_posts_eq, generateConversations_conversations_eq, generateOrders_orders_eq, generateDemandForecasts_forecasts_eq, workspacesLoop_ws_len, workspacesLoop_acc_len, productsOuter_len, variantsOuter_len, postsOuter_len, conversationsOuter_len, ordersOuter_len, forecastProducts_len, List.length_append, List.length_nil, List.nil_append, List.length_take, List.length_cons, initState, horizons]

/-- C4 (corrected): the cardinality hyperproperty holds for eight of the
fourteen collections, not all of them.  For any fixed scale profile, two
runs of generate over arbitrary random streams produce the same number of
workspaces, accounts, products, product_variants, social_posts,
conversations, orders and demand_forecasts; the remaining collections
(inventory_history, post_metrics, garment_bindings, customer_journeys,
daily_aggregates, customer_profiles) have randomized cardinality, refuted
by the separate counterexample. -/
theorem C4_deterministic_counts (env1 env2 : Env) (scale : Scale) (g1 g2 : Rng) :
    (generate env1 scale g1).workspaces.length = (generate env2 scale g2).workspaces.length ∧
    (generate env1 scale g1).accounts.length = (generate env2 scale g2).accounts.length ∧
    (generate env1 scale g1).products.length = (generate env2 scale g2).products.length ∧
    (generate env1 scale g1).product_variants.length =
      (generate env2 scale g2).product_variants.length ∧
    (generate env1 scale g1).social_posts.length =
      (generate env2 scale g2).social_posts.length ∧
    (generate env1 scale g1).conversations.length =
      (generate env2 scale g2).conversations.length ∧
    (generate env1 scale g1).orders.length = (generate env2 scale g2).orders.length ∧
    (generate env1 scale g1).demand_forecasts.length =
      (generate env2 scale g2).demand_forecasts.length := by
  refine ⟨?_, ?_, ?_, ?_, ?_, ?_, ?_, ?_⟩ <;>
    simp only [generate_workspaces_len, generate_accounts_len, generate_products_len,
      generate_variants_len, generate_posts_len, generate_conversations_len,
      generate_orders_len, generate_forecasts_len]

/-- Counterexample to C4 as stated: with the same scale profile, two runs
of generate over two valid random streams produce different numbers of
post_metrics records (the day loop of generatePostMetrics runs over a
randomized post age), so not every collection has deterministic
cardinality. -/
theorem C4_cardinality_counterexample :
    (generate oracleEnv probeScale (constRng (99/100))).post_metrics.length ≠
    (generate oracleEnv probeScale (constRng (9/10))).post_metrics.length := by
  decide

theorem countP_id_eq_one {α : Type} (f : α → ℕ) {l : List α} {k : ℕ}
    (hnd : (l.map f).Nodup) (hmem : k ∈ l.map f) :
    l.countP (fun x => f x == k) = 1 := by
  induction l with
  | nil => simp at hmem
  | cons x t ih =>
      rw [List.map_cons, List.nodup_cons] at hnd
      rw [List.map_cons, List.mem_cons] at hmem
      rw [List.countP_cons]
      rcases hmem with hk | hk
      · have hz : t.countP (fun y => f y == k) = 0 := by
          rw [List.countP_eq_zero]
          intro y hy
          simp only [beq_iff_eq]
          intro hc
          have hm := List.mem_map_of_mem f hy
          rw [hc, hk] at hm
          exact hnd.1 hm
        rw [hz]
        simp [hk]
      · have h0 : (f x == k) = false := by
          simp only [beq_eq_false_iff_ne, ne_eq]
          intro hc
          apply hnd.1
          rw [hc]
          exact hk
        rw [ih hnd.2 hk, h0]
        simp

theorem nodup_map_append {α : Type} (f : α → ℕ) {l1 l2 : List α} {N : ℕ}
    (h1 : ∀ x ∈ l1, f x < N) (h2 : ∀ x ∈ l2, N ≤ f x)
    (n1 : (l1.map f).Nodup) (n2 : (l2.map f).Nodup) :
    ((l1 ++ l2).map f).Nodup := by
  rw [List.map_append]
  refine List.Nodup.append n1 n2 ?_
  intro a ha1 ha2
  obtain ⟨x, hx, hfx⟩ := List.mem_map.mp ha1
  obtain ⟨y, hy, hfy⟩ := List.mem_map.mp ha2
  have hb1 := h1 x hx
  have hb2 := h2 y hy
  omega

theorem workspacesLoop_ws_id_lb (env : Env) :
    ∀ n g nid fk, ∀ w ∈ (workspacesLoop env n g nid fk).workspaces, nid ≤ w.id := by
  intro n
  induction n with
  | zero => intro g nid fk w hw; simp [workspacesLoop] at hw
  | succ n ih =>
      intro g nid fk w hw
      rw [workspacesLoop] at hw
      dsimp only at hw
      rw [List.mem_cons] at hw
      rcases hw with hw | hw
      · subst hw; exact le_refl nid
      · have := ih _ _ _ w hw
        omega

theorem workspacesLoop_ws_nodup (env : Env) :
    ∀ n g nid fk, ((workspacesLoop env n g nid fk).workspaces.map (fun w => w.id)).Nodup := by
  intro n
  induction n with
  | zero => intro g nid fk; simp [workspacesLoop]
  | succ n ih =>
      intro g nid fk
      rw [workspacesLoop]
      dsimp only
      rw [List.map_cons, List.nodup_cons]
      refine ⟨?_, ih _ _ _⟩
      intro hc
      obtain ⟨w, hw, hid⟩ := List.mem_map.mp hc
      have := workspacesLoop_ws_id_lb env n _ _ _ w hw
      dsimp only at hid
      omega

theorem productsInner_nid_mono (env : Env) (scale : Scale) (workspace : Workspace)
    (account : Account) :
    ∀ n g nid fk, nid ≤ (productsInner env scale workspace account n g nid fk).nid := by
  intro n
  induction n with
  | zero => intro g nid fk; exact le_refl nid
  | succ n ih =>
      intro g nid fk
      rw [productsInner]
      dsimp only
      exact le_trans (Nat.le_succ nid) (ih _ _ _)

theorem productsInner_id_bounds (env : Env) (scale : Scale) (workspace : Workspace)
    (account : Account) :
    ∀ n g nid fk, ∀ p ∈ (productsInner env scale workspace account n g nid fk).products,
      nid ≤ p.id ∧ p.id < (productsInner env scale workspace account n g nid fk).nid := by
  intro n
  induction n with
  | zero => intro g nid fk p hp; simp [productsInner] at hp
  | succ n ih =>
      intro g nid fk p hp
      rw [productsInner] at hp ⊢
      dsimp only at hp ⊢
      rw [List.mem_cons] at hp
      rcases hp with hp | hp
      · subst hp
        exact ⟨le_refl _, lt_of_lt_of_le (Nat.lt_succ_self nid)
          (productsInner_nid_mono env scale workspace account n _ _ _)⟩
      · have h1 := ih _ _ _ p hp
        exact ⟨by omega, h1.2⟩

theorem productsInner_nodup (env : Env) (scale : Scale) (workspace : Workspace)
    (account : Account) :
    ∀ n g nid fk,
      ((productsInner env scale workspace account n g nid fk).products.map
        (fun p => p.id)).Nodup := by
  intro n
  induction n with
  | zero => intro g nid fk; simp [productsInner]
  | succ n ih =>
      intro g nid fk
      rw [productsInner]
      dsimp only
      rw [List.map_cons, List.nodup_cons]
      refine ⟨?_, ih _ _ _⟩
      intro hc
      obtain ⟨p, hp, hid⟩ := List.mem_map.mp hc
      have := (productsInner_id_bounds env scale workspace account n _ (nid + 1) _ p hp).1
      dsimp only at hid
      omega

theorem productsInner_wsid (env : Env) (scale : Scale) (workspace : Workspace)
    (account : Account) :
    ∀ n g nid fk, ∀ p ∈ (productsInner env scale workspace account n g nid fk).products,
      p.workspace_id = workspace.id := by
  intro n
  induction n with
  | zero => intro g nid fk p hp; simp [productsInner] at hp
  | succ n ih =>
      intro g nid fk p hp
      rw [productsInner] at hp
      dsimp only at hp
      rw [List.mem_cons] at hp
      rcases hp with hp | hp
      · subst hp; rfl
      · exact ih _ _ _ p hp

theorem productsOuter_nid_mono (env : Env) (scale : Scale) (accounts : List Account) :
    ∀ ws g nid fk, nid ≤ (productsOuter env scale accounts ws g nid fk).nid := by
  intro ws
  induction ws with
  | nil => intro g nid fk; exact le_refl nid
  | cons w rest ih =>
      intro g nid fk
      rw [productsOuter]
      dsimp only
      exact le_trans (productsInner_nid_mono env scale _ _ _ _ _ _) (ih _ _ _)

theorem productsOuter_id_bounds (env : Env) (scale : Scale) (accounts : List Account) :
    ∀ ws g nid fk, ∀ p ∈ (productsOuter env scale accounts ws g nid fk).products,
      nid ≤ p.id ∧ p.id < (productsOuter env scale accounts ws g nid fk).nid := by
  intro ws
  induction ws with
  | nil => intro g nid fk p hp; simp [productsOuter] at hp
  | cons w rest ih =>
      intro g nid fk p hp
      rw [productsOuter] at hp ⊢
      dsimp only at hp ⊢
      rw [List.mem_append] at hp
      have hmono := productsOuter_nid_mono env scale accounts rest
        (productsInner env scale w ((accounts.find? (fun a => a.workspace_id = w.id)).getD
          Account.dflt) scale.productsPerWorkspace g nid fk).rng
        (productsInner env scale w ((accounts.find? (fun a => a.workspace_id = w.id)).getD
          Account.dflt) scale.productsPerWorkspace g nid fk).nid
        (productsInner env scale w ((accounts.find? (fun a => a.workspace_id = w.id)).getD
          Account.dflt) scale.productsPerWorkspace g nid fk).fk
      have h1 := productsInner_nid_mono env scale w
        ((accounts.find? (fun a => a.workspace_id = w.id)).getD Account.dflt)
        scale.productsPerWorkspace g nid fk
      rcases hp with hp | hp
      · have h2 := productsInner_id_bounds env scale w
          ((accounts.find? (fun a => a.workspace_id = w.id)).getD Account.dflt)
          scale.productsPerWorkspace g nid fk p hp
        omega
      · have h2 := ih _ _ _ p hp
        omega

theorem productsOuter_nodup (env : Env) (scale : Scale) (accounts : List Account) :
    ∀ ws g nid fk,
      ((productsOuter env scale accounts ws g nid fk).products.map (fun p => p.id)).Nodup := by
  intro ws
  induction ws with
  | nil => intro g nid fk; simp [productsOuter]
  | cons w rest ih =>
      intro g nid fk
      rw [productsOuter]
      dsimp only
      apply nodup_map_append (fun p : Product => p.id)
      · intro x hx
        exact (productsInner_id_bounds env scale w _ scale.productsPerWorkspace g nid fk x hx).2
      · intro x hx
        exact (productsOuter_id_bounds env scale accounts rest _ _ _ x hx).1
      · exact productsInner_nodup env scale w _ scale.productsPerWorkspace g nid fk
      · exact ih _ _ _

theorem productsOuter_wsid (env : Env) (scale : Scale) (accounts : List Account) :
    ∀ ws g nid fk, ∀ p ∈ (productsOuter env scale accounts ws g nid fk).products,
      ∃ w ∈ ws, p.workspace_id = w.id := by
  intro ws
  induction ws with
  | nil => intro g nid fk p hp; simp [productsOuter] at hp
  | cons w rest ih =>
      intro g nid fk p hp
      rw [productsOuter] at hp
      dsimp only at hp
      rw [List.mem_append] at hp
      rcases hp with hp | hp
      · exact ⟨w, List.mem_cons_self w rest,
          productsInner_wsid env scale w _ scale.productsPerWorkspace g nid fk p hp⟩
      · obtain ⟨w2, hw2, he⟩ := ih _ _ _ p hp
        exact ⟨w2, List.mem_cons_of_mem w hw2, he⟩

theorem postsInner_nid_mono (env : Env) (scale : Scale) (workspace : Workspace)
    (account : Account) (products : List Product) :
    ∀ n g nid fk, nid ≤ (postsInner env scale workspace account products n g nid fk).nid := by
  intro n
  induction n with
  | zero => intro g nid fk; exact le_refl nid
  | succ n ih =>
      intro g nid fk
      rw [postsInner]
      dsimp only
      exact le_trans (Nat.le_succ nid) (ih _ _ _)

theorem postsInner_id_bounds (env : Env) (scale : Scale) (workspace : Workspace)
    (account : Account) (products : List Product) :
    ∀ n g nid fk, ∀ p ∈ (postsInner env scale workspace account products n g nid fk).posts,
      nid ≤ p.id ∧ p.id < (postsInner env scale workspace account products n g nid fk).nid := by
  intro n
  induction n with
  | zero => intro g nid fk p hp; simp [postsInner] at hp
  | succ n ih =>
      intro g nid fk p hp
      rw [postsInner] at hp ⊢
      dsimp only at hp ⊢
      rw [List.mem_cons] at hp
      rcases hp with hp | hp
      · subst hp
        exact ⟨le_refl _, lt_of_lt_of_le (Nat.lt_succ_self nid)
          (postsInner_nid_mono env scale workspace account products n _ _ _)⟩
      · have h1 := ih _ _ _ p hp
        exact ⟨by omega, h1.2⟩

theorem postsInner_nodup (env : Env) (scale : Scale) (workspace : Workspace)
    (account : Account) (products : List Product) :
    ∀ n g nid fk,
      ((postsInner env scale workspace account products n g nid fk).posts.map
        (fun p => p.id)).Nodup := by
  intro n
  induction n with
  | zero => intro g nid fk; simp [postsInner]
  | succ n ih =>
      intro g nid fk
      rw [postsInner]
      dsimp only
      rw [List.map_cons, List.nodup_cons]
      refine ⟨?_, ih _ _ _⟩
      intro hc
      obtain ⟨p, hp, hid⟩ := List.mem_map.mp hc
      have := (postsInner_id_bounds env scale workspace account products n _ (nid + 1) _ p hp).1
      dsimp only at hid
      omega

theorem postsInner_wsid (env : Env) (scale : Scale) (workspace : Workspace)
    (account : Account) (products : List Product) :
    ∀ n g nid fk, ∀ p ∈ (postsInner env scale workspace account products n g nid fk).posts,
      p.workspace_id = workspace.id := by
  intro n
  induction n with
  | zero => intro g nid fk p hp; simp [postsInner] at hp
  | succ n ih =>
      intro g nid fk p hp
      rw [postsInner] at hp
      dsimp only at hp
      rw [List.mem_cons] at hp
      rcases hp with hp | hp
      · subst hp; rfl
      · exact ih _ _ _ p hp

theorem postsOuter_nid_mono (env : Env) (scale : Scale) (accounts : List Account)
    (wsProducts : List (ℕ × List Product)) :
    ∀ ws g nid fk, nid ≤ (postsOuter env scale accounts wsProducts ws g nid fk).nid := by
  intro ws
  induction ws with
  | nil => intro g nid fk; exact le_refl nid
  | cons w rest ih =>
      intro g nid fk
      rw [postsOuter]
      dsimp only
      exact le_trans (postsInner_nid_mono env scale _ _ _ _ _ _ _) (ih _ _ _)

theorem postsOuter_id_bounds (env : Env) (scale : Scale) (accounts : List Account)
    (wsProducts : List (ℕ × List Product)) :
    ∀ ws g nid fk, ∀ p ∈ (postsOuter env scale accounts wsProducts ws g nid fk).posts,
      nid ≤ p.id ∧ p.id < (postsOuter env scale accounts wsProducts ws g nid fk).nid := by
  intro ws
  induction ws with
  | nil => intro g nid fk p hp; simp [postsOuter] at hp
  | cons w rest ih =>
      intro g nid fk p hp
      rw [postsOuter] at hp ⊢
      dsimp only at hp ⊢
      rw [List.mem_append] at hp
      have hmono := postsOuter_nid_mono env scale accounts wsProducts rest
        (postsInner env scale w ((accounts.find? (fun a => a.workspace_id = w.id)).getD
          Account.dflt) ((mapGet wsProducts w.id).getD []) scale.postsPerWorkspace g nid fk).rng
        (postsInner env scale w ((accounts.find? (fun a => a.workspace_id = w.id)).getD
          Account.dflt) ((mapGet wsProducts w.id).getD []) scale.postsPerWorkspace g nid fk).nid
        (postsInner env scale w ((accounts.find? (fun a => a.workspace_id = w.id)).getD
          Account.dflt) ((mapGet wsProducts w.id).getD []) scale.postsPerWorkspace g nid fk).fk
      have h1 := postsInner_nid_mono env scale w
        ((accounts.find? (fun a => a.workspace_id = w.id)).getD Account.dflt)
        ((mapGet wsProducts w.id).getD []) scale.postsPerWorkspace g nid fk
      rcases hp with hp | hp
      · have h2 := postsInner_id_bounds env scale w
          ((accounts.find? (fun a => a.workspace_id = w.id)).getD Account.dflt)
          ((mapGet wsProducts w.id).getD []) scale.postsPerWorkspace g nid fk p hp
        omega
      · have h2 := ih _ _ _ p hp
        omega

theorem postsOuter_nodup (env : Env) (scale : Scale) (accounts : List Account)
    (wsProducts : List (ℕ × List Product)) :
    ∀ ws g nid fk,
      ((postsOuter env scale accounts wsProducts ws g nid fk).posts.map
        (fun p => p.id)).Nodup := by
  intro ws
  induction ws with
  | nil => intro g nid fk; simp [postsOuter]
  | cons w rest ih =>
      intro g nid fk
      rw [postsOuter]
      dsimp only
      apply nodup_map_append (fun p : SocialPost => p.id)
      · intro x hx
        exact (postsInner_id_bounds env scale w _ _ scale.postsPerWorkspace g nid fk x hx).2
      · intro x hx
        exact (postsOuter_id_bounds env scale accounts wsProducts rest _ _ _ x hx).1
      · exact postsInner_nodup env scale w _ _ scale.postsPerWorkspace g nid fk
      · exact ih _ _ _

theorem postsOuter_wsid (env : Env) (scale : Scale) (accounts : List Account)
    (wsProducts : List (ℕ × List Product)) :
    ∀ ws g nid fk, ∀ p ∈ (postsOuter env scale accounts wsProducts ws g nid fk).posts,
      ∃ w ∈ ws, p.workspace_id = w.id := by
  intro ws
  induction ws with
  | nil => intro g nid fk p hp; simp [postsOuter] at hp
  | cons w rest ih =>
      intro g nid fk p hp
      rw [postsOuter] at hp
      dsimp only at hp
      rw [List.mem_append] at hp
      rcases hp with hp | hp
      · exact ⟨w, List.mem_cons_self w rest,
          postsInner_wsid env scale w _ _ scale.postsPerWorkspace g nid fk p hp⟩
      · obtain ⟨w2, hw2, he⟩ := ih _ _ _ p hp
        exact ⟨w2, List.mem_cons_of_mem w hw2, he⟩

theorem variantsInner_pid (env : Env) (scale : Scale) (product : Product)
    (colors : List String) :
    ∀ n i g nid fk, ∀ v ∈ (variantsInner env scale product colors i n g nid fk).variants,
      v.product_id = product.id := by
  intro n
  induction n with
  | zero => intro i g nid fk v hv; simp [variantsInner] at hv
  | succ n ih =>
      intro i g nid fk v hv
      rw [variantsInner] at hv
      dsimp only at hv
      rw [List.mem_cons] at hv
      rcases hv with hv | hv
      · subst hv; rfl
      · exact ih _ _ _ _ v hv

theorem variantsOuter_pid (env : Env) (scale : Scale) :
    ∀ ps g nid fk, ∀ v ∈ (variantsOuter env scale ps g nid fk).variants,
      ∃ p ∈ ps, v.product_id = p.id := by
  intro ps
  induction ps with
  | nil => intro g nid fk v hv; simp [variantsOuter] at hv
  | cons p rest ih =>
      intro g nid fk v hv
      rw [variantsOuter] at hv
      dsimp only at hv
      rw [List.mem_append] at hv
      rcases hv with hv | hv
      · exact ⟨p, List.mem_cons_self p rest,
          variantsInner_pid env scale p _ scale.variantsPerProduct _ _ _ _ v hv⟩
      · obtain ⟨p2, hp2, he⟩ := ih _ _ _ v hv
        exact ⟨p2, List.mem_cons_of_mem p hp2, he⟩

theorem ordersInner_wsid (env : Env) (scale : Scale) (workspace : Workspace)
    (account : Account) (products : List Product) (conversations : List Conversation)
    (allBindings : List GarmentBinding) :
    ∀ n i g nid, ∀ o ∈ (ordersInner env scale workspace account products conversations
      allBindings i n g nid).orders, o.workspace_id = workspace.id := by
  intro n
  induction n with
  | zero => intro i g nid o ho; simp [ordersInner] at ho
  | succ n ih =>
      intro i g nid o ho
      rw [ordersInner] at ho
      dsimp only at ho
      rw [List.mem_cons] at ho
      rcases ho with ho | ho
      · subst ho; rfl
      · exact ih _ _ _ o ho

theorem ordersOuter_wsid (env : Env) (scale : Scale) (accounts : List Account)
    (wsProducts : List (ℕ × List Product)) (allConversations : List Conversation)
    (allBindings : List GarmentBinding) :
    ∀ ws g nid, ∀ o ∈ (ordersOuter env scale accounts wsProducts allConversations
      allBindings ws g nid).orders, ∃ w ∈ ws, o.workspace_id = w.id := by
  intro ws
  induction ws with
  | nil => intro g nid o ho; simp [ordersOuter] at ho
  | cons w rest ih =>
      intro g nid o ho
      rw [ordersOuter] at ho
      dsimp only at ho
      rw [List.mem_append] at ho
      rcases ho with ho | ho
      · exact ⟨w, List.mem_cons_self w rest,
          ordersInner_wsid env scale w _ _ _ allBindings scale.ordersPerWorkspace _ _ _ o ho⟩
      · obtain ⟨w2, hw2, he⟩ := ih _ _ o ho
        exact ⟨w2, List.mem_cons_of_mem w hw2, he⟩

theorem journeyEventsLoop_wsid (env : Env) (workspace : Workspace) (sessionId : ℕ)
    (customerId : String) (device : String) (country? : Option String)
    (post? : Option SocialPost) (product? : Option Product)
    (conversation? : Option Conversation) (seqLen : ℕ) :
    ∀ seq i t g nid fk, ∀ e ∈ (journeyEventsLoop env workspace sessionId customerId device
      country? post? product? conversation? seqLen seq i t g nid fk).1,
      e.workspace_id = workspace.id := by
  intro seq
  induction seq with
  | nil =>
      intro i t g nid fk e he
      simp [journeyEventsLoop] at he
  | cons et rest ih =>
      intro i t g nid fk e he
      rw [journeyEventsLoop] at he
      dsimp only at he
      rw [List.mem_cons] at he
      rcases he with he | he
      · subst he; rfl
      · exact ih _ _ _ _ _ e he

theorem journeyCustomerStep_wsid (env : Env) (scale : Scale) (workspace : Workspace)
    (posts : List SocialPost) (products : List Product)
    (conversations : List Conversation) (performanceMap : List (ℕ × Tier))
    (g : Rng) (nid fk : ℕ) :
    ∀ e ∈ (journeyCustomerStep env scale workspace posts products conversations
      performanceMap g nid fk).1, e.workspace_id = workspace.id := by
  rw [journeyCustomerStep]
  dsimp only
  exact journeyEventsLoop_wsid _ _ _ _ _ _ _ _ _ _ _ _ _ _ _ _

theorem journeyCustomerLoop_wsid (env : Env) (scale : Scale) (workspace : Workspace)
    (posts : List SocialPost) (products : List Product)
    (conversations : List Conversation) (performanceMap : List (ℕ × Tier)) :
    ∀ n g nid fk, ∀ e ∈ (journeyCustomerLoop env scale workspace posts products conversations
      performanceMap n g nid fk).journeys, e.workspace_id = workspace.id := by
  intro n
  induction n with
  | zero =>
      intro g nid fk e he
      rw [journeyCustomerLoop_zero] at he
      simp at he
  | succ n ih =>
      intro g nid fk e he
      rw [journeyCustomerLoop_succ] at he
      dsimp only at he
      rw [List.mem_append] at he
      rcases he with he | he
      · exact journeyCustomerStep_wsid env scale workspace posts products conversations
          performanceMap g nid fk e he
      · exact ih _ _ _ e he

theorem journeysOuter_wsid (env : Env) (scale : Scale)
    (wsPosts : List (ℕ × List SocialPost)) (wsProducts : List (ℕ × List Product))
    (conversations : List Conversation) :
    ∀ ws g nid fk, ∀ e ∈ (journeysOuter env scale wsPosts wsProducts conversations
      ws g nid fk).journeys, ∃ w ∈ ws, e.workspace_id = w.id := by
  intro ws
  induction ws with
  | nil => intro g nid fk e he; simp [journeysOuter] at he
  | cons w rest ih =>
      intro g nid fk e he
      rw [journeysOuter] at he
      dsimp only at he
      rw [List.mem_append] at he
      rcases he with he | he
      · exact ⟨w, List.mem_cons_self w rest,
          journeyCustomerLoop_wsid env scale w _ _ conversations _
            scale.customersPerWorkspace _ _ _ e he⟩
      · obtain ⟨w2, hw2, he2⟩ := ih _ _ _ e he
        exact ⟨w2, List.mem_cons_of_mem w hw2, he2⟩

theorem bindingsLoop_fk (env : Env) (products : List Product)
    (post_metrics : List PostMetric) :
    ∀ posts g nid, ∀ b ∈ (bindingsLoop env products post_metrics posts g nid).bindings,
      (∃ post ∈ posts, b.post_id = post.id) ∧ (∃ p ∈ products, b.product_id = p.id) := by
  intro posts
  induction posts with
  | nil => intro g nid b hb; simp [bindingsLoop] at hb
  | cons post rest ih =>
      intro g nid b hb
      rw [bindingsLoop] at hb
      dsimp only at hb
      split at hb
      · obtain ⟨⟨post2, hp2, he⟩, hprod⟩ := ih _ _ b hb
        exact ⟨⟨post2, List.mem_cons_of_mem post hp2, he⟩, hprod⟩
      · rename_i pid hpid
        split at hb
        · obtain ⟨⟨post2, hp2, he⟩, hprod⟩ := ih _ _ b hb
          exact ⟨⟨post2, List.mem_cons_of_mem post hp2, he⟩, hprod⟩
        · rename_i product hfind
          dsimp only at hb
          rw [List.mem_cons] at hb
          rcases hb with hb | hb
          · subst hb
            refine ⟨⟨post, List.mem_cons_self post rest, rfl⟩,
              ⟨product, List.mem_of_find?_eq_some hfind, rfl⟩⟩
          · obtain ⟨⟨post2, hp2, he⟩, hprod⟩ := ih _ _ b hb
            exact ⟨⟨post2, List.mem_cons_of_mem post hp2, he⟩, hprod⟩

theorem generateWorkspaces_garment_bindings_frame (env : Env) (scale : Scale) (s : GenState) :
    (generateWorkspaces env scale s).garment_bindings = s.garment_bindings := rfl

theorem generateProducts_garment_bindings_frame (env : Env) (scale : Scale) (s : GenState) :
    (generateProducts env scale s).garment_bindings = s.garment_bindings := rfl

theorem generateProductVariants_garment_bindings_frame (env : Env) (scale : Scale) (s : GenState) :
    (generateProductVariants env scale s).garment_bindings = s.garment_bindings := rfl

theorem generateInventoryHistory_garment_bindings_frame (env : Env) (scale : Scale) (s : GenState) :
    (generateInventoryHistory env scale s).garment_bindings = s.garment_bindings := rfl

theorem generateSocialPosts_garment_bindings_frame (env : Env) (scale : Scale) (s : GenState) :
    (generateSocialPosts env scale s).garment_bindings = s.garment_bindings := rfl

theorem generatePostMetrics_garment_bindings_frame (env : Env) (scale : Scale) (s : GenState) :
    (generatePostMetrics env scale s).garment_bindings = s.garment_bindings := rfl

theorem generateConversations_garment_bindings_frame (env : Env) (scale : Scale) (s : GenState) :
    (generateConversations env scale s).garment_bindings = s.garment_bindings := rfl

theorem generateOrders_garment_bindings_frame (env : Env) (scale : Scale) (s : GenState) :
    (generateOrders env scale s).garment_bindings = s.garment_bindings := rfl

theorem generateCustomerJourneys_garment_bindings_frame (env : Env) (scale : Scale) (s : GenState) :
    (generateCustomerJourneys env scale s).garment_bindings = s.garment_bindings := rfl

theorem generateDailyAggregates_garment_bindings_frame (env : Env) (scale : Scale) (s : GenState) :
    (generateDailyAggregates env scale s).garment_bindings = s.garment_bindings := rfl

theorem generateCustomerProfiles_garment_bindings_frame (env : Env) (scale : Scale) (s : GenState) :
    (generateCustomerProfiles env scale s).garment_bindings = s.garment_bindings := rfl

theorem generateDemandForecasts_garment_bindings_frame (env : Env) (scale : Scale) (s : GenState) :
    (generateDemandForecasts env scale s).garment_bindings = s.garment_bindings := rfl

theorem generateWorkspaces_customer_journeys_frame (env : Env) (scale : Scale) (s : GenState) :
    (generateWorkspaces env scale s).customer_journeys = s.customer_journeys := rfl

theorem generateProducts_customer_journeys_frame (env : Env) (scale : Scale) (s : GenState) :
    (generateProducts env scale s).customer_journeys = s.customer_journeys := rfl

theorem generateProductVariants_customer_journeys_frame (env : Env) (scale : Scale) (s : GenState) :
    (generateProductVariants env scale s).customer_journeys = s.customer_journeys := rfl

theorem generateInventoryHistory_customer_journeys_frame (env : Env) (scale : Scale) (s : GenState) :
    (generateInventoryHistory env scale s).customer_journeys = s.customer_journeys := rfl

theorem generateSocialPosts_customer_journeys_frame (env : Env) (scale : Scale) (s : GenState) :
    (generateSocialPosts env scale s).customer_journeys = s.customer_journeys := rfl

theorem generatePostMetrics_customer_journeys_frame (env : Env) (scale : Scale) (s : GenState) :
    (generatePostMetrics env scale s).customer_journeys = s.customer_journeys := rfl

theorem generateGarmentBindings_customer_journeys_frame (env : Env) (scale : Scale) (s : GenState) :
    (generateGarmentBindings env scale s).customer_journeys = s.customer_journeys := rfl

theorem generateConversations_customer_journeys_frame (env : Env) (scale : Scale) (s : GenState) :
    (generateConversations env scale s).customer_journeys = s.customer_journeys := rfl

theorem generateOrders_customer_journeys_frame (env : Env) (scale : Scale) (s : GenState) :
    (generateOrders env scale s).customer_journeys = s.customer_journeys := rfl

theorem generateDailyAggregates_customer_journeys_frame (env : Env) (scale : Scale) (s : GenState) :
    (generateDailyAggregates env scale s).customer_journeys = s.customer_journeys := rfl

theorem generateCustomerProfiles_customer_journeys_frame (env : Env) (scale : Scale) (s : GenState) :
    (generateCustomerProfiles env scale s).customer_journeys = s.customer_journeys := rfl

theorem generateDemandForecasts_customer_journeys_frame (env : Env) (scale : Scale) (s : GenState) :
    (generateDemandForecasts env scale s).customer_journeys = s.customer_journeys := rfl

theorem generateGarmentBindings_bindings_eq (env : Env) (scale : Scale) (s : GenState) :
    (generateGarmentBindings env scale s).garment_bindings =
      s.garment_bindings ++ (bindingsLoop env s.products s.post_metrics s.social_posts
        s.rng s.nid).bindings := rfl

theorem generateCustomerJourneys_journeys_eq (env : Env) (scale : Scale) (s : GenState) :
    (generateCustomerJourneys env scale s).customer_journeys =
      s.customer_journeys ++ (journeysOuter env scale s.workspacePosts s.workspaceProducts
        s.conversations s.workspaces s.rng s.nid s.fk).journeys := rfl

/-- C1: in the collections returned by generate, every child record's
foreign key resolves to exactly one parent record: each Product's and each
SocialPost's, Order's and JourneyEvent's workspace_id matches exactly one
Workspace, each Variant's product_id matches exactly one Product, and each
GarmentBinding's post_id and product_id match exactly one SocialPost and
exactly one Product respectively. -/
theorem C1_foreign_keys (env : Env) (scale : Scale) (g : Rng) :
    (∀ p ∈ (generate env scale g).products,
       (generate env scale g).workspaces.countP (fun w => w.id == p.workspace_id) = 1) ∧
    (∀ v ∈ (generate env scale g).product_variants,
       (generate env scale g).products.countP (fun p => p.id == v.product_id) = 1) ∧
    (∀ post ∈ (generate env scale g).social_posts,
       (generate env scale g).workspaces.countP (fun w => w.id == post.workspace_id) = 1) ∧
    (∀ b ∈ (generate env scale g).garment_bindings,
       (generate env scale g).social_posts.countP (fun post => post.id == b.post_id) = 1 ∧
       (generate env scale g).products.countP (fun p => p.id == b.product_id) = 1) ∧
    (∀ o ∈ (generate env scale g).orders,
       (generate env scale g).workspaces.countP (fun w => w.id == o.workspace_id) = 1) ∧
    (∀ e ∈ (generate env scale g).customer_journeys,
       (generate env scale g).workspaces.countP (fun w => w.id == e.workspace_id) = 1) := by
  refine ⟨?_, ?_, ?_, ?_, ?_, ?_⟩
  · intro p hp
    simp only [generate, generateProducts_workspaces_frame, generateProductVariants_workspaces_frame, generateInventoryHistory_workspaces_frame, generateSocialPosts_workspaces_frame, generatePostMetrics_workspaces_frame, generateGarmentBindings_workspaces_frame, generateConversations_workspaces_frame, generateOrders_workspaces_frame, generateCustomerJourneys_workspaces_frame, generateDailyAggregates_workspaces_frame, generateCustomerProfiles_workspaces_frame, generateDemandForecasts_workspaces_frame, generateProducts_accounts_frame, generateProductVariants_accounts_frame, generateInventoryHistory_accounts_frame, generateSocialPosts_accounts_frame, generatePostMetrics_accounts_frame, generateGarmentBindings_accounts_frame, generateConversations_accounts_frame, generateOrders_accounts_frame, generateCustomerJourneys_accounts_frame, generateDailyAggregates_accounts_frame, generateCustomerProfiles_accounts_frame, generateDemandForecasts_accounts_frame, generateWorkspaces_products_frame, generateProductVariants_products_frame, generateInventoryHistory_products_frame, generateSocialPosts_products_frame, generatePostMetrics_products_frame, generateGarmentBindings_products_frame, generateConversations_products_frame, generateOrders_products_frame, generateCustomerJourneys_products_frame, generateDailyAggregates_products_frame, generateCustomerProfiles_products_frame, generateDemandForecasts_products_frame, generateWorkspaces_product_variants_frame, generateProducts_product_variants_frame, generateInventoryHistory_product_variants_frame, generateSocialPosts_product_variants_frame, generatePostMetrics_product_variants_frame, generateGarmentBindings_product_variants_frame, generateConversations_product_variants_frame, generateOrders_product_variants_frame, generateCustomerJourneys_product_variants_frame, generateDailyAggregates_product_variants_frame, generateCustomerProfiles_product_variants_frame, generateDemandForecasts_product_variants_frame, generateWorkspaces_social_posts_frame, generateProducts_social_posts_frame, generateProductVariants_social_posts_frame, generateInventoryHistory_social_posts_frame, generatePostMetrics_social_posts_frame, generateGarmentBindings_social_posts_frame, generateConversations_social_posts_frame, generateOrders_social_posts_frame, generateCustomerJourneys_social_posts_frame, generateDailyAggregates_social_posts_frame, generateCustomerProfiles_social_posts_frame, generateDemandForecasts_social_posts_frame, generateWorkspaces_conversations_frame, generateProducts_conversations_frame, generateProductVariants_conversations_frame, generateInventoryHistory_conversations_frame, generateSocialPosts_conversations_frame, generatePostMetrics_conversations_frame, generateGarmentBindings_conversations_frame, generateOrders_conversations_frame, generateCustomerJourneys_conversations_frame, generateDailyAggregates_conversations_frame, generateCustomerProfiles_conversations_frame, generateDemandForecasts_conversations_frame, generateWorkspaces_orders_frame, generateProducts_orders_frame, generateProductVariants_orders_frame, generateInventoryHistory_orders_frame, generateSocialPosts_orders_frame, generatePostMetrics_orders_frame, generateGarmentBindings_orders_frame, generateConversations_orders_frame, generateCustomerJourneys_orders_frame, generateDailyAggregates_orders_frame, generateCustomerProfiles_orders_frame, generateDemandForecasts_orders_frame, generateWorkspaces_demand_forecasts_frame, generateProducts_demand_forecasts_frame, generateProductVariants_demand_forecasts_frame, generateInventoryHistory_demand_forecasts_frame, generateSocialPosts_demand_forecasts_frame, generatePostMetrics_demand_forecasts_frame, generateGarmentBindings_demand_forecasts_frame, generateConversations_demand_forecasts_frame, generateOrders_demand_forecasts_frame, generateCustomerJourneys_demand_forecasts_frame, generateDailyAggregates_demand_forecasts_frame, generateCustomerProfiles_demand_forecasts_frame, generateWorkspaces_garment_bindings_frame, generateProducts_garment_bindings_frame, generateProductVariants_garment_bindings_frame, generateInventoryHistory_garment_bindings_frame, generateSocialPosts_garment_bindings_frame, generatePostMetrics_garment_bindings_frame, generateConversations_garment_bindings_frame, generateOrders_garment_bindings_frame, generateCustomerJourneys_garment_bindings_frame, generateDailyAggregates_garment_bindings_frame, generateCustomerProfiles_garment_bindings_frame, generateDemandForecasts_garment_bindings_frame, generateWorkspaces_customer_journeys_frame, generateProducts_customer_journeys_frame, generateProductVariants_customer_journeys_frame, generateInventoryHistory_customer_journeys_frame, generateSocialPosts_customer_journeys_frame, generatePostMetrics_customer_journeys_frame, generateGarmentBindings_customer_journeys_frame, generateConversations_customer_journeys_frame, generateOrders_customer_journeys_frame, generateDailyAggregates_customer_journeys_frame, generateCustomerProfiles_customer_journeys_frame, generateDemandForecasts_customer_journeys_frame, generateWorkspaces_workspaces_eq, generateWorkspaces_accounts_eq, generateProducts_products_eq, generateProductVariants_variants_eq, generateSocialPosts_posts_eq, generateConversations_conversations_eq, generateOrders_orders_eq, generateDemandForecasts_forecasts_eq, generateGarmentBindings_bindings_eq, generateCustomerJourneys_journeys_eq, initState, List.nil_append] at hp ⊢
    obtain ⟨w, hw, he⟩ := productsOuter_wsid env scale _ _ _ _ _ p hp
    exact countP_id_eq_one Workspace.id (workspacesLoop_ws_nodup env _ _ _ _)
      (List.mem_map.mpr ⟨w, hw, he.symm⟩)
  · intro v hv
    simp only [generate, generateProducts_workspaces_frame, generateProductVariants_workspaces_frame, generateInventoryHistory_workspaces_frame, generateSocialPosts_workspaces_frame, generatePostMetrics_workspaces_frame, generateGarmentBindings_workspaces_frame, generateConversations_workspaces_frame, generateOrders_workspaces_frame, generateCustomerJourneys_workspaces_frame, generateDailyAggregates_workspaces_frame, generateCustomerProfiles_workspaces_frame, generateDemandForecasts_workspaces_frame, generateProducts_accounts_frame, generateProductVariants_accounts_frame, generateInventoryHistory_accounts_frame, generateSocialPosts_accounts_frame, generatePostMetrics_accounts_frame, generateGarmentBindings_accounts_frame, generateConversations_accounts_frame, generateOrders_accounts_frame, generateCustomerJourneys_accounts_frame, generateDailyAggregates_accounts_frame, generateCustomerProfiles_accounts_frame, generateDemandForecasts_accounts_frame, generateWorkspaces_products_frame, generateProductVariants_products_frame, generateInventoryHistory_products_frame, generateSocialPosts_products_frame, generatePostMetrics_products_frame, generateGarmentBindings_products_frame, generateConversations_products_frame, generateOrders_products_frame, generateCustomerJourneys_products_frame, generateDailyAggregates_products_frame, generateCustomerProfiles_products_frame, generateDemandForecasts_products_frame, generateWorkspaces_product_variants_frame, generateProducts_product_variants_frame, generateInventoryHistory_product_variants_frame, generateSocialPosts_product_variants_frame, generatePostMetrics_product_variants_frame, generateGarmentBindings_product_variants_frame, generateConversations_product_variants_frame, generateOrders_product_variants_frame, generateCustomerJourneys_product_variants_frame, generateDailyAggregates_product_variants_frame, generateCustomerProfiles_product_variants_frame, generateDemandForecasts_product_variants_frame, generateWorkspaces_social_posts_frame, generateProducts_social_posts_frame, generateProductVariants_social_posts_frame, generateInventoryHistory_social_posts_frame, generatePostMetrics_social_posts_frame, generateGarmentBindings_social_posts_frame, generateConversations_social_posts_frame, generateOrders_social_posts_frame, generateCustomerJourneys_social_posts_frame, generateDailyAggregates_social_posts_frame, generateCustomerProfiles_social_posts_frame, generateDemandForecasts_social_posts_frame, generateWorkspaces_conversations_frame, generateProducts_conversations_frame, generateProductVariants_conversations_frame, generateInventoryHistory_conversations_frame, generateSocialPosts_conversations_frame, generatePostMetrics_conversations_frame, generateGarmentBindings_conversations_frame, generateOrders_conversations_frame, generateCustomerJourneys_conversations_frame, generateDailyAggregates_conversations_frame, generateCustomerProfiles_conversations_frame, generateDemandForecasts_conversations_frame, generateWorkspaces_orders_frame, generateProducts_orders_frame, generateProductVariants_orders_frame, generateInventoryHistory_orders_frame, generateSocialPosts_orders_frame, generatePostMetrics_orders_frame, generateGarmentBindings_orders_frame, generateConversations_orders_frame, generateCustomerJourneys_orders_frame, generateDailyAggregates_orders_frame, generateCustomerProfiles_orders_frame, generateDemandForecasts_orders_frame, generateWorkspaces_demand_forecasts_frame, generateProducts_demand_forecasts_frame, generateProductVariants_demand_forecasts_frame, generateInventoryHistory_demand_forecasts_frame, generateSocialPosts_demand_forecasts_frame, generatePostMetrics_demand_forecasts_frame, generateGarmentBindings_demand_forecasts_frame, generateConversations_demand_forecasts_frame, generateOrders_demand_forecasts_frame, generateCustomerJourneys_demand_forecasts_frame, generateDailyAggregates_demand_forecasts_frame, generateCustomerProfiles_demand_forecasts_frame, generateWorkspaces_garment_bindings_frame, generateProducts_garment_bindings_frame, generateProductVariants_garment_bindings_frame, generateInventoryHistory_garment_bindings_frame, generateSocialPosts_garment_bindings_frame, generatePostMetrics_garment_bindings_frame, generateConversations_garment_bindings_frame, generateOrders_garment_bindings_frame, generateCustomerJourneys_garment_bindings_frame, generateDailyAggregates_garment_bindings_frame, generateCustomerProfiles_garment_bindings_frame, generateDemandForecasts_garment_bindings_frame, generateWorkspaces_customer_journeys_frame, generateProducts_customer_journeys_frame, generateProductVariants_customer_journeys_frame, generateInventoryHistory_customer_journeys_frame, generateSocialPosts_customer_journeys_frame, generatePostMetrics_customer_journeys_frame, generateGarmentBindings_customer_journeys_frame, generateConversations_customer_journeys_frame, generateOrders_customer_journeys_frame, generateDailyAggregates_customer_journeys_frame, generateCustomerProfiles_customer_journeys_frame, generateDemandForecasts_customer_journeys_frame, generateWorkspaces_workspaces_eq, generateWorkspaces_accounts_eq, generateProducts_products_eq, generateProductVariants_variants_eq, generateSocialPosts_posts_eq, generateConversations_conversations_eq, generateOrders_orders_eq, generateDemandForecasts_forecasts_eq, generateGarmentBindings_bindings_eq, generateCustomerJourneys_journeys_eq, initState, List.nil_append] at hv ⊢
    obtain ⟨p, hp, he⟩ := variantsOuter_pid env scale _ _ _ _ v hv
    exact countP_id_eq_one Product.id (productsOuter_nodup env scale _ _ _ _ _)
      (List.mem_map.mpr ⟨p, hp, he.symm⟩)
  · intro post hpost
    simp only [generate, generateProducts_workspaces_frame, generateProductVariants_workspaces_frame, generateInventoryHistory_workspaces_frame, generateSocialPosts_workspaces_frame, generatePostMetrics_workspaces_frame, generateGarmentBindings_workspaces_frame, generateConversations_workspaces_frame, generateOrders_workspaces_frame, generateCustomerJourneys_workspaces_frame, generateDailyAggregates_workspaces_frame, generateCustomerProfiles_workspaces_frame, generateDemandForecasts_workspaces_frame, generateProducts_accounts_frame, generateProductVariants_accounts_frame, generateInventoryHistory_accounts_frame, generateSocialPosts_accounts_frame, generatePostMetrics_accounts_frame, generateGarmentBindings_accounts_frame, generateConversations_accounts_frame, generateOrders_accounts_frame, generateCustomerJourneys_accounts_frame, generateDailyAggregates_accounts_frame, generateCustomerProfiles_accounts_frame, generateDemandForecasts_accounts_frame, generateWorkspaces_products_frame, generateProductVariants_products_frame, generateInventoryHistory_products_frame, generateSocialPosts_products_frame, generatePostMetrics_products_frame, generateGarmentBindings_products_frame, generateConversations_products_frame, generateOrders_products_frame, generateCustomerJourneys_products_frame, generateDailyAggregates_products_frame, generateCustomerProfiles_products_frame, generateDemandForecasts_products_frame, generateWorkspaces_product_variants_frame, generateProducts_product_variants_frame, generateInventoryHistory_product_variants_frame, generateSocialPosts_product_variants_frame, generatePostMetrics_product_variants_frame, generateGarmentBindings_product_variants_frame, generateConversations_product_variants_frame, generateOrders_product_variants_frame, generateCustomerJourneys_product_variants_frame, generateDailyAggregates_product_variants_frame, generateCustomerProfiles_product_variants_frame, generateDemandForecasts_product_variants_frame, generateWorkspaces_social_posts_frame, generateProducts_social_posts_frame, generateProductVariants_social_posts_frame, generateInventoryHistory_social_posts_frame, generatePostMetrics_social_posts_frame, generateGarmentBindings_social_posts_frame, generateConversations_social_posts_frame, generateOrders_social_posts_frame, generateCustomerJourneys_social_posts_frame, generateDailyAggregates_social_posts_frame, generateCustomerProfiles_social_posts_frame, generateDemandForecasts_social_posts_frame, generateWorkspaces_conversations_frame, generateProducts_conversations_frame, generateProductVariants_conversations_frame, generateInventoryHistory_conversations_frame, generateSocialPosts_conversations_frame, generatePostMetrics_conversations_frame, generateGarmentBindings_conversations_frame, generateOrders_conversations_frame, generateCustomerJourneys_conversations_frame, generateDailyAggregates_conversations_frame, generateCustomerProfiles_conversations_frame, generateDemandForecasts_conversations_frame, generateWorkspaces_orders_frame, generateProducts_orders_frame, generateProductVariants_orders_frame, generateInventoryHistory_orders_frame, generateSocialPosts_orders_frame, generatePostMetrics_orders_frame, generateGarmentBindings_orders_frame, generateConversations_orders_frame, generateCustomerJourneys_orders_frame, generateDailyAggregates_orders_frame, generateCustomerProfiles_orders_frame, generateDemandForecasts_orders_frame, generateWorkspaces_demand_forecasts_frame, generateProducts_demand_forecasts_frame, generateProductVariants_demand_forecasts_frame, generateInventoryHistory_demand_forecasts_frame, generateSocialPosts_demand_forecasts_frame, generatePostMetrics_demand_forecasts_frame, generateGarmentBindings_demand_forecasts_frame, generateConversations_demand_forecasts_frame, generateOrders_demand_forecasts_frame, generateCustomerJourneys_demand_forecasts_frame, generateDailyAggregates_demand_forecasts_frame, generateCustomerProfiles_demand_forecasts_frame, generateWorkspaces_garment_bindings_frame, generateProducts_garment_bindings_frame, generateProductVariants_garment_bindings_frame, generateInventoryHistory_garment_bindings_frame, generateSocialPosts_garment_bindings_frame, generatePostMetrics_garment_bindings_frame, generateConversations_garment_bindings_frame, generateOrders_garment_bindings_frame, generateCustomerJourneys_garment_bindings_frame, generateDailyAggregates_garment_bindings_frame, generateCustomerProfiles_garment_bindings_frame, generateDemandForecasts_garment_bindings_frame, generateWorkspaces_customer_journeys_frame, generateProducts_customer_journeys_frame, generateProductVariants_customer_journeys_frame, generateInventoryHistory_customer_journeys_frame, generateSocialPosts_customer_journeys_frame, generatePostMetrics_customer_journeys_frame, generateGarmentBindings_customer_journeys_frame, generateConversations_customer_journeys_frame, generateOrders_customer_journeys_frame, generateDailyAggregates_customer_journeys_frame, generateCustomerProfiles_customer_journeys_frame, generateDemandForecasts_customer_journeys_frame, generateWorkspaces_workspaces_eq, generateWorkspaces_accounts_eq, generateProducts_products_eq, generateProductVariants_variants_eq, generateSocialPosts_posts_eq, generateConversations_conversations_eq, generateOrders_orders_eq, generateDemandForecasts_forecasts_eq, generateGarmentBindings_bindings_eq, generateCustomerJourneys_journeys_eq, initState, List.nil_append] at hpost ⊢
    obtain ⟨w, hw, he⟩ := postsOuter_wsid env scale _ _ _ _ _ _ post hpost
    exact countP_id_eq_one Workspace.id (workspacesLoop_ws_nodup env _ _ _ _)
      (List.mem_map.mpr ⟨w, hw, he.symm⟩)
  · intro b hb
    simp only [generate, generateProducts_workspaces_frame, generateProductVariants_workspaces_frame, generateInventoryHistory_workspaces_frame, generateSocialPosts_workspaces_frame, generatePostMetrics_workspaces_frame, generateGarmentBindings_workspaces_frame, generateConversations_workspaces_frame, generateOrders_workspaces_frame, generateCustomerJourneys_workspaces_frame, generateDailyAggregates_workspaces_frame, generateCustomerProfiles_workspaces_frame, generateDemandForecasts_workspaces_frame, generateProducts_accounts_frame, generateProductVariants_accounts_frame, generateInventoryHistory_accounts_frame, generateSocialPosts_accounts_frame, generatePostMetrics_accounts_frame, generateGarmentBindings_accounts_frame, generateConversations_accounts_frame, generateOrders_accounts_frame, generateCustomerJourneys_accounts_frame, generateDailyAggregates_accounts_frame, generateCustomerProfiles_accounts_frame, generateDemandForecasts_accounts_frame, generateWorkspaces_products_frame, generateProductVariants_products_frame, generateInventoryHistory_products_frame, generateSocialPosts_products_frame, generatePostMetrics_products_frame, generateGarmentBindings_products_frame, generateConversations_products_frame, generateOrders_products_frame, generateCustomerJourneys_products_frame, generateDailyAggregates_products_frame, generateCustomerProfiles_products_frame, generateDemandForecasts_products_frame, generateWorkspaces_product_variants_frame, generateProducts_product_variants_frame, generateInventoryHistory_product_variants_frame, generateSocialPosts_product_variants_frame, generatePostMetrics_product_variants_frame, generateGarmentBindings_product_variants_frame, generateConversations_product_variants_frame, generateOrders_product_variants_frame, generateCustomerJourneys_product_variants_frame, generateDailyAggregates_product_variants_frame, generateCustomerProfiles_product_variants_frame, generateDemandForecasts_product_variants_frame, generateWorkspaces_social_posts_frame, generateProducts_social_posts_frame, generateProductVariants_social_posts_frame, generateInventoryHistory_social_posts_frame, generatePostMetrics_social_posts_frame, generateGarmentBindings_social_posts_frame, generateConversations_social_posts_frame, generateOrders_social_posts_frame, generateCustomerJourneys_social_posts_frame, generateDailyAggregates_social_posts_frame, generateCustomerProfiles_social_posts_frame, generateDemandForecasts_social_posts_frame, generateWorkspaces_conversations_frame, generateProducts_conversations_frame, generateProductVariants_conversations_frame, generateInventoryHistory_conversations_frame, generateSocialPosts_conversations_frame, generatePostMetrics_conversations_frame, generateGarmentBindings_conversations_frame, generateOrders_conversations_frame, generateCustomerJourneys_conversations_frame, generateDailyAggregates_conversations_frame, generateCustomerProfiles_conversations_frame, generateDemandForecasts_conversations_frame, generateWorkspaces_orders_frame, generateProducts_orders_frame, generateProductVariants_orders_frame, generateInventoryHistory_orders_frame, generateSocialPosts_orders_frame, generatePostMetrics_orders_frame, generateGarmentBindings_orders_frame, generateConversations_orders_frame, generateCustomerJourneys_orders_frame, generateDailyAggregates_orders_frame, generateCustomerProfiles_orders_frame, generateDemandForecasts_orders_frame, generateWorkspaces_demand_forecasts_frame, generateProducts_demand_forecasts_frame, generateProductVariants_demand_forecasts_frame, generateInventoryHistory_demand_forecasts_frame, generateSocialPosts_demand_forecasts_frame, generatePostMetrics_demand_forecasts_frame, generateGarmentBindings_demand_forecasts_frame, generateConversations_demand_forecasts_frame, generateOrders_demand_forecasts_frame, generateCustomerJourneys_demand_forecasts_frame, generateDailyAggregates_demand_forecasts_frame, generateCustomerProfiles_demand_forecasts_frame, generateWorkspaces_garment_bindings_frame, generateProducts_garment_bindings_frame, generateProductVariants_garment_bindings_frame, generateInventoryHistory_garment_bindings_frame, generateSocialPosts_garment_bindings_frame, generatePostMetrics_garment_bindings_frame, generateConversations_garment_bindings_frame, generateOrders_garment_bindings_frame, generateCustomerJourneys_garment_bindings_frame, generateDailyAggregates_garment_bindings_frame, generateCustomerProfiles_garment_bindings_frame, generateDemandForecasts_garment_bindings_frame, generateWorkspaces_customer_journeys_frame, generateProducts_customer_journeys_frame, generateProductVariants_customer_journeys_frame, generateInventoryHistory_customer_journeys_frame, generateSocialPosts_customer_journeys_frame, generatePostMetrics_customer_journeys_frame, generateGarmentBindings_customer_journeys_frame, generateConversations_customer_journeys_frame, generateOrders_customer_journeys_frame, generateDailyAggregates_customer_journeys_frame, generateCustomerProfiles_customer_journeys_frame, generateDemandForecasts_customer_journeys_frame, generateWorkspaces_workspaces_eq, generateWorkspaces_accounts_eq, generateProducts_products_eq, generateProductVariants_variants_eq, generateSocialPosts_posts_eq, generateConversations_conversations_eq, generateOrders_orders_eq, generateDemandForecasts_forecasts_eq, generateGarmentBindings_bindings_eq, generateCustomerJourneys_journeys_eq, initState, List.nil_append] at hb ⊢
    obtain ⟨⟨post, hpost, hep⟩, ⟨p, hp, heq⟩⟩ := bindingsLoop_fk env _ _ _ _ _ b hb
    constructor
    · exact countP_id_eq_one SocialPost.id (postsOuter_nodup env scale _ _ _ _ _ _)
        (List.mem_map.mpr ⟨post, hpost, hep.symm⟩)
    · exact countP_id_eq_one Product.id (productsOuter_nodup env scale _ _ _ _ _)
        (List.mem_map.mpr ⟨p, hp, heq.symm⟩)
  · intro o ho
    simp only [generate, generateProducts_workspaces_frame, generateProductVariants_workspaces_frame, generateInventoryHistory_workspaces_frame, generateSocialPosts_workspaces_frame, generatePostMetrics_workspaces_frame, generateGarmentBindings_workspaces_frame, generateConversations_workspaces_frame, generateOrders_workspaces_frame, generateCustomerJourneys_workspaces_frame, generateDailyAggregates_workspaces_frame, generateCustomerProfiles_workspaces_frame, generateDemandForecasts_workspaces_frame, generateProducts_accounts_frame, generateProductVariants_accounts_frame, generateInventoryHistory_accounts_frame, generateSocialPosts_accounts_frame, generatePostMetrics_accounts_frame, generateGarmentBindings_accounts_frame, generateConversations_accounts_frame, generateOrders_accounts_frame, generateCustomerJourneys_accounts_frame, generateDailyAggregates_accounts_frame, generateCustomerProfiles_accounts_frame, generateDemandForecasts_accounts_frame, generateWorkspaces_products_frame, generateProductVariants_products_frame, generateInventoryHistory_products_frame, generateSocialPosts_products_frame, generatePostMetrics_products_frame, generateGarmentBindings_products_frame, generateConversations_products_frame, generateOrders_products_frame, generateCustomerJourneys_products_frame, generateDailyAggregates_products_frame, generateCustomerProfiles_products_frame, generateDemandForecasts_products_frame, generateWorkspaces_product_variants_frame, generateProducts_product_variants_frame, generateInventoryHistory_product_variants_frame, generateSocialPosts_product_variants_frame, generatePostMetrics_product_variants_frame, generateGarmentBindings_product_variants_frame, generateConversations_product_variants_frame, generateOrders_product_variants_frame, generateCustomerJourneys_product_variants_frame, generateDailyAggregates_product_variants_frame, generateCustomerProfiles_product_variants_frame, generateDemandForecasts_product_variants_frame, generateWorkspaces_social_posts_frame, generateProducts_social_posts_frame, generateProductVariants_social_posts_frame, generateInventoryHistory_social_posts_frame, generatePostMetrics_social_posts_frame, generateGarmentBindings_social_posts_frame, generateConversations_social_posts_frame, generateOrders_social_posts_frame, generateCustomerJourneys_social_posts_frame, generateDailyAggregates_social_posts_frame, generateCustomerProfiles_social_posts_frame, generateDemandForecasts_social_posts_frame, generateWorkspaces_conversations_frame, generateProducts_conversations_frame, generateProductVariants_conversations_frame, generateInventoryHistory_conversations_frame, generateSocialPosts_conversations_frame, generatePostMetrics_conversations_frame, generateGarmentBindings_conversations_frame, generateOrders_conversations_frame, generateCustomerJourneys_conversations_frame, generateDailyAggregates_conversations_frame, generateCustomerProfiles_conversations_frame, generateDemandForecasts_conversations_frame, generateWorkspaces_orders_frame, generateProducts_orders_frame, generateProductVariants_orders_frame, generateInventoryHistory_orders_frame, generateSocialPosts_orders_frame, generatePostMetrics_orders_frame, generateGarmentBindings_orders_frame, generateConversations_orders_frame, generateCustomerJourneys_orders_frame, generateDailyAggregates_orders_frame, generateCustomerProfiles_orders_frame, generateDemandForecasts_orders_frame, generateWorkspaces_demand_forecasts_frame, generateProducts_demand_forecasts_frame, generateProductVariants_demand_forecasts_frame, generateInventoryHistory_demand_forecasts_frame, generateSocialPosts_demand_forecasts_frame, generatePostMetrics_demand_forecasts_frame, generateGarmentBindings_demand_forecasts_frame, generateConversations_demand_forecasts_frame, generateOrders_demand_forecasts_frame, generateCustomerJourneys_demand_forecasts_frame, generateDailyAggregates_demand_forecasts_frame, generateCustomerProfiles_demand_forecasts_frame, generateWorkspaces_garment_bindings_frame, generateProducts_garment_bindings_frame, generateProductVariants_garment_bindings_frame, generateInventoryHistory_garment_bindings_frame, generateSocialPosts_garment_bindings_frame, generatePostMetrics_garment_bindings_frame, generateConversations_garment_bindings_frame, generateOrders_garment_bindings_frame, generateCustomerJourneys_garment_bindings_frame, generateDailyAggregates_garment_bindings_frame, generateCustomerProfiles_garment_bindings_frame, generateDemandForecasts_garment_bindings_frame, generateWorkspaces_customer_journeys_frame, generateProducts_customer_journeys_frame, generateProductVariants_customer_journeys_frame, generateInventoryHistory_customer_journeys_frame, generateSocialPosts_customer_journeys_frame, generatePostMetrics_customer_journeys_frame, generateGarmentBindings_customer_journeys_frame, generateConversations_customer_journeys_frame, generateOrders_customer_journeys_frame, generateDailyAggregates_customer_journeys_frame, generateCustomerProfiles_customer_journeys_frame, generateDemandForecasts_customer_journeys_frame, generateWorkspaces_workspaces_eq, generateWorkspaces_accounts_eq, generateProducts_products_eq, generateProductVariants_variants_eq, generateSocialPosts_posts_eq, generateConversations_conversations_eq, generateOrders_orders_eq, generateDemandForecasts_forecasts_eq, generateGarmentBindings_bindings_eq, generateCustomerJourneys_journeys_eq, initState, List.nil_append] at ho ⊢
    obtain ⟨w, hw, he⟩ := ordersOuter_wsid env scale _ _ _ _ _ _ _ o ho
    exact countP_id_eq_one Workspace.id (workspacesLoop_ws_nodup env _ _ _ _)
      (List.mem_map.mpr ⟨w, hw, he.symm⟩)
  · intro e he
    simp only [generate, generateProducts_workspaces_frame, generateProductVariants_workspaces_frame, generateInventoryHistory_workspaces_frame, generateSocialPosts_workspaces_frame, generatePostMetrics_workspaces_frame, generateGarmentBindings_workspaces_frame, generateConversations_workspaces_frame, generateOrders_workspaces_frame, generateCustomerJourneys_workspaces_frame, generateDailyAggregates_workspaces_frame, generateCustomerProfiles_workspaces_frame, generateDemandForecasts_workspaces_frame, generateProducts_accounts_frame, generateProductVariants_accounts_frame, generateInventoryHistory_accounts_frame, generateSocialPosts_accounts_frame, generatePostMetrics_accounts_frame, generateGarmentBindings_accounts_frame, generateConversations_accounts_frame, generateOrders_accounts_frame, generateCustomerJourneys_accounts_frame, generateDailyAggregates_accounts_frame, generateCustomerProfiles_accounts_frame, generateDemandForecasts_accounts_frame, generateWorkspaces_products_frame, generateProductVariants_products_frame, generateInventoryHistory_products_frame, generateSocialPosts_products_frame, generatePostMetrics_products_frame, generateGarmentBindings_products_frame, generateConversations_products_frame, generateOrders_products_frame, generateCustomerJourneys_products_frame, generateDailyAggregates_products_frame, generateCustomerProfiles_products_frame, generateDemandForecasts_products_frame, generateWorkspaces_product_variants_frame, generateProducts_product_variants_frame, generateInventoryHistory_product_variants_frame, generateSocialPosts_product_variants_frame, generatePostMetrics_product_variants_frame, generateGarmentBindings_product_variants_frame, generateConversations_product_variants_frame, generateOrders_product_variants_frame, generateCustomerJourneys_product_variants_frame, generateDailyAggregates_product_variants_frame, generateCustomerProfiles_product_variants_frame, generateDemandForecasts_product_variants_frame, generateWorkspaces_social_posts_frame, generateProducts_social_posts_frame, generateProductVariants_social_posts_frame, generateInventoryHistory_social_posts_frame, generatePostMetrics_social_posts_frame, generateGarmentBindings_social_posts_frame, generateConversations_social_posts_frame, generateOrders_social_posts_frame, generateCustomerJourneys_social_posts_frame, generateDailyAggregates_social_posts_frame, generateCustomerProfiles_social_posts_frame, generateDemandForecasts_social_posts_frame, generateWorkspaces_conversations_frame, generateProducts_conversations_frame, generateProductVariants_conversations_frame, generateInventoryHistory_conversations_frame, generateSocialPosts_conversations_frame, generatePostMetrics_conversations_frame, generateGarmentBindings_conversations_frame, generateOrders_conversations_frame, generateCustomerJourneys_conversations_frame, generateDailyAggregates_conversations_frame, generateCustomerProfiles_conversations_frame, generateDemandForecasts_conversations_frame, generateWorkspaces_orders_frame, generateProducts_orders_frame, generateProductVariants_orders_frame, generateInventoryHistory_orders_frame, generateSocialPosts_orders_frame, generatePostMetrics_orders_frame, generateGarmentBindings_orders_frame, generateConversations_orders_frame, generateCustomerJourneys_orders_frame, generateDailyAggregates_orders_frame, generateCustomerProfiles_orders_frame, generateDemandForecasts_orders_frame, generateWorkspaces_demand_forecasts_frame, generateProducts_demand_forecasts_frame, generateProductVariants_demand_forecasts_frame, generateInventoryHistory_demand_forecasts_frame, generateSocialPosts_demand_forecasts_frame, generatePostMetrics_demand_forecasts_frame, generateGarmentBindings_demand_forecasts_frame, generateConversations_demand_forecasts_frame, generateOrders_demand_forecasts_frame, generateCustomerJourneys_demand_forecasts_frame, generateDailyAggregates_demand_forecasts_frame, generateCustomerProfiles_demand_forecasts_frame, generateWorkspaces_garment_bindings_frame, generateProducts_garment_bindings_frame, generateProductVariants_garment_bindings_frame, generateInventoryHistory_garment_bindings_frame, generateSocialPosts_garment_bindings_frame, generatePostMetrics_garment_bindings_frame, generateConversations_garment_bindings_frame, generateOrders_garment_bindings_frame, generateCustomerJourneys_garment_bindings_frame, generateDailyAggregates_garment_bindings_frame, generateCustomerProfiles_garment_bindings_frame, generateDemandForecasts_garment_bindings_frame, generateWorkspaces_customer_journeys_frame, generateProducts_customer_journeys_frame, generateProductVariants_customer_journeys_frame, generateInventoryHistory_customer_journeys_frame, generateSocialPosts_customer_journeys_frame, generatePostMetrics_customer_journeys_frame, generateGarmentBindings_customer_journeys_frame, generateConversations_customer_journeys_frame, generateOrders_customer_journeys_frame, generateDailyAggregates_customer_journeys_frame, generateCustomerProfiles_customer_journeys_frame, generateDemandForecasts_customer_journeys_frame, generateWorkspaces_workspaces_eq, generateWorkspaces_accounts_eq, generateProducts_products_eq, generateProductVariants_variants_eq, generateSocialPosts_posts_eq, generateConversations_conversations_eq, generateOrders_orders_eq, generateDemandForecasts_forecasts_eq, generateGarmentBindings_bindings_eq, generateCustomerJourneys_journeys_eq, initState, List.nil_append] at he ⊢
    obtain ⟨w, hw, hee⟩ := journeysOuter_wsid env scale _ _ _ _ _ _ _ e he
    exact countP_id_eq_one Workspace.id (workspacesLoop_ws_nodup env _ _ _ _)
      (List.mem_map.mpr ⟨w, hw, hee.symm⟩)

/-- Witness for C1 at a concrete tiny run: its first product is in the run's
products and its workspace foreign key resolves to exactly one workspace. -/
theorem C1_foreign_keys_witness :
    0 < (generate oracleEnv tinyScale (constRng (1/2))).products.length ∧
    (generate oracleEnv tinyScale (constRng (1/2))).workspaces.countP
      (fun w => w.id == witnessProduct.workspace_id) = 1 :=
  ⟨by decide, (C1_foreign_keys oracleEnv tinyScale (constRng (1/2))).1 witnessProduct
    (List.get_mem _ _ _)⟩

end EcomSynth
